import Mathlib

/-!
Verification development for the rift-assistant advisor core.

The Python sources are shallowly embedded:
* strings are `List Char` (`Str`); `str.lower()/strip()/in` become executable
  functions on `Str`;
* Python `re.search` truthiness is modelled by a small regular-expression
  engine (Brzozowski derivatives); only the existence of a match matters for
  the classification code paths, so greedy/lazy distinctions are immaterial
  there, and the capture-group extractors (`group(1)` of `\+(\d+)` etc.) are
  modelled by dedicated leftmost-match scanners;
* Python floats are modelled as exact rationals `ℚ`; every numeric constant
  appearing in the translated code paths is a small decimal, so the rational
  model agrees with IEEE evaluation on all facts proved below;
* fallible code paths (places where the Python would raise) return `Option`.
-/

/-- Python strings are modelled as lists of characters. -/
abbrev Str := List Char

/-- Coerce a Lean string literal to the `Str` model. -/
def str (s : String) : Str := s.data

/-- The apostrophe character (used inside needles such as "can't"). -/
def apos : Char := Char.ofNat 39

/-- Python `str.lower()` (the sources only ever lower ASCII text). -/
def pyLower (s : Str) : Str := s.map Char.toLower

/-- Characters removed by Python `str.strip()`. -/
def pyIsSpace (c : Char) : Bool :=
  c == ' ' || c == '\t' || c == '\n' || c == '\r' || c == Char.ofNat 11 || c == Char.ofNat 12

/-- Python `str.strip()`. -/
def pyStrip (s : Str) : Str :=
  ((s.dropWhile pyIsSpace).reverse.dropWhile pyIsSpace).reverse

/-- Boolean prefix test. -/
def isPrefixB : Str → Str → Bool
  | [], _ => true
  | _ :: _, [] => false
  | a :: as, b :: bs => a == b && isPrefixB as bs

/-- Python `needle in hay` (substring containment). -/
def pyIn (needle hay : Str) : Bool :=
  isPrefixB needle hay ||
    match hay with
    | [] => false
    | _ :: t => pyIn needle t

/-- Python `", ".join(parts)`. -/
def pyJoin (sep : Str) : List Str → Str
  | [] => []
  | [x] => x
  | x :: xs => x ++ sep ++ pyJoin sep xs

/-- Decimal rendering of naturals (agrees with Python for non-negative ints). -/
def natStr (n : Nat) : Str := (toString n).data

/-- Decimal rendering of integers. -/
def intStr (i : Int) : Str := (toString i).data

/-! ## Regular-expression engine

Python `re.search(pattern, text)` is used by the parser only for its
truthiness, so a boolean matcher suffices.  `.` of Python `re` matches any
character except a newline; `\d` and `\s` are modelled on the ASCII inputs the
parser lowercases.  `^`-anchored patterns are searched at position 0 only
(`re.MULTILINE` is never used by the sources). -/

inductive RX where
  | fail
  | eps
  | anyc
  | lit (c : Char)
  | digit
  | spc
  | seq (a b : RX)
  | alt (a b : RX)
  | star (a : RX)

def RX.nullable : RX → Bool
  | .fail => false
  | .eps => true
  | .anyc => false
  | .lit _ => false
  | .digit => false
  | .spc => false
  | .seq a b => a.nullable && b.nullable
  | .alt a b => a.nullable || b.nullable
  | .star _ => true

def RX.deriv : RX → Char → RX
  | .fail, _ => .fail
  | .eps, _ => .fail
  | .anyc, c => if c == '\n' then .fail else .eps
  | .lit d, c => if c == d then .eps else .fail
  | .digit, c => if c.isDigit then .eps else .fail
  | .spc, c => if pyIsSpace c then .eps else .fail
  | .seq a b, c =>
      if a.nullable then .alt (.seq (a.deriv c) b) (b.deriv c)
      else .seq (a.deriv c) b
  | .alt a b, c => .alt (a.deriv c) (b.deriv c)
  | .star a, c => .seq (a.deriv c) (.star a)

/-- Does some prefix of `s` match `r`? -/
def RX.matchHere (r : RX) : Str → Bool
  | [] => r.nullable
  | c :: t => r.nullable || (r.deriv c).matchHere t

/-- Does `r` match starting at some position of `s`? -/
def RX.searchFrom (r : RX) : Str → Bool
  | [] => r.matchHere []
  | c :: t => r.matchHere (c :: t) || r.searchFrom t

/-- One entry of a Python pattern table: the regex plus whether it began
with `^` (in which case `re.search` only tries position 0). -/
structure Pattern where
  anchored : Bool
  rx : RX

/-- `bool(re.search(pattern, text))`. -/
def reSearch (p : Pattern) (s : Str) : Bool :=
  if p.anchored then p.rx.matchHere s else p.rx.searchFrom s

/-- Concatenation of a list of regexes. -/
def rcats : List RX → RX
  | [] => .eps
  | [r] => r
  | r :: rs => .seq r (rcats rs)

/-- Literal-string regex. -/
def rstr (s : String) : RX := rcats (s.data.map RX.lit)

/-- Literal regex from a `Str` (used for needles containing an apostrophe). -/
def rlist (s : Str) : RX := rcats (s.map RX.lit)

/-- `(?:a)?` -/
def ropt (a : RX) : RX := .alt a .eps

/-- `a+` -/
def rplus (a : RX) : RX := .seq a (.star a)

/-- `\d+` -/
def rdigits : RX := rplus .digit

/-- The `[:\s]` character class. -/
def rColonOrSpace : RX := .alt (.lit ':') .spc

/-- `(?:this|.*?)` — for match existence the lazy `.*?` behaves as `.*`. -/
def rThisOrAny : RX := .alt (rstr "this") (.star .anyc)

/-! ## ability_parser.py — data types -/

/-- `AbilityType` (ability_parser.py). -/
inductive AbilityType where
  | ENTERS_BATTLEFIELD | LEAVES_BATTLEFIELD | DIES | ATTACKS | BLOCKS
  | DEALS_DAMAGE | TAKES_DAMAGE | START_OF_TURN | END_OF_TURN
  | TAP_ABILITY | EXHAUST_ABILITY | SACRIFICE_ABILITY | PAY_COST_ABILITY
  | STATIC_BUFF | STATIC_DEBUFF | COST_REDUCTION | PROTECTION | AURA
  | KEYWORD
  | CHOOSE_EFFECT | MODAL | COPY_SPELL | DRAW_CARDS | DISCARD
  | DESTROY | EXILE | BOUNCE | DAMAGE
  | BUFF_SELF | BUFF_TARGET | BUFF_ALL
  | RUNE_GENERATION | ENERGY_GENERATION
  | LEGEND_INTERACTION | DOMAIN_MATTERS | TRIBAL_MATTERS | COUNTER
deriving DecidableEq, Repr

/-- `EffectTarget` (ability_parser.py). -/
inductive EffectTarget where
  | SELF | TARGET_UNIT | TARGET_SPELL | TARGET_PLAYER | ALL_UNITS
  | YOUR_UNITS | OPPONENT_UNITS | YOUR_LEGEND | OPPONENT_LEGEND
  | BATTLEFIELD | HAND | DECK | GRAVEYARD
deriving DecidableEq, Repr

/-- `EffectTiming` (ability_parser.py). -/
inductive EffectTiming where
  | INSTANT | MAIN_PHASE | COMBAT | ALWAYS | ON_TRIGGER
deriving DecidableEq, Repr

/-- `ParsedAbility` (ability_parser.py); the dataclass `__post_init__`
replaces `None` conditions/keywords with `[]`, which the constructors below
apply directly. -/
structure ParsedAbility where
  ability_type : AbilityType
  raw_text : Str
  effect_target : Option EffectTarget := none
  timing : EffectTiming := EffectTiming.ALWAYS
  cost : Option Str := none
  effect_value : Option Int := none
  conditions : List Str := []
  keywords_granted : List Str := []
  domain_restriction : Option Str := none
deriving DecidableEq, Repr

/-! ## ability_parser.py — pattern tables

Ordered exactly as the Python class attributes (3.7+ dicts preserve
insertion order, and the parser iterates `items()` then the pattern lists). -/

/-- `AbilityParser.TRIGGERED_PATTERNS`. -/
def TRIGGERED_PATTERNS : List (AbilityType × List Pattern) :=
  [ (.ENTERS_BATTLEFIELD,
      [ ⟨false, rcats [rstr "when ", rThisOrAny, rstr " enter", ropt (.lit 's'),
          rstr " ", .alt (rstr "the battlefield") (rstr "play")]⟩,
        ⟨false, rcats [rstr "etb", rColonOrSpace]⟩,
        ⟨false, rcats [rstr "on entry", rColonOrSpace]⟩ ]),
    (.LEAVES_BATTLEFIELD,
      [ ⟨false, rcats [rstr "when ", rThisOrAny, rstr " leave", ropt (.lit 's'),
          rstr " ", .alt (rstr "the battlefield") (rstr "play")]⟩,
        ⟨false, rcats [rstr "when ", rThisOrAny, rstr " ",
          ropt (.alt (rstr "is ") (rstr "are ")), rstr "removed"]⟩ ]),
    (.DIES,
      [ ⟨false, rcats [rstr "when ", rThisOrAny, rstr " die", ropt (.lit 's')]⟩,
        ⟨false, rcats [rstr "when ", rThisOrAny, rstr " ",
          ropt (.alt (rstr "is ") (rstr "are ")), rstr "destroyed"]⟩ ]),
    (.ATTACKS,
      [ ⟨false, rcats [rstr "when", ropt (rstr "ever"), rstr " ", rThisOrAny,
          rstr " attack", ropt (.lit 's')]⟩,
        ⟨false, rcats [rstr "on attack", rColonOrSpace]⟩ ]),
    (.BLOCKS,
      [ ⟨false, rcats [rstr "when", ropt (rstr "ever"), rstr " ", rThisOrAny,
          rstr " block", ropt (.lit 's')]⟩,
        ⟨false, rcats [rstr "on block", rColonOrSpace]⟩ ]),
    (.DEALS_DAMAGE,
      [ ⟨false, rcats [rstr "when", ropt (rstr "ever"), rstr " ", rThisOrAny,
          rstr " deal", ropt (.lit 's'), rstr " damage"]⟩ ]),
    (.TAKES_DAMAGE,
      [ ⟨false, rcats [rstr "when", ropt (rstr "ever"), rstr " ", rThisOrAny,
          rstr " ", .alt (rstr "is dealt") (rcats [rstr "take", ropt (.lit 's')]),
          rstr " damage"]⟩ ]),
    (.START_OF_TURN,
      [ ⟨false, rcats [rstr "at the ", .alt (rstr "start") (rstr "beginning"),
          rstr " of ", .alt (rstr "your") (rstr "each"), rstr " turn"]⟩ ]),
    (.END_OF_TURN,
      [ ⟨false, rcats [rstr "at the end of ", .alt (rstr "your") (rstr "each"),
          rstr " turn"]⟩ ]) ]

/-- `AbilityParser.ACTIVATED_PATTERNS`. -/
def ACTIVATED_PATTERNS : List (AbilityType × List Pattern) :=
  [ (.TAP_ABILITY,
      [ ⟨true, rcats [rstr "tap", rColonOrSpace]⟩,
        ⟨true, rcats [rstr "\x7bt\x7d", rColonOrSpace]⟩ ]),
    (.EXHAUST_ABILITY,
      [ ⟨true, rcats [rstr "exhaust", rColonOrSpace]⟩,
        ⟨true, rcats [rstr "exhaust ", .alt (rstr "this") (rstr "your legend")]⟩ ]),
    (.SACRIFICE_ABILITY,
      [ ⟨true, rstr "sacrifice"⟩ ]),
    (.PAY_COST_ABILITY,
      [ ⟨true, rcats [rstr "pay ", rdigits]⟩,
        ⟨true, rcats [rdigits, rstr " energy", rColonOrSpace]⟩ ]) ]

/-- `AbilityParser.STATIC_PATTERNS`. -/
def STATIC_PATTERNS : List (AbilityType × List Pattern) :=
  [ (.STATIC_BUFF,
      [ ⟨false, rcats [.alt (rstr "your") (rstr "you control"), rstr " ",
          .alt (rcats [rstr "unit", ropt (.lit 's')]) (rcats [rstr "creature", ropt (.lit 's')]),
          rstr " ", .alt (rstr "get") (.alt (rstr "have") (rstr "gain")),
          rstr " +", rdigits]⟩,
        ⟨false, rcats [ropt (rstr "other "),
          .alt (rcats [rstr "unit", ropt (.lit 's')]) (rcats [rstr "creature", ropt (.lit 's')]),
          rstr " you control ", .alt (rstr "get") (rstr "have"), rstr " +", rdigits]⟩ ]),
    (.COST_REDUCTION,
      [ ⟨false, rcats [.alt (rcats [rstr "spell", ropt (.lit 's')]) (rcats [rstr "card", ropt (.lit 's')]),
          rstr " ", ropt (rstr "you cast "), rstr "cost", ropt (.lit 's'),
          rstr " ", rdigits, rstr " less"]⟩,
        ⟨false, rcats [rstr "reduce ", ropt (rstr "the "), rstr "cost"]⟩ ]),
    (.PROTECTION,
      [ ⟨false, rcats [rstr "can", .lit apos, rstr "t be ",
          .alt (rstr "targeted") (.alt (rstr "destroyed") (rstr "blocked"))]⟩,
        ⟨false, rcats [rstr "ha", ropt (.lit 's'), rstr " protection"]⟩,
        ⟨false, rstr "hexproof"⟩,
        ⟨false, rstr "shroud"⟩ ]),
    (.AURA,
      [ ⟨false, rcats [.alt (rcats [rstr "unit", ropt (.lit 's')]) (rcats [rstr "creature", ropt (.lit 's')]),
          rstr " you control have "]⟩ ]) ]

/-- `AbilityParser.EFFECT_PATTERNS`. -/
def EFFECT_PATTERNS : List (AbilityType × List Pattern) :=
  [ (.DESTROY,
      [ ⟨false, rcats [rstr "destroy ", .alt (rstr "target") (.alt (rstr "all") (rstr "each"))]⟩ ]),
    (.DAMAGE,
      [ ⟨false, rcats [rstr "deal", ropt (.lit 's'), rstr " ", rdigits, rstr " damage"]⟩ ]),
    (.BOUNCE,
      [ ⟨false, rcats [rstr "return ", .alt (rstr "target") (rstr "it"), rstr " to ",
          ropt (rcats [rstr "its owner", .lit apos, rstr "s "]), rstr "hand"]⟩ ]),
    (.DRAW_CARDS,
      [ ⟨false, rcats [rstr "draw ", .alt (rstr "a card")
          (rcats [rdigits, rstr " card", ropt (.lit 's')])]⟩ ]),
    (.BUFF_TARGET,
      [ ⟨false, rcats [ropt (rstr "target "), .alt (rstr "unit") (rstr "creature"),
          rstr " get", ropt (.lit 's'), rstr " +", rdigits]⟩ ]),
    (.COUNTER,
      [ ⟨false, rstr "counter target"⟩ ]) ]

/-- First `(ability_type, pattern)` hit of an ordered table, mirroring the
nested `for ability_type, patterns in ...items(): for pattern in patterns:`
loops of `_parse_ability_line`. -/
def firstTableMatch (table : List (AbilityType × List Pattern)) (lineLower : Str) :
    Option AbilityType :=
  match table with
  | [] => none
  | (t, pats) :: rest =>
      if pats.any (fun p => reSearch p lineLower) then some t
      else firstTableMatch rest lineLower

/-! ## ability_parser.py — capture extractors

These model the `group(1)` extractions of `_extract_number_value`,
`_extract_conditions` and `re.match(r'^([^:]+):', line)`: Python `re.search`
returns the leftmost match, with a greedy `\d+` taking the maximal digit run
(each pattern bounds it so the whole run must fit). -/

/-- Leading digit run of a string as a number, if non-empty. -/
def takeDigits (s : Str) : Option (Nat × Str) :=
  let run := s.takeWhile Char.isDigit
  if run.isEmpty then none
  else some (run.foldl (fun n c => 10 * n + (c.toNat - 48)) 0, s.dropWhile Char.isDigit)

/-- `re.search(r'\+(\d+)', text)` capture: leftmost `+` followed by digits. -/
def plusValue : Str → Option Nat
  | [] => none
  | c :: rest =>
      if c == '+' then
        match takeDigits rest with
        | some (n, _) => some n
        | none => plusValue rest
      else plusValue rest

/-- Strip a literal prefix. -/
def stripPrefixB (pre s : Str) : Option Str :=
  match pre, s with
  | [], s => some s
  | _ :: _, [] => none
  | a :: as, b :: bs => if a == b then stripPrefixB as bs else none

/-- At one position: `(?:deal|deals) (\d+) damage` (the two alternatives are
mutually exclusive at a fixed position). -/
def dealDamageAt (s : Str) : Option Nat := Id.run do
  let rest ←
    match stripPrefixB (str "deal ") s with
    | some r => pure r
    | none =>
      match stripPrefixB (str "deals ") s with
      | some r => pure r
      | none => return none
  match takeDigits rest with
  | some (n, after) => if isPrefixB (str " damage") after then return some n else return none
  | none => return none

/-- Leftmost match of `(?:deal|deals) (\d+) damage`. -/
def dealDamageValue : Str → Option Nat
  | [] => none
  | c :: rest =>
      match dealDamageAt (c :: rest) with
      | some n => some n
      | none => dealDamageValue rest

/-- Leftmost capture of `draw (\d+)`. -/
def drawValue : Str → Option Nat
  | [] => none
  | c :: rest =>
      match (stripPrefixB (str "draw ") (c :: rest)).bind takeDigits with
      | some (n, _) => some n
      | none => drawValue rest

/-- At one position: `cost(?:s)? (\d+) less` (alternatives mutually
exclusive at a fixed position). -/
def costLessAt (s : Str) : Option Nat := Id.run do
  let rest ←
    match stripPrefixB (str "costs ") s with
    | some r => pure r
    | none =>
      match stripPrefixB (str "cost ") s with
      | some r => pure r
      | none => return none
  match takeDigits rest with
  | some (n, after) => if isPrefixB (str " less") after then return some n else return none
  | none => return none

/-- Leftmost match of `cost(?:s)? (\d+) less`. -/
def costLessValue : Str → Option Nat
  | [] => none
  | c :: rest =>
      match costLessAt (c :: rest) with
      | some n => some n
      | none => costLessValue rest

/-- `AbilityParser._extract_number_value`. -/
def extract_number_value (text : Str) : Option Int :=
  match plusValue text with
  | some n => some (n : Int)
  | none =>
    match dealDamageValue text with
    | some n => some (n : Int)
    | none =>
      match drawValue text with
      | some n => some (n : Int)
      | none =>
        match costLessValue text with
        | some n => some (n : Int)
        | none => none

/-- The lazy capture of `(.+?)(?:[,.]|$)`: grow from one character until the
next character is `,` or `.` or the end is reached; `.` cannot cross a
newline, in which case this start position yields no match. -/
def lazyCaptureGo (acc : Str) : Str → Option Str
  | [] => some acc.reverse
  | c :: rest =>
      if c == ',' || c == '.' then some acc.reverse
      else if c == '\n' then none
      else lazyCaptureGo (c :: acc) rest

/-- One position of `kw(.+?)(?:[,.]|$)`. -/
def lazyCaptureAt (kw s : Str) : Option Str :=
  match stripPrefixB kw s with
  | none => none
  | some [] => none
  | some (c :: rest) => if c == '\n' then none else lazyCaptureGo [c] rest

/-- Leftmost match of `kw(.+?)(?:[,.]|$)` (the regexes in
`_extract_conditions` begin with their literal keyword, so every match starts
at a keyword occurrence). -/
def lazyCapture (kw : Str) : Str → Option Str
  | [] => none
  | c :: rest =>
      match lazyCaptureAt kw (c :: rest) with
      | some cap => some cap
      | none => lazyCapture kw rest

/-- `AbilityParser._extract_conditions`. -/
def extract_conditions (text : Str) : List Str :=
  let c1 : List Str :=
    if pyIn (str "if ") text then
      match lazyCapture (str "if ") text with
      | some cap => [pyStrip cap]
      | none => []
    else []
  let c2 : List Str :=
    if pyIn (str "as long as") text then
      match lazyCapture (str "as long as ") text with
      | some cap => [pyStrip cap]
      | none => []
    else []
  c1 ++ c2

/-- `AbilityParser._extract_target`. -/
def extract_target (text : Str) : Option EffectTarget :=
  if pyIn (str "target unit") text || pyIn (str "target creature") text then
    some .TARGET_UNIT
  else if pyIn (str "target spell") text then some .TARGET_SPELL
  else if pyIn (str "target player") text || pyIn (str "target opponent") text then
    some .TARGET_PLAYER
  else if pyIn (str "all units") text || pyIn (str "all creatures") text ||
      pyIn (str "each unit") text then some .ALL_UNITS
  else if pyIn (str "your units") text || pyIn (str "units you control") text ||
      pyIn (str "creatures you control") text then some .YOUR_UNITS
  else if pyIn (str "opponent") text &&
      (pyIn (str "units") text || pyIn (str "creatures") text) then
    some .OPPONENT_UNITS
  else if pyIn (str "your legend") text then some .YOUR_LEGEND
  else if pyIn (str "opponent" ++ [apos] ++ str "s legend") text ||
      pyIn (str "enemy legend") text then some .OPPONENT_LEGEND
  else if pyIn (str "this") text || isPrefixB (str "it") text then some .SELF
  else none

/-- `AbilityParser._extract_keywords_granted`. -/
def extract_keywords_granted (text : Str) : List Str :=
  let common_keywords := [str "assault", str "guard", str "flying", str "overwhelm",
    str "lifesteal", str "quick", str "ambush", str "double strike", str "first strike",
    str "vigilance", str "trample", str "hexproof", str "protection"]
  common_keywords.filter (fun kw => pyIn kw text)

/-- `AbilityParser._extract_domain`. -/
def extract_domain (text : Str) : Option Str :=
  let domains := [str "fury", str "body", str "order", str "calm", str "mind", str "chaos"]
  domains.find? (fun d => pyIn d text)

/-! ## ability_parser.py — line parsing -/

/-- `AbilityParser._parse_triggered_ability`. -/
def parse_triggered_ability (line lineLower : Str) (t : AbilityType) : ParsedAbility :=
  { ability_type := t
    raw_text := line
    effect_target := extract_target lineLower
    timing := .ON_TRIGGER
    effect_value := extract_number_value lineLower
    conditions := extract_conditions lineLower
    keywords_granted := extract_keywords_granted lineLower }

/-- `re.match(r'^([^:]+):', line)` capture, stripped: the text before the
first colon, provided the colon is not the first character. -/
def costBeforeColon (line : Str) : Option Str :=
  let pre := line.takeWhile (fun c => c != ':')
  if pre.isEmpty then none
  else if (line.dropWhile (fun c => c != ':')).isEmpty then none
  else some (pyStrip pre)

/-- `AbilityParser._parse_activated_ability`. -/
def parse_activated_ability (line lineLower : Str) (t : AbilityType) : ParsedAbility :=
  { ability_type := t
    raw_text := line
    effect_target := extract_target lineLower
    timing := if pyIn (str "instant") lineLower || pyIn (str "any time") lineLower
      then .INSTANT else .MAIN_PHASE
    cost := costBeforeColon line
    effect_value := extract_number_value lineLower }

/-- `AbilityParser._parse_static_ability`. -/
def parse_static_ability (line lineLower : Str) (t : AbilityType) : ParsedAbility :=
  { ability_type := t
    raw_text := line
    effect_target := extract_target lineLower
    timing := .ALWAYS
    effect_value := extract_number_value lineLower
    domain_restriction := extract_domain lineLower
    keywords_granted := extract_keywords_granted lineLower }

/-- `AbilityParser._parse_effect_ability`. -/
def parse_effect_ability (line lineLower : Str) (t : AbilityType) : ParsedAbility :=
  { ability_type := t
    raw_text := line
    effect_target := extract_target lineLower
    timing := if pyIn (str "instant") lineLower || t = .COUNTER then .INSTANT
      else .MAIN_PHASE
    effect_value := extract_number_value lineLower }

/-- `AbilityParser._parse_ability_line` (Optional in Python; every code path
returns an ability, which `parse_ability_line_isSome` below proves). -/
def parse_ability_line (line lineLower : Str) : Option ParsedAbility :=
  match firstTableMatch TRIGGERED_PATTERNS lineLower with
  | some t => some (parse_triggered_ability line lineLower t)
  | none =>
    match firstTableMatch ACTIVATED_PATTERNS lineLower with
    | some t => some (parse_activated_ability line lineLower t)
    | none =>
      match firstTableMatch STATIC_PATTERNS lineLower with
      | some t => some (parse_static_ability line lineLower t)
      | none =>
        match firstTableMatch EFFECT_PATTERNS lineLower with
        | some t => some (parse_effect_ability line lineLower t)
        | none =>
          if pyIn (str "choose one") lineLower || pyIn (str "choose two") lineLower then
            some { ability_type := .CHOOSE_EFFECT, raw_text := line,
                   timing := .MAIN_PHASE }
          else if pyIn (str "legend") lineLower then
            some { ability_type := .LEGEND_INTERACTION, raw_text := line,
                   timing := .ALWAYS }
          else
            some { ability_type := .STATIC_BUFF, raw_text := line,
                   timing := .ALWAYS }

/-- `re.split(r'[\n\.]+', rules_text)`: split on maximal runs of newlines
and periods (runs collapse; leading/trailing runs produce empty pieces). -/
def reSplitSep (isSep : Char → Bool) (s : Str) : List Str :=
  match s with
  | [] => [[]]
  | c :: rest =>
    let tailSplit := reSplitSep isSep rest
    if isSep c then
      match rest with
      | [] => [[], []]
      | d :: _ => if isSep d then tailSplit else [] :: tailSplit
    else
      match tailSplit with
      | [] => [[c]]
      | p :: ps => (c :: p) :: ps

/-- The fragment separator class `[\n\.]`. -/
def isFragSep (c : Char) : Bool := c == '\n' || c == '.'

/-- The loop body of `parse_rules_text`: strip the fragment, skip it when
empty or shorter than 3 characters, otherwise append its parsed ability. -/
def parse_rules_step (rawLine : Str) (acc : List ParsedAbility) : List ParsedAbility :=
  let line := pyStrip rawLine
  if line.isEmpty || line.length < 3 then acc
  else
    match parse_ability_line line (pyLower line) with
    | some parsed => parsed :: acc
    | none => acc

/-- `AbilityParser.parse_rules_text`. -/
def parse_rules_text (rules_text : Str) : List ParsedAbility :=
  if rules_text.isEmpty then []
  else (reSplitSep isFragSep rules_text).foldr parse_rules_step []

/-! ## game_state.py / card_db.py — data model -/

/-- `Rune` (game_state.py). -/
inductive Rune where
  | FURY | BODY | ORDER | CALM | MIND | CHAOS | COLORLESS
deriving DecidableEq, Repr

/-- The str-enum `.value` of a `Rune` (already lowercase). -/
def Rune.val : Rune → Str
  | .FURY => str "fury" | .BODY => str "body" | .ORDER => str "order"
  | .CALM => str "calm" | .MIND => str "mind" | .CHAOS => str "chaos"
  | .COLORLESS => str "colorless"

/-- `CardType` (game_state.py). -/
inductive CardType where
  | UNIT | GEAR | SPELL | LEGEND | BATTLEFIELD
deriving DecidableEq, Repr

/-- `CardInHand` (game_state.py).  The mutable memoized `parsed_abilities`
cache (written at most once, recomputed idempotently) is modelled by the pure
derived value `CardInHand.parsedAbilities`; the unused `element`/`keep`
fields are omitted. -/
structure CardInHand where
  card_id : Str
  name : Option Str := none
  card_type : CardType
  domain : Rune
  energy_cost : Int := 0
  power_cost : Int := 0
  power_cost_by_rune : List (Rune × Int) := []
  might : Option Int := none
  tags : List Str := []
  keywords : List Str := []
  rules_text : Option Str := none
deriving DecidableEq, Repr

/-- The `card.parse_abilities()` guard `if not card.parsed_abilities and
card.rules_text` together with the default-empty cache make the effective
ability list the pure function of the rules text below
(`parse_rules_text "" = []`, so the truthiness guard is immaterial). -/
def CardInHand.parsedAbilities (c : CardInHand) : List ParsedAbility :=
  parse_rules_text (c.rules_text.getD [])

/-- Python truthiness of an optional string. -/
def optStrTruthy : Option Str → Bool
  | none => false
  | some s => !s.isEmpty

/-- Lowercased rules text with `None → ""` (the `card.rules_text.lower() if
card.rules_text else ""` idiom). -/
def CardInHand.rulesLower (c : CardInHand) : Str := pyLower (c.rules_text.getD [])

/-- `CardRecord` (card_db.py). -/
structure CardRecord where
  card_id : Str
  name : Str
  card_type : CardType
  domain : Rune
  energy_cost : Int := 0
  power_cost : Int := 0
  might : Option Int := none
  tags : List Str := []
  keywords : List Str := []
  rules_text : Option Str := none
  set_name : Option Str := none
deriving DecidableEq, Repr

/-- `Legend` (game_state.py); the ability string lists are carried as data,
as the analyzers read them directly. -/
structure Legend where
  card_id : Str
  name : Option Str := none
  domain : Rune
  exhausted : Bool := false
  abilities : List Str := []
  passive_abilities : List Str := []
  activated_abilities : List Str := []
  triggered_abilities : List Str := []
  rules_text : Option Str := none
  tags : List Str := []
deriving DecidableEq, Repr

/-- `PlayerState` (game_state.py), the fields the embedded analyzers read. -/
structure PlayerState where
  name : Option Str := none
  legend : Option Legend := none
  mana_total : Option Int := none
  mana_by_rune : List (Rune × Int) := []
  hand : List CardInHand := []
deriving DecidableEq, Repr

/-- `MulliganCardDecision` (advisor_models.py). -/
structure MulliganCardDecision where
  card_id : Str
  name : Option Str
  keep : Bool
  reason : Str
deriving DecidableEq, Repr

/-- `MulliganAdvice` (advisor_models.py). -/
structure MulliganAdvice where
  decisions : List MulliganCardDecision
  summary : Str
  mulligan_count : Int
deriving DecidableEq, Repr

/-! ## mulligan_advisor.py — hand analysis -/

/-- The `hand_state` dict of `analyze_mulligan` (the keys the evaluators
read; `kept_any_3_cost_unit` is the one entry mutated during the loop). -/
structure HandState where
  kept_any_3_cost_unit : Bool
  cheap_unit_count : Nat
  spell_count : Nat
  gear_count : Nat
  high_cost_count : Nat
  removal_count : Nat
  rune_dead_cards : List Str
deriving DecidableEq, Repr

/-- The dict returned by `analyze_hand_composition`.  `cost_distribution`
is the `{0..5}` histogram as a 6-entry list. -/
structure HandComposition where
  unit_count : Nat
  cheap_unit_count : Nat
  spell_count : Nat
  gear_count : Nat
  high_cost_count : Nat
  removal_count : Nat
  draw_count : Nat
  combat_trick_count : Nat
  etb_unit_count : Nat
  lord_count : Nat
  avg_cost : ℚ
  has_curve : Bool
  cost_distribution : List Nat
  has_1_drop : Bool
  has_2_drop : Bool
  has_3_drop : Bool
deriving DecidableEq, Repr

/-- The ability types counted as removal in `analyze_hand_composition` and
`_evaluate_non_unit`. -/
def removalTypes : List AbilityType :=
  [.DESTROY, .DAMAGE, .EXILE, .BOUNCE]

/-- `cost_distribution[min(cost, 5)] += 1`; a negative cost would raise
`KeyError` in Python, modelled as `none`. -/
def bumpDistribution (dist : List Nat) (cost : Int) : Option (List Nat) :=
  let idx : Int := min cost 5
  if h : 0 ≤ idx ∧ idx.toNat < dist.length then
    some (dist.set idx.toNat (dist.get ⟨idx.toNat, h.2⟩ + 1))
  else none

/-- `analyze_hand_composition` (mulligan_advisor.py). -/
def analyze_hand_composition (hand : List CardInHand) : Option HandComposition := Id.run do
  let unit_count := hand.countP (fun c => c.card_type = CardType.UNIT)
  let cheap_unit_count := hand.countP (fun c =>
    c.card_type = CardType.UNIT ∧ c.energy_cost ≤ 2)
  let spell_count := hand.countP (fun c => c.card_type = CardType.SPELL)
  let gear_count := hand.countP (fun c => c.card_type = CardType.GEAR)
  let high_cost_count := hand.countP (fun c => 4 ≤ c.energy_cost)
  let removal_count := hand.countP (fun c =>
    (c.card_type = CardType.SPELL ∨ c.card_type = CardType.GEAR) ∧
      c.parsedAbilities.any (fun a => removalTypes.contains a.ability_type))
  let draw_count := hand.countP (fun c =>
    c.parsedAbilities.any (fun a => a.ability_type = AbilityType.DRAW_CARDS))
  let combat_trick_count := hand.countP (fun c =>
    c.parsedAbilities.any (fun a =>
      a.timing = EffectTiming.INSTANT ∨
        ((a.ability_type = AbilityType.BUFF_TARGET ∨ a.ability_type = AbilityType.BUFF_SELF) ∧
          c.keywords.any (fun k => pyLower k = str "fast" ∨ pyLower k = str "ambush"))))
  let etb_unit_count := hand.countP (fun c =>
    c.card_type = CardType.UNIT ∧
      c.parsedAbilities.any (fun a => a.ability_type = AbilityType.ENTERS_BATTLEFIELD))
  let lord_count := hand.countP (fun c =>
    c.parsedAbilities.any (fun a => a.ability_type = AbilityType.STATIC_BUFF))
  let total_cost : Int := (hand.map (·.energy_cost)).sum
  let avg_cost : ℚ := if hand.isEmpty then 0 else (total_cost : ℚ) / (hand.length : ℚ)
  let mut dist : List Nat := [0, 0, 0, 0, 0, 0]
  for c in hand do
    match bumpDistribution dist c.energy_cost with
    | some d => dist := d
    | none => return none
  let has_1_drop := 1 ≤ dist.getD 1 0
  let has_2_drop := 1 ≤ dist.getD 2 0
  let has_3_drop := 1 ≤ dist.getD 3 0
  return some
    { unit_count, cheap_unit_count, spell_count, gear_count, high_cost_count,
      removal_count, draw_count, combat_trick_count, etb_unit_count, lord_count,
      avg_cost
      has_curve := (has_1_drop || has_2_drop) && has_3_drop
      cost_distribution := dist
      has_1_drop, has_2_drop, has_3_drop }

/-- The dict returned by `analyze_rune_curve`; `rune_sources` is carried as
the counting function the code builds (domains of the hand plus the legend's
domain), from which all its uses (`values()` sum, key count, `.get`) are
read off. -/
structure RuneAnalysis where
  dead_cards : List Str
  rune_sources : Rune → Nat
  castable_on_curve : Bool
  unique_domains : Nat

/-- `analyze_rune_curve` (mulligan_advisor.py). -/
def analyze_rune_curve (hand : List CardInHand) (legend_card : Option CardRecord) :
    RuneAnalysis :=
  let sources : Rune → Nat := fun r =>
    hand.countP (fun c => c.domain = r) +
      (match legend_card with
       | some lg => if lg.domain = r then 1 else 0
       | none => 0)
  let allRunes : List Rune :=
    [.FURY, .BODY, .ORDER, .CALM, .MIND, .CHAOS, .COLORLESS]
  let dead_cards :=
    (hand.filter (fun c => 3 ≤ c.energy_cost ∧ sources c.domain ≤ 1)).map (·.card_id)
  let total := (allRunes.map sources).sum
  let unique := allRunes.countP (fun r => 1 ≤ sources r)
  { dead_cards
    rune_sources := sources
    castable_on_curve := (3 ≤ total) && (unique ≤ 2 || 4 ≤ total)
    unique_domains := unique }

/-- `identify_legend_synergies` (mulligan_advisor.py). -/
def identify_legend_synergies (hand : List CardInHand)
    (legend_card : Option CardRecord) : List Str :=
  match legend_card with
  | none => []
  | some lg =>
    let legend_name_lower := pyLower lg.name
    let legend_domain_lower := pyLower lg.domain.val
    (hand.filter (fun card =>
      let rulesTruthy := optStrTruthy card.rules_text
      let rl := card.rulesLower
      (rulesTruthy && !legend_name_lower.isEmpty && pyIn legend_name_lower rl) ||
      (!legend_domain_lower.isEmpty && rulesTruthy && pyIn legend_domain_lower rl) ||
      (!lg.tags.isEmpty && !card.tags.isEmpty &&
        (card.tags.any (fun t => lg.tags.any (fun u => pyLower u = pyLower t)))) ||
      (!lg.keywords.isEmpty && rulesTruthy &&
        lg.keywords.any (fun k => pyIn (pyLower k) rl)))).map (·.card_id)

/-- `_get_premium_keywords` (mulligan_advisor.py). -/
def get_premium_keywords (keywords : List Str) : List Str :=
  let premium := [str "assault", str "guard", str "ambush", str "flying",
    str "lifesteal", str "double strike"]
  keywords.filter (fun k => premium.contains (pyLower k))

/-! ## mulligan_advisor.py — per-card evaluation

Comparisons of a possibly-`None` `effect_value` with an int raise
`TypeError` in Python; those code paths are modelled as `none`. -/

/-- Render an optional int the way an f-string does (`None` included). -/
def fmtPyOptInt : Option Int → Str
  | none => str "None"
  | some v => intStr v

/-- `_evaluate_unit` (mulligan_advisor.py). -/
def evaluate_unit (card : CardInHand) (hand_state : HandState)
    (has_legend_synergy going_first _is_rune_dead : Bool) : Bool × Str :=
  let cost := card.energy_cost
  let might := card.might.getD 0
  if cost ≤ 2 then
    let has_etb := card.parsedAbilities.any
      (fun a => a.ability_type = AbilityType.ENTERS_BATTLEFIELD)
    if has_etb then
      (true, str "Cheap unit with enters-battlefield effect: excellent early value.")
    else
      let premium_keywords := get_premium_keywords card.keywords
      if !premium_keywords.isEmpty then
        (true, str "Cheap unit with " ++ pyJoin (str ", ") premium_keywords ++
          str ": excellent early pressure.")
      else if cost + 1 ≤ might then
        (true, str "Efficient cheap unit (" ++ intStr might ++ str " might for " ++
          intStr cost ++ str " cost): strong early play.")
      else
        (true, str "Cheap unit (cost â‰¤ 2): essential for early board presence.")
  else if cost = 3 then
    if !hand_state.kept_any_3_cost_unit then
      let has_lord_effect := card.parsedAbilities.any
        (fun a => a.ability_type = AbilityType.STATIC_BUFF)
      if has_lord_effect then
        (true, str "3-cost static effect: builds around other units - keep for synergy.")
      else if 3 ≤ might then
        (true, str "Strong 3-cost unit: solid curve topper with good stats.")
      else if !card.keywords.isEmpty then
        (true, str "3-cost unit with keywords: valuable curve play.")
      else if 2 ≤ hand_state.cheap_unit_count then
        (true, str "3-cost unit: acceptable curve topper with early plays.")
      else
        (false, str "Weak 3-cost unit without early support: seeking better curve.")
    else
      (false, str "Additional 3-cost unit: too heavy, need cheaper plays.")
  else
    if has_legend_synergy then
      (true, str "High-cost unit (" ++ intStr cost ++
        str ") with legend synergy: enables powerful combos.")
    else if cost + 2 ≤ might ∧ 2 ≤ hand_state.cheap_unit_count then
      (true, str "Premium unit (" ++ intStr might ++ str "/" ++ intStr might ++
        str " for " ++ intStr cost ++ str "): worth keeping with early curve.")
    else
      let premium_keywords := get_premium_keywords card.keywords
      if 2 ≤ premium_keywords.length ∧ 2 ≤ hand_state.cheap_unit_count then
        (true, str "High-impact unit with " ++ pyJoin (str ", ") premium_keywords ++
          str ": game-ending threat.")
      else if !going_first ∧ cost = 4 ∧ 4 ≤ might ∧ 2 ≤ hand_state.cheap_unit_count then
        (true, str "Strong 4-drop going second with early game: acceptable curve top.")
      else
        (false, str "High-cost unit (" ++ intStr cost ++
          str "): too expensive for opening hand.")

/-- `_evaluate_non_unit` (mulligan_advisor.py); `none` models the
`TypeError` raised when a `None` draw count is compared with an int. -/
def evaluate_non_unit (card : CardInHand) (hand_state : HandState)
    (has_legend_synergy _is_rune_dead : Bool) : Option (Bool × Str) := Id.run do
  let cost := card.energy_cost
  let tags_lower := card.tags.map pyLower
  let keywords_lower := card.keywords.map pyLower
  let parsed := card.parsedAbilities
  let hasType (t : AbilityType) : Bool := parsed.any (fun a => a.ability_type = t)
  let is_removal :=
    if parsed.isEmpty then
      [str "removal", str "destroy", str "damage"].any (fun t => tags_lower.contains t)
    else removalTypes.any hasType
  let is_draw :=
    if parsed.isEmpty then
      tags_lower.contains (str "draw") || tags_lower.contains (str "cycle")
    else hasType .DRAW_CARDS
  let is_combat_trick :=
    parsed.any (fun a => a.timing = EffectTiming.INSTANT ∨
      a.ability_type = AbilityType.BUFF_TARGET ∨ a.ability_type = AbilityType.BUFF_SELF) ||
    [str "ambush", str "fast"].any (fun k => keywords_lower.contains k)
  let is_board_wipe := parsed.any (fun a =>
    a.ability_type = AbilityType.DESTROY ∧
      (a.effect_target = some EffectTarget.ALL_UNITS ∨
        a.effect_target = some EffectTarget.OPPONENT_UNITS))
  let damage_abilities := parsed.filter (fun a => a.ability_type = AbilityType.DAMAGE)
  let draw_count : Option Int :=
    match parsed.find? (fun a => a.ability_type = AbilityType.DRAW_CARDS) with
    | some a => a.effect_value
    | none => some 1
  if cost = 0 then
    if is_removal then return some (true, str "Zero-cost removal: free answer, always keep.")
    else if is_draw then
      return some (true, str "Zero-cost card draw: free card advantage, always keep.")
    else return some (true, str "Zero-cost spell: free value, always keep.")
  if cost = 1 then
    if is_removal then
      match damage_abilities with
      | a :: _ =>
        match a.effect_value with
        | some v =>
          if v ≠ 0 then
            return some (true, str "Cheap removal dealing " ++ intStr v ++
              str " damage: answers early threats.")
          else return some (true, str "Cheap removal (cost 1): answers early threats.")
        | none => return some (true, str "Cheap removal (cost 1): answers early threats.")
      | [] => return some (true, str "Cheap removal (cost 1): answers early threats.")
    else if is_draw then
      match draw_count with
      | none => return none
      | some v =>
        if 2 ≤ v then
          return some (true, str "Cheap cantrip drawing " ++ intStr v ++
            str " cards: excellent card advantage.")
        else return some (true, str "Cheap card draw: helps find better cards.")
    else if is_combat_trick then
      return some (true, str "Fast spell (cost 1): flexible combat trick for early trades.")
    else return some (true, str "Cheap utility (cost 1): flexible early game.")
  if cost = 2 then
    if is_removal then
      if !(parsed.filter (fun a => a.ability_type = AbilityType.DESTROY)).isEmpty then
        return some (true,
          str "Cheap unconditional removal: critical interaction for any threat.")
      match damage_abilities with
      | a :: _ =>
        match a.effect_value with
        | some v =>
          if v ≠ 0 ∧ 3 ≤ v then
            return some (true, str "Efficient removal (" ++ intStr v ++
              str " damage): handles most early threats.")
          else
            return some (true, str "Cheap removal: critical interaction for early board.")
        | none =>
          return some (true, str "Cheap removal: critical interaction for early board.")
      | [] => return some (true, str "Cheap removal: critical interaction for early board.")
    if is_draw then
      if hand_state.spell_count ≤ 2 then
        return some (true, str "Card draw (" ++ fmtPyOptInt draw_count ++
          str " cards): helps smooth draws and find threats.")
      else
        match draw_count with
        | none => return none
        | some v =>
          if 2 ≤ v then
            return some (true, str "Strong card draw (" ++ intStr v ++
              str " cards): worth keeping despite spell count.")
    if has_legend_synergy then
      return some (true, str "2-cost spell with legend synergy: enables combos.")
    if card.card_type = CardType.GEAR then
      if 1 ≤ hand_state.cheap_unit_count then
        let buff_abilities := parsed.filter (fun a =>
          a.ability_type = AbilityType.BUFF_TARGET ∨ a.ability_type = AbilityType.BUFF_SELF)
        match buff_abilities with
        | a :: _ =>
          match a.effect_value with
          | some v =>
            if v ≠ 0 then
              return some (true, str "Cheap gear (+" ++ intStr v ++
                str " buff) with units: creates strong early threats.")
          | none => pure ()
        | [] => pure ()
        let keyword_grants := parsed.foldl (fun acc a => acc ++ a.keywords_granted) []
        if !keyword_grants.isEmpty then
          return some (true, str "Cheap gear granting " ++
            pyJoin (str ", ") (keyword_grants.take 2) ++
            str ": powerful with early units.")
        return some (true, str "Cheap gear with units: creates strong early threats.")
    if 2 ≤ hand_state.spell_count ∧ hand_state.cheap_unit_count = 0 then
      return some (false, str "Spell in unit-light hand: need board presence first.")
    return some (true, str "Cheap utility: acceptable in balanced hand.")
  -- 3+ cost spells and gear
  if has_legend_synergy then
    return some (true, str "Expensive spell (" ++ intStr cost ++
      str ") with legend synergy: worth keeping for combo.")
  if is_board_wipe ∧ cost ≤ 4 then
    if 2 ≤ hand_state.cheap_unit_count then
      return some (true, str "Board wipe (" ++ intStr cost ++
        str " cost) with early curve: nuclear option against wide boards.")
  if cost ≤ 4 ∧ is_removal then
    if 2 ≤ hand_state.cheap_unit_count ∧ hand_state.removal_count = 0 then
      let has_destroy := hasType .DESTROY
      let high_damage := damage_abilities.any (fun a =>
        match a.effect_value with
        | some v => v ≠ 0 ∧ 4 ≤ v
        | none => false)
      if has_destroy then
        return some (true, str "Unconditional removal (" ++ intStr cost ++
          str " cost) with early curve: answers any threat.")
      else if high_damage then
        let damage_val := fmtPyOptInt
          ((damage_abilities.find? (fun a =>
            match a.effect_value with
            | some v => v ≠ 0
            | none => false)).bind (·.effect_value))
        return some (true, str "High-damage removal (" ++ damage_val ++
          str " damage) with early curve: kills big threats.")
      else
        return some (true, str "Mid-cost removal (" ++ intStr cost ++
          str " cost) with early curve: handles mid-game threats.")
  if cost = 3 ∧ is_combat_trick then
    if 2 ≤ hand_state.cheap_unit_count then
      let buff_abilities := parsed.filter (fun a =>
        a.ability_type = AbilityType.BUFF_TARGET ∨ a.ability_type = AbilityType.BUFF_SELF)
      match buff_abilities with
      | a :: _ =>
        match a.effect_value with
        | some v =>
          if v ≠ 0 then
            return some (true, str "Combat trick (+" ++ intStr v ++
              str " buff) with early units: creates favorable trades.")
        | none => pure ()
      | [] => pure ()
      return some (true, str "Combat trick with early units: creates favorable trades.")
  if is_draw ∧ cost ≤ 4 then
    match draw_count with
    | none => return none
    | some v =>
      if 3 ≤ v then
        if 1 ≤ hand_state.cheap_unit_count then
          return some (true, str "Powerful card draw (" ++ intStr v ++
            str " cards): worth keeping for refill.")
  if hasType .PROTECTION ∧ cost ≤ 3 then
    if 2 ≤ hand_state.cheap_unit_count then
      return some (true, str "Protection spell (" ++ intStr cost ++
        str " cost) with early units: keeps threats alive.")
  if 2 ≤ hand_state.high_cost_count then
    return some (false, str "Expensive spell (" ++ intStr cost ++
      str ") in top-heavy hand: need cheaper plays.")
  if hand_state.cheap_unit_count = 0 ∧ 3 ≤ cost then
    return some (false, str "Expensive spell without early game: seeking cheaper plays.")
  if card.card_type = CardType.GEAR ∧ hand_state.cheap_unit_count = 0 then
    return some (false, str "Expensive gear (" ++ intStr cost ++
      str ") without units: need targets first.")
  return some (false, str "Expensive spell/gear (" ++ intStr cost ++
    str "): too slow for opening hand.")

/-- `evaluate_card_for_mulligan` (mulligan_advisor.py). -/
def evaluate_card_for_mulligan (card : CardInHand) (hand_state : HandState)
    (legend_synergy_cards : List Str) (_rune_analysis : RuneAnalysis)
    (going_first : Bool) : Option (Bool × Str) :=
  let cost := card.energy_cost
  let has_legend_synergy := legend_synergy_cards.contains card.card_id
  let is_rune_dead := hand_state.rune_dead_cards.contains card.card_id
  if is_rune_dead ∧ 3 ≤ cost then
    some (false, str "Off-domain expensive card (" ++ intStr cost ++
      str " cost): difficult to cast early.")
  else if card.card_type = CardType.UNIT then
    some (evaluate_unit card hand_state has_legend_synergy going_first is_rune_dead)
  else
    evaluate_non_unit card hand_state has_legend_synergy is_rune_dead

/-! ## mulligan_advisor.py — post-passes and entry point -/

/-- `_calculate_mulligan_priority`: every contribution is an integer, so the
float score is modelled exactly in `ℚ`. -/
def calculate_mulligan_priority (card : CardInHand) : ℚ :=
  let base : ℚ := if card.energy_cost ≤ 3 then (card.energy_cost : ℚ) * 10
    else (card.energy_cost : ℚ) * 15
  let typeMod : ℚ :=
    if card.card_type = CardType.SPELL then 5
    else if card.card_type = CardType.GEAR then 3 else 0
  let statsMod : ℚ :=
    if card.card_type = CardType.UNIT then
      match card.might with
      | some m =>
        if m < card.energy_cost then 10
        else if m = card.energy_cost then 3
        else if card.energy_cost + 2 ≤ m then -5
        else 0
      | none => 0
    else 0
  let premiumMod : ℚ := -(5 * (get_premium_keywords card.keywords).length : ℚ)
  let noKeywordMod : ℚ := if card.keywords.isEmpty then 3 else 0
  base + typeMod + statsMod + premiumMod + noKeywordMod

/-- Stable insertion for a descending sort: the inserted element goes after
every earlier element with a strictly larger key and before the first with a
key `≤` its own. -/
def pyInsertDesc (key : α → ℚ) (x : α) : List α → List α
  | [] => [x]
  | y :: l => if key x < key y then y :: pyInsertDesc key x l else x :: y :: l

/-- Python `list.sort(key=..., reverse=True)`: the unique stable descending
order (sorted by key descending, ties in original order). -/
def pySortDesc (key : α → ℚ) : List α → List α
  | [] => []
  | x :: l => pyInsertDesc key x (pySortDesc key l)

/-- The rewritten reason of a decision forced back to keep by the 2-card
limit. -/
def forcedKeepReason : Str :=
  str "Originally suggested mulligan, but kept due to 2-card limit. " ++
  str "Less critical to replace than other mulliganed cards."

/-- `_enforce_mulligan_limit` (mulligan_advisor.py).  Decisions are tracked
by index (they are distinct objects mutated in place in Python); a candidate
whose `card_id` has no matching hand card is skipped from the priority list
exactly as the `if not card: continue` does. -/
def enforce_mulligan_limit (decisions : List MulliganCardDecision)
    (hand : List CardInHand) (max_mulligans : Nat := 2) :
    List MulliganCardDecision :=
  let to_mulligan := decisions.enum.filter (fun p => !p.2.keep)
  if to_mulligan.length ≤ max_mulligans then decisions
  else
    let mulligan_priority : List (ℚ × Nat) := to_mulligan.filterMap (fun p =>
      (hand.find? (fun c => c.card_id == p.2.card_id)).map
        (fun c => (calculate_mulligan_priority c, p.1)))
    let sorted := pySortDesc (·.1) mulligan_priority
    let forced_keeps := (sorted.drop max_mulligans).map (·.2)
    decisions.enum.map (fun p =>
      if forced_keeps.contains p.1 then
        { p.2 with keep := true, reason := forcedKeepReason }
      else p.2)

/-- Render an optional string the way an f-string does. -/
def fmtPyOptStr : Option Str → Str
  | none => str "None"
  | some s => s

/-- `_ensure_keep_at_least_one` (mulligan_advisor.py); `none` models the
`IndexError` of `keep_priority[0]` when no decision has a matching hand card
(unreachable from `analyze_mulligan`). -/
def ensure_keep_at_least_one (decisions : List MulliganCardDecision)
    (hand : List CardInHand) : Option (List MulliganCardDecision) :=
  if !(decisions.filter (·.keep)).isEmpty then some decisions
  else
    let keep_priority : List (ℚ × (Nat × CardInHand)) := decisions.enum.filterMap (fun p =>
      (hand.find? (fun c => c.card_id == p.2.card_id)).map
        (fun c => (-(calculate_mulligan_priority c), p.1, c)))
    match pySortDesc (·.1) keep_priority with
    | [] => none
    | (_, bestIdx, bestCard) :: _ =>
      some (decisions.enum.map (fun p =>
        if p.1 = bestIdx then
          { p.2 with
            keep := true
            reason := str "Keeping " ++ fmtPyOptStr bestCard.name ++
              str " as best option. " ++
              str "(Cannot mulligan all 4 cards per game rules)." }
        else p.2))

/-- `_generate_mulligan_summary` (mulligan_advisor.py). -/
def generate_mulligan_summary (_decisions : List MulliganCardDecision)
    (composition : HandComposition) (mulligan_count : Int)
    (rune_analysis : RuneAnalysis) : Str :=
  let p1 : Str :=
    if mulligan_count = 0 then str "Keep all 4 cards"
    else if mulligan_count = 1 then str "Mulligan 1 card"
    else str "Mulligan " ++ intStr mulligan_count ++ str " cards (maximum allowed)"
  let p2 : Str :=
    if composition.has_1_drop || composition.has_2_drop then
      if composition.avg_cost ≤ 2 then str "aggressive early curve"
      else if composition.avg_cost ≤ 5/2 then str "good curve"
      else str "acceptable curve"
    else str "seeking early plays"
  let special : List Str :=
    (if 0 < composition.etb_unit_count then
      [natStr composition.etb_unit_count ++ str " ETB effect(s)"] else []) ++
    (if 0 < composition.lord_count then
      [natStr composition.lord_count ++ str " lord effect(s)"] else []) ++
    (if 0 < composition.removal_count then
      [natStr composition.removal_count ++ str " removal"] else []) ++
    (if 0 < composition.combat_trick_count then
      [natStr composition.combat_trick_count ++ str " combat trick(s)"] else []) ++
    (if 0 < composition.draw_count then
      [natStr composition.draw_count ++ str " card draw"] else [])
  let p3 : List Str :=
    if !special.isEmpty then [str "includes " ++ pyJoin (str ", ") special] else []
  let p4 : List Str :=
    if !rune_analysis.castable_on_curve then [str "watch rune availability"] else []
  let p5 : List Str :=
    if 3 ≤ composition.cheap_unit_count then [str "aggressive tempo hand"]
    else if 1 ≤ composition.lord_count ∧ 1 ≤ composition.cheap_unit_count then
      [str "synergy-focused hand"]
    else if 2 ≤ composition.removal_count then [str "interactive control hand"]
    else if 2 ≤ composition.spell_count ∧ composition.cheap_unit_count ≤ 1 then
      [str "spell-heavy hand"]
    else if 2 ≤ composition.etb_unit_count then [str "value-oriented hand"]
    else []
  pyJoin (str " - ") ([p1, p2] ++ p3 ++ p4 ++ p5) ++ str "."

/-- The per-card evaluation loop of `analyze_mulligan`, threading the
`kept_any_3_cost_unit` update. -/
def mulligan_eval_loop (cards : List CardInHand) (hs : HandState)
    (legend_synergy_cards : List Str) (rune_analysis : RuneAnalysis)
    (going_first : Bool) : Option (List MulliganCardDecision) :=
  match cards with
  | [] => some []
  | card :: rest =>
    match evaluate_card_for_mulligan card hs legend_synergy_cards rune_analysis
        going_first with
    | none => none
    | some (keep, reason) =>
      let hs' :=
        if keep ∧ card.energy_cost = 3 ∧ card.card_type = CardType.UNIT then
          { hs with kept_any_3_cost_unit := true }
        else hs
      (mulligan_eval_loop rest hs' legend_synergy_cards rune_analysis going_first).map
        (fun ds => { card_id := card.card_id, name := card.name, keep, reason } :: ds)

/-- `analyze_mulligan` (mulligan_advisor.py); `none` models the raising
paths (a `None` draw count compared with an int, or a negative energy cost). -/
def analyze_mulligan (hand : List CardInHand)
    (legend_card : Option CardRecord := none) (_turn : Int := 1)
    (going_first : Bool := true) : Option MulliganAdvice :=
  if hand.isEmpty then
    some { decisions := [], summary := str "No cards in hand to evaluate.",
           mulligan_count := 0 }
  else if hand.length ≠ 4 then
    some { decisions := []
           summary := str "Invalid hand size: expected 4 cards, got " ++
             natStr hand.length ++ str "."
           mulligan_count := 0 }
  else
    match analyze_hand_composition hand with
    | none => none
    | some composition =>
      let legend_synergy_cards := identify_legend_synergies hand legend_card
      let rune_analysis := analyze_rune_curve hand legend_card
      let hand_state : HandState :=
        { kept_any_3_cost_unit := false
          cheap_unit_count := composition.cheap_unit_count
          spell_count := composition.spell_count
          gear_count := composition.gear_count
          high_cost_count := composition.high_cost_count
          removal_count := composition.removal_count
          rune_dead_cards := rune_analysis.dead_cards }
      match mulligan_eval_loop hand hand_state legend_synergy_cards rune_analysis
          going_first with
      | none => none
      | some decisions0 =>
        let decisions1 := enforce_mulligan_limit decisions0 hand 2
        match ensure_keep_at_least_one decisions1 hand with
        | none => none
        | some decisions =>
          let mulligan_count : Int := decisions.countP (fun d => !d.keep)
          some { decisions
                 summary := generate_mulligan_summary decisions composition
                   mulligan_count rune_analysis
                 mulligan_count }

/-! ## advisor_models.py / battlefield_analysis.py -/

/-- The unit dicts carried by a `BattlefieldState`; only the `might` key is
ever read (via `.get('might', 0)`, whose missing-key default is `none`). -/
structure UnitDict where
  might : Option Int := none
deriving DecidableEq, Repr

/-- `unit.get('might', 0)`. -/
def UnitDict.getMight (u : UnitDict) : Int := u.might.getD 0

/-- `BattlefieldState` (advisor_models.py). -/
structure BattlefieldState where
  battlefield_id : Option Str := none
  my_unit : Option UnitDict := none
  opponent_unit : Option UnitDict := none
deriving DecidableEq, Repr

/-- The dict returned by `analyze_riftbound_battlefields`, plus the
`highest_opponent_might` key that `analyze_playable_cards` adds afterwards
(initialised to the same `0` default that its `.get` fallback uses). -/
structure BattlefieldAnalysis where
  empty_battlefields : Nat := 0
  my_only_battlefields : Nat := 0
  opponent_only_battlefields : Nat := 0
  contested_battlefields : Nat := 0
  my_units : Nat := 0
  opponent_units : Nat := 0
  my_total_might : Int := 0
  opponent_total_might : Int := 0
  winning_battlefields : Nat := 0
  losing_battlefields : Nat := 0
  tied_battlefields : Nat := 0
  highest_opponent_might : Int := 0
deriving DecidableEq, Repr

/-- The per-lane update of the `analyze_riftbound_battlefields` loop. -/
def battlefieldStep (a : BattlefieldAnalysis) (bf : BattlefieldState) :
    BattlefieldAnalysis :=
  let hasMy := bf.my_unit.isSome
  let hasOp := bf.opponent_unit.isSome
  let a :=
    if !hasMy ∧ !hasOp then { a with empty_battlefields := a.empty_battlefields + 1 }
    else if hasMy ∧ !hasOp then
      { a with my_only_battlefields := a.my_only_battlefields + 1 }
    else if !hasMy ∧ hasOp then
      { a with opponent_only_battlefields := a.opponent_only_battlefields + 1 }
    else
      let myM := (bf.my_unit.map UnitDict.getMight).getD 0
      let opM := (bf.opponent_unit.map UnitDict.getMight).getD 0
      let a := { a with contested_battlefields := a.contested_battlefields + 1 }
      if opM < myM then { a with winning_battlefields := a.winning_battlefields + 1 }
      else if myM < opM then { a with losing_battlefields := a.losing_battlefields + 1 }
      else { a with tied_battlefields := a.tied_battlefields + 1 }
  let a :=
    match bf.my_unit with
    | some u => { a with
        my_units := a.my_units + 1
        my_total_might := a.my_total_might + u.getMight }
    | none => a
  match bf.opponent_unit with
  | some u => { a with
      opponent_units := a.opponent_units + 1
      opponent_total_might := a.opponent_total_might + u.getMight }
  | none => a

/-- `analyze_riftbound_battlefields` (battlefield_analysis.py): a plain fold
over however many lanes are supplied — the function itself performs no
lane-count validation. -/
def analyze_riftbound_battlefields (battlefields : List BattlefieldState) :
    BattlefieldAnalysis :=
  battlefields.foldl battlefieldStep {}

/-- Python truthiness of an optional int (`None` and `0` are falsy). -/
def optIntTruthy : Option Int → Bool
  | none => false
  | some v => v ≠ 0

/-- `assess_battlefield_threat_level` (battlefield_analysis.py). -/
def assess_battlefield_threat_level (a : BattlefieldAnalysis)
    (_opponent_health my_health : Option Int) : Str :=
  if a.opponent_only_battlefields = 2 then str "critical"
  else if 4 ≤ a.opponent_total_might - a.my_total_might then str "high"
  else if optIntTruthy my_health ∧ my_health.getD 0 ≤ 10 ∧ 0 < a.opponent_units then
    str "high"
  else if 1 ≤ a.losing_battlefields then str "medium"
  else str "low"

/-- `build_strategy_summary` (battlefield_analysis.py); `none` models the
`KeyError` of `focus_messages[game_phase]` on a phase outside
early/mid/late (unreachable from `analyze_playable_cards`). -/
def build_strategy_summary (turn : Int) (game_phase phase : Str)
    (recommended_count playable_count : Nat) (a : BattlefieldAnalysis)
    (threat_level : Str) (my_health opponent_health : Option Int) : Option Str := Id.run do
  let p1 := str "Turn " ++ intStr turn ++ str " (" ++ game_phase ++ str " game, " ++
    phase ++ str " phase)"
  let p2 :=
    if 0 < recommended_count then
      natStr recommended_count ++ str " recommended play(s) from " ++
        natStr playable_count ++ str " playable cards"
    else natStr playable_count ++ str " playable cards, but holding may be better"
  let bf_parts : List Str :=
    (if 0 < a.empty_battlefields then [natStr a.empty_battlefields ++ str " empty"] else []) ++
    (if 0 < a.my_only_battlefields then [natStr a.my_only_battlefields ++ str " yours"] else []) ++
    (if 0 < a.opponent_only_battlefields then
      [natStr a.opponent_only_battlefields ++ str " opponent" ++ [apos] ++ str "s"] else []) ++
    (if 0 < a.contested_battlefields then
      [natStr a.contested_battlefields ++ str " contested"] else [])
  let p3 : List Str :=
    if !bf_parts.isEmpty then [str "Battlefields: " ++ pyJoin (str ", ") bf_parts] else []
  let p4 :=
    if threat_level = str "critical" then str "CRITICAL: Opponent controls both battlefields!"
    else if threat_level = str "high" then str "High threat: Opponent has strong board presence"
    else if threat_level = str "medium" then str "Moderate threat: Board is contested"
    else if threat_level = str "low" then str "Low threat: Favorable board state"
    else str "Board state unclear"
  let p5 : List Str :=
    if optIntTruthy my_health ∧ optIntTruthy opponent_health then
      let m := my_health.getD 0
      let o := opponent_health.getD 0
      if m - o ≤ -5 then
        [str "Behind on life (" ++ intStr m ++ str " vs " ++ intStr o ++
          str ") - need pressure"]
      else if 5 ≤ m - o then
        [str "Ahead on life (" ++ intStr m ++ str " vs " ++ intStr o ++
          str ") - maintain advantage"]
      else []
    else []
  let p6 : Str ←
    if game_phase = str "early" then
      pure (str "Focus: Develop board, contest battlefields early")
    else if game_phase = str "mid" then
      pure (str "Focus: Tempo plays and favorable trades")
    else if game_phase = str "late" then
      pure (str "Focus: High-impact finishers and closing")
    else return none
  return some (pyJoin (str ". ") ([p1, p2] ++ p3 ++ [p4] ++ p5 ++ [p6]) ++ str ".")

/-! ## card_evaluation.py — valuation engine -/

/-- The `battlefield_context` dict read by `calculate_card_value` and its
helpers (only these four keys are consumed). -/
structure EvalContext where
  my_units : Nat := 0
  opponent_units : Nat := 0
  empty_battlefields : Nat := 2
  contested_battlefields : Nat := 0
deriving DecidableEq, Repr

/-- `value or default` on an optional int (`None`/`0` are falsy). -/
def pyOrInt (o : Option Int) (d : Int) : Int :=
  match o with
  | some v => if v = 0 then d else v
  | none => d

/-- `_calculate_unit_ability_value` (card_evaluation.py).  The nested
comparisons of the same `ability.ability_type` against effect kinds inside
the ETB/activated branches are translated as written (they are vacuous
there, exactly as in the source). -/
def calculate_unit_ability_value (card : CardInHand) (game_phase : Str)
    (ctx : EvalContext) : ℚ :=
  card.parsedAbilities.foldl (fun value a =>
    if a.ability_type = AbilityType.ENTERS_BATTLEFIELD then
      let value := value + 3
      if a.ability_type = AbilityType.DRAW_CARDS then
        value + (pyOrInt a.effect_value 1 : ℚ) * 2
      else if a.ability_type = AbilityType.DAMAGE then
        let damage : ℚ := (pyOrInt a.effect_value 0 : ℚ)
        let value := value + damage * (4/5)
        if 0 < ctx.opponent_units ∧ 2 ≤ damage then value + 2 else value
      else if a.ability_type = AbilityType.DESTROY then value + 4
      else if a.ability_type = AbilityType.BUFF_TARGET ∨
          a.ability_type = AbilityType.BUFF_ALL then
        if 0 < ctx.my_units then value + 2 else value
      else value
    else if a.ability_type = AbilityType.STATIC_BUFF then
      let buff : ℚ := (pyOrInt a.effect_value 1 : ℚ)
      if a.effect_target = some EffectTarget.YOUR_UNITS then
        let value := value + (ctx.my_units : ℚ) * buff * (3/2)
        if 0 < ctx.empty_battlefields then value + 2 else value
      else if a.effect_target = some EffectTarget.ALL_UNITS then
        value + (ctx.my_units : ℚ) * buff * (4/5)
      else value
    else if a.ability_type = AbilityType.TAP_ABILITY ∨
        a.ability_type = AbilityType.EXHAUST_ABILITY then
      let value := value + 3/2
      if a.ability_type = AbilityType.DRAW_CARDS then value + 2
      else if a.ability_type = AbilityType.DAMAGE then
        value + (pyOrInt a.effect_value 0 : ℚ) * (1/2)
      else value
    else if a.ability_type = AbilityType.ATTACKS then
      let value := value + 3/2
      if game_phase = str "early" then value + 1/2 else value
    else if a.ability_type = AbilityType.DIES then value + 1
    else if a.ability_type = AbilityType.PROTECTION then value + 2
    else if a.ability_type = AbilityType.COST_REDUCTION then value + 3
    else value) 0

/-- `_calculate_spell_ability_value` (card_evaluation.py). -/
def calculate_spell_ability_value (card : CardInHand) (game_phase : Str)
    (ctx : EvalContext) : ℚ :=
  card.parsedAbilities.foldl (fun value a =>
    if a.ability_type = AbilityType.DESTROY then
      let value := value + 4
      if (a.effect_target = some EffectTarget.ALL_UNITS ∨
          a.effect_target = some EffectTarget.OPPONENT_UNITS) ∧
          2 ≤ ctx.opponent_units then value + 6
      else value
    else if a.ability_type = AbilityType.DAMAGE then
      let damage : ℚ := (pyOrInt a.effect_value 0 : ℚ)
      let value := value + damage * (4/5)
      if a.effect_target = some EffectTarget.TARGET_UNIT then
        if 0 < ctx.opponent_units then value + 2 else value
      else if a.effect_target = some EffectTarget.ALL_UNITS then
        if 2 ≤ ctx.opponent_units then value + 3 else value
      else value
    else if a.ability_type = AbilityType.BOUNCE then
      let value := value + 5/2
      if 0 < ctx.opponent_units then value + 1 else value
    else if a.ability_type = AbilityType.DRAW_CARDS then
      let value := value + (pyOrInt a.effect_value 1 : ℚ) * (5/2)
      if game_phase = str "late" then value + 1 else value
    else if a.ability_type = AbilityType.BUFF_TARGET ∨
        a.ability_type = AbilityType.BUFF_SELF then
      let buff : ℚ := (pyOrInt a.effect_value 1 : ℚ)
      if 0 < ctx.my_units then
        let value := value + buff * (3/2)
        if a.timing = EffectTiming.INSTANT then value + 2 else value
      else value + 1/2
    else if a.ability_type = AbilityType.BUFF_ALL then
      if 2 ≤ ctx.my_units then value + 4 else value
    else if a.ability_type = AbilityType.COUNTER then
      let value := value + 3
      if a.timing = EffectTiming.INSTANT then value + 1 else value
    else if a.ability_type = AbilityType.PROTECTION then
      if 0 < ctx.my_units then value + 5/2 else value
    else value) 0

/-- `_calculate_gear_ability_value` (card_evaluation.py). -/
def calculate_gear_ability_value (card : CardInHand) (ctx : EvalContext) : ℚ :=
  if ctx.my_units = 0 then 0
  else
    card.parsedAbilities.foldl (fun value a =>
      let value :=
        if a.ability_type = AbilityType.BUFF_SELF ∨
            a.ability_type = AbilityType.BUFF_TARGET then
          value + (pyOrInt a.effect_value 1 : ℚ) * (3/2)
        else value
      let value := a.keywords_granted.foldl (fun v kw =>
        let k := pyLower kw
        if k = str "assault" then v + 2
        else if k = str "guard" then v + 3/2
        else if k = str "flying" then v + 2
        else if k = str "overwhelm" then v + 2
        else if k = str "lifesteal" then v + 3/2
        else v + 1) value
      if a.ability_type = AbilityType.TAP_ABILITY ∨
          a.ability_type = AbilityType.EXHAUST_ABILITY then value + 2
      else value) 0

/-- Per-keyword value table of `calculate_card_value` (default `0.5`). -/
def unitKeywordValue (k : Str) : ℚ :=
  if k = str "assault" then 2
  else if k = str "guard" then 3/2
  else if k = str "flying" then 2
  else if k = str "overwhelm" then 5/2
  else if k = str "lifesteal" then 3/2
  else if k = str "quick" then 2
  else if k = str "double strike" then 3
  else if k = str "ambush" then 3/2
  else if k = str "weaponmaster" then 1
  else 1/2

/-- `calculate_card_value` (card_evaluation.py); a `None` context takes the
default dict of the source. -/
def calculate_card_value (card : CardInHand) (game_phase : Str := str "mid")
    (battlefield_context : Option EvalContext := none) : ℚ :=
  let ctx := battlefield_context.getD {}
  let score : ℚ :=
    if card.card_type = CardType.UNIT then
      let base : ℚ :=
        if optIntTruthy card.might ∧ 0 < card.energy_cost then
          let efficiency : ℚ := (card.might.getD 0 : ℚ) / (card.energy_cost : ℚ)
          efficiency * 2 +
            (if 3/2 ≤ efficiency then 2 else if 1 ≤ efficiency then 1 else 0)
        else if optIntTruthy card.might then (card.might.getD 0 : ℚ) * 2
        else 0
      let kw : ℚ := ((card.keywords.map pyLower).map unitKeywordValue).sum
      let ab := calculate_unit_ability_value card game_phase ctx
      let curve : ℚ :=
        if card.energy_cost ≤ 2 then (if game_phase = str "early" then 2 else 1)
        else if card.energy_cost = 3 then 1/2
        else 0
      base + kw + ab + curve
    else if card.card_type = CardType.SPELL then
      let base : ℚ :=
        if card.energy_cost ≤ 2 then 2
        else if card.energy_cost = 3 then 1 else 0
      let ab := calculate_spell_ability_value card game_phase ctx
      let tagFallback : ℚ :=
        if card.parsedAbilities.isEmpty then
          let tags_lower := card.tags.map pyLower
          (if tags_lower.contains (str "removal") then 3 else 0) +
          (if tags_lower.contains (str "damage") then 2 else 0) +
          (if tags_lower.contains (str "buff") ∨
              tags_lower.contains (str "protection") then 3/2 else 0)
        else 0
      base + ab + tagFallback
    else if card.card_type = CardType.GEAR then
      let base : ℚ :=
        if 0 < ctx.my_units then 2 + (ctx.my_units : ℚ) * (1/2) else 1/2
      let cheap : ℚ := if card.energy_cost ≤ 2 then 1 else 0
      base + cheap + calculate_gear_ability_value card ctx
    else 0
  max score 0

/-! ## legend_analysis.py -/

/-- `LegendSynergyType` (legend_analysis.py). -/
inductive LegendSynergyType where
  | EXHAUSTION_COST | READY_EFFECT | DOMAIN_SYNERGY | TRIBAL_SYNERGY
  | ACTIVATED_SUPPORT | PASSIVE_BUFF | COMBO_ENABLER | COUNTER_RISK | PROTECTION
deriving DecidableEq, Repr

/-- `LegendSynergy` (legend_analysis.py). -/
structure LegendSynergy where
  synergy_type : LegendSynergyType
  description : Str
  value_modifier : ℚ
  is_opponent : Bool := false
  requires_condition : Option Str := none
  timing : Str := str "immediate"
deriving DecidableEq, Repr

/-- `x or default` on an optional string (`None`/`""` are falsy). -/
def pyOrStr (o : Option Str) (d : Str) : Str :=
  match o with
  | some s => if s.isEmpty then d else s
  | none => d

/-- `requires_legend_exhaustion` (legend_analysis.py). -/
def requires_legend_exhaustion (card : CardInHand) : Bool :=
  match card.rules_text with
  | none => false
  | some t =>
    if t.isEmpty then false
    else
      let rl := pyLower t
      [str "exhaust your legend as an additional cost",
       str "exhaust your legend to",
       str "you may exhaust your legend",
       str "exhaust legend:"].any (fun p => pyIn p rl)

/-- `can_exhaust_legend` (legend_analysis.py). -/
def can_exhaust_legend (player : PlayerState) : Bool :=
  match player.legend with
  | none => false
  | some lg => !lg.exhausted

/-- `card_references_legend` (legend_analysis.py). -/
def card_references_legend (card : CardInHand) (legend_name : Str) : Bool :=
  if !optStrTruthy card.rules_text || legend_name.isEmpty then false
  else pyIn (pyLower legend_name) card.rulesLower

/-- `shares_domain` (legend_analysis.py). -/
def shares_domain (card : CardInHand) (legend : Legend) : Bool :=
  card.domain = legend.domain

/-- `shares_tags` (legend_analysis.py). -/
def shares_tags (card : CardInHand) (legend : Legend) : Bool :=
  if card.tags.isEmpty || legend.tags.isEmpty then false
  else card.tags.any (fun t => legend.tags.any (fun u => pyLower u = pyLower t))

/-- `analyze_exhaustion_synergy` (legend_analysis.py). -/
def analyze_exhaustion_synergy (card : CardInHand) (player : PlayerState) :
    Option LegendSynergy :=
  match player.legend with
  | none => none
  | some legend =>
    let rules_lower := card.rulesLower
    let lgName := pyOrStr legend.name (str "legend")
    if requires_legend_exhaustion card then
      if can_exhaust_legend player then
        some { synergy_type := .EXHAUSTION_COST
               description := str "Can exhaust " ++ lgName ++ str " for enhanced effect"
               value_modifier := 3/2
               requires_condition := some (str "Legend must be ready")
               timing := str "immediate" }
      else
        some { synergy_type := .EXHAUSTION_COST
               description := str "BLOCKED: Requires exhausting " ++ lgName ++
                 str " (already exhausted)"
               value_modifier := -2
               requires_condition := some (str "Legend must be ready")
               timing := str "immediate" }
    else if pyIn (str "ready") rules_lower ∧ pyIn (str "legend") rules_lower then
      if legend.exhausted then
        some { synergy_type := .READY_EFFECT
               description := str "Readies exhausted " ++ lgName ++
                 str " - enables second activation"
               value_modifier := 3
               requires_condition := some (str "Legend must be exhausted")
               timing := str "immediate" }
      else
        some { synergy_type := .READY_EFFECT
               description := str "Can ready " ++ lgName ++
                 str " (currently not exhausted)"
               value_modifier := 1/2
               timing := str "next_turn" }
    else none

/-- `analyze_domain_synergy` (legend_analysis.py). -/
def analyze_domain_synergy (card : CardInHand) (player : PlayerState) :
    Option LegendSynergy :=
  match player.legend with
  | none => none
  | some legend =>
    let domain_name := card.domain.val
    let fromPassives :=
      legend.passive_abilities.any (fun ability =>
        pyIn (pyLower domain_name) (pyLower ability) && shares_domain card legend)
    if fromPassives then
      some { synergy_type := .DOMAIN_SYNERGY
             description := pyOrStr legend.name (str "Legend") ++ str " buffs " ++
               domain_name ++ str " cards - this card benefits"
             value_modifier := 2
             timing := str "immediate" }
    else
      let legend_domain := legend.domain.val
      if optStrTruthy card.rules_text ∧ pyIn (pyLower legend_domain) card.rulesLower then
        some { synergy_type := .DOMAIN_SYNERGY
               description := str "Card references " ++ legend_domain ++
                 str " - synergizes with your legend"
               value_modifier := 3/2
               timing := str "immediate" }
      else none

/-- `analyze_tribal_synergy` (legend_analysis.py).  The shared-tag join of
the first branch iterates a Python `set`, whose order is an implementation
artifact; it is modelled as the lowered card-tag order, deduplicated.  Only
the description string is affected. -/
def analyze_tribal_synergy (card : CardInHand) (player : PlayerState) :
    Option LegendSynergy :=
  match player.legend with
  | none => none
  | some legend =>
    if shares_tags card legend then
      let shared := ((card.tags.map pyLower).eraseDups).filter
        (fun t => legend.tags.any (fun u => pyLower u = t))
      some { synergy_type := .TRIBAL_SYNERGY
             description := str "Shares tribal synergy (" ++ pyJoin (str ", ") shared ++
               str ") with " ++ pyOrStr legend.name (str "legend")
             value_modifier := 1
             timing := str "immediate" }
    else if !legend.passive_abilities.isEmpty ∧ !card.tags.isEmpty then
      let hit := legend.passive_abilities.findSome? (fun ability =>
        card.tags.find? (fun tag => pyIn (pyLower tag) (pyLower ability)))
      match hit with
      | some tag =>
        some { synergy_type := .TRIBAL_SYNERGY
               description := pyOrStr legend.name (str "Legend") ++ str " buffs " ++
                 tag ++ str " cards - this card benefits"
               value_modifier := 2
               timing := str "immediate" }
      | none => none
    else none

/-- `analyze_activated_ability_synergy` (legend_analysis.py); its
`battlefields` parameter is accepted and never read by the body, and is
omitted here. -/
def analyze_activated_ability_synergy (card : CardInHand) (player : PlayerState) :
    Option LegendSynergy :=
  match player.legend with
  | none => none
  | some legend =>
    if legend.activated_abilities.isEmpty then none
    else if legend.exhausted then none
    else
      let lgName := pyOrStr legend.name (str "Legend")
      legend.activated_abilities.findSome? (fun ability =>
        let al := pyLower ability
        if card.card_type = CardType.UNIT then
          if [str "move", str "swap", str "reposition"].any (fun k => pyIn k al) then
            some { synergy_type := .ACTIVATED_SUPPORT
                   description := lgName ++ str " can reposition this unit strategically"
                   value_modifier := 1
                   requires_condition := some (str "Legend must be ready")
                   timing := str "next_turn" }
          else if [str "buff", str "might", str "+", str "strengthen"].any
              (fun k => pyIn k al) then
            some { synergy_type := .ACTIVATED_SUPPORT
                   description := lgName ++ str " can buff this unit"
                   value_modifier := 3/2
                   requires_condition := some (str "Legend must be ready")
                   timing := str "immediate" }
          else if [str "protect", str "shield", str "guard", str "save"].any
              (fun k => pyIn k al) then
            some { synergy_type := .ACTIVATED_SUPPORT
                   description := lgName ++ str " can protect this unit"
                   value_modifier := 6/5
                   requires_condition := some (str "Legend must be ready")
                   timing := str "conditional" }
          else none
        else if card.card_type = CardType.SPELL then
          if pyIn (str "cost") al ∧
              [str "reduce", str "less", str "discount"].any (fun k => pyIn k al) then
            some { synergy_type := .ACTIVATED_SUPPORT
                   description := lgName ++ str " can reduce spell costs"
                   value_modifier := 1
                   requires_condition := some (str "Legend must be ready")
                   timing := str "immediate" }
          else if [str "copy", str "duplicate", str "additional"].any
              (fun k => pyIn k al) then
            some { synergy_type := .ACTIVATED_SUPPORT
                   description := lgName ++ str " can copy spells - double value!"
                   value_modifier := 5/2
                   requires_condition := some (str "Legend must be ready")
                   timing := str "immediate" }
          else none
        else if card.card_type = CardType.GEAR then
          if [str "attach", str "equip", str "gear"].any (fun k => pyIn k al) then
            some { synergy_type := .ACTIVATED_SUPPORT
                   description := lgName ++ str " can help attach equipment"
                   value_modifier := 4/5
                   requires_condition := some (str "Legend must be ready")
                   timing := str "immediate" }
          else none
        else none)

/-- `analyze_passive_synergy` (legend_analysis.py). -/
def analyze_passive_synergy (card : CardInHand) (player : PlayerState) :
    Option LegendSynergy :=
  match player.legend with
  | none => none
  | some legend =>
    if legend.passive_abilities.isEmpty then none
    else
      let lgName := pyOrStr legend.name (str "Legend")
      legend.passive_abilities.findSome? (fun ability =>
        let al := pyLower ability
        if card.card_type = CardType.UNIT then
          if [str "might", str "+1/", str "+2/", str "stronger"].any
              (fun k => pyIn k al) then
            some { synergy_type := .PASSIVE_BUFF
                   description := lgName ++ str " passive buffs all units"
                   value_modifier := 3/2
                   timing := str "immediate" }
          else if [str "assault", str "guard", str "flying", str "overwhelm"].any
              (fun k => pyIn k al) then
            some { synergy_type := .PASSIVE_BUFF
                   description := lgName ++ str " grants keywords to units"
                   value_modifier := 6/5
                   timing := str "immediate" }
          else none
        else if card.card_type = CardType.SPELL then
          if [str "spell damage", str "bonus damage", str "spells deal"].any
              (fun k => pyIn k al) ∧
              (let tags_lower := card.tags.map pyLower
               [str "damage", str "removal", str "destroy"].any
                 (fun t => tags_lower.contains t)) then
            some { synergy_type := .PASSIVE_BUFF
                   description := lgName ++ str " increases spell damage"
                   value_modifier := 2
                   timing := str "immediate" }
          else if pyIn (str "cost") al ∧
              [str "less", str "reduce"].any (fun k => pyIn k al) then
            some { synergy_type := .PASSIVE_BUFF
                   description := lgName ++ str " reduces spell costs passively"
                   value_modifier := 3/2
                   timing := str "immediate" }
          else none
        else none)

/-- `analyze_combo_potential` (legend_analysis.py). -/
def analyze_combo_potential (card : CardInHand) (player : PlayerState) :
    Option LegendSynergy :=
  match player.legend with
  | none => none
  | some legend =>
    if card_references_legend card (legend.name.getD []) then
      some { synergy_type := .COMBO_ENABLER
             description := str "Directly references " ++ fmtPyOptStr legend.name ++
               str " - key combo piece"
             value_modifier := 3
             timing := str "immediate" }
    else if optStrTruthy card.rules_text then
      let rules_lower := card.rulesLower
      if pyIn (str "legend") rules_lower then
        if [str "protect", str "prevent damage to", str "save"].any
            (fun k => pyIn k rules_lower) then
          some { synergy_type := .PROTECTION
                 description := str "Protects " ++ pyOrStr legend.name (str "legend") ++
                   str " from harm"
                 value_modifier := 3/2
                 timing := str "conditional" }
        else if [str "sacrifice", str "destroy", str "exile"].any
            (fun k => pyIn k rules_lower) ∧ pyIn (str "legend") rules_lower then
          if pyIn (str "when") rules_lower ∨ pyIn (str "if") rules_lower then
            some { synergy_type := .COMBO_ENABLER
                   description := str "May have legend-based combo - review carefully"
                   value_modifier := 0
                   timing := str "conditional" }
          else none
        else none
      else none
    else none

/-- `analyze_opponent_legend_risk` (legend_analysis.py). -/
def analyze_opponent_legend_risk (card : CardInHand)
    (opponent : Option PlayerState) : Option LegendSynergy :=
  match opponent.bind (·.legend) with
  | none => none
  | some op_legend =>
    let opName := pyOrStr op_legend.name (str "Opponent legend")
    let warn := str "⚠️ "
    let fromTriggered :=
      op_legend.triggered_abilities.findSome? (fun ability =>
        let al := pyLower ability
        if card.card_type = CardType.UNIT then
          if [str "destroy", str "kill", str "damage", str "remove"].any
              (fun k => pyIn k al) ∧
              (pyIn (str "when") al ∨ pyIn (str "whenever") al) then
            some { synergy_type := LegendSynergyType.COUNTER_RISK
                   description := warn ++ opName ++ str " may remove this unit on entry"
                   value_modifier := -1
                   is_opponent := true
                   timing := str "immediate" }
          else none
        else if card.card_type = CardType.SPELL then
          if [str "counter", str "negate", str "cancel"].any (fun k => pyIn k al) then
            some { synergy_type := LegendSynergyType.COUNTER_RISK
                   description := warn ++ opName ++ str " may counter spells"
                   value_modifier := -3/2
                   is_opponent := true
                   timing := str "immediate" }
          else none
        else none)
    match fromTriggered with
    | some s => some s
    | none =>
      let fromPassive :=
        op_legend.passive_abilities.findSome? (fun ability =>
          let al := pyLower ability
          if card.card_type = CardType.UNIT ∧
              [str "damage", str "hurt", str "ping"].any (fun k => pyIn k al) then
            some { synergy_type := LegendSynergyType.COUNTER_RISK
                   description := warn ++ opName ++ str " passive may damage units"
                   value_modifier := -1/2
                   is_opponent := true
                   timing := str "immediate" }
          else if pyIn (str "cost") al ∧
              [str "more", str "additional", str "increase"].any (fun k => pyIn k al) then
            some { synergy_type := LegendSynergyType.COUNTER_RISK
                   description := warn ++ opName ++ str " increases card costs"
                   value_modifier := -4/5
                   is_opponent := true
                   timing := str "immediate" }
          else none)
      match fromPassive with
      | some s => some s
      | none =>
        if !op_legend.exhausted ∧ !op_legend.activated_abilities.isEmpty then
          op_legend.activated_abilities.findSome? (fun ability =>
            let al := pyLower ability
            if [str "destroy", str "kill", str "bounce", str "return"].any
                (fun k => pyIn k al) then
              some { synergy_type := LegendSynergyType.COUNTER_RISK
                     description := warn ++ opName ++ str " can activate removal (ready)"
                     value_modifier := -6/5
                     is_opponent := true
                     requires_condition := some (str "Opponent legend must be ready")
                     timing := str "conditional" }
            else none)
        else none

/-- `analyze_legend_synergy` (legend_analysis.py); the trailing block only
emits log events and does not affect the result.  The `battlefields`
parameter is forwarded to a function that never reads it, and is omitted. -/
def analyze_legend_synergy (card : CardInHand) (player : PlayerState)
    (opponent : Option PlayerState := none) :
    List LegendSynergy × ℚ :=
  let synergies :=
    (analyze_exhaustion_synergy card player).toList ++
    (analyze_domain_synergy card player).toList ++
    (analyze_tribal_synergy card player).toList ++
    (analyze_activated_ability_synergy card player).toList ++
    (analyze_passive_synergy card player).toList ++
    (analyze_combo_potential card player).toList ++
    (match opponent with
     | some op => (analyze_opponent_legend_risk card (some op)).toList
     | none => [])
  (synergies, (synergies.map (·.value_modifier)).sum)

/-! ## playable_cards_advisor.py — data model -/

/-- `PlaySequenceStep` (playable_cards_advisor.py). -/
structure PlaySequenceStep where
  card_id : Str
  card_name : Str
  step_number : Nat
  energy_cost : Int
  cumulative_energy : Int
  reason : Str
  dependencies : List Str := []
  battlefield_target : Option Nat := none
deriving DecidableEq, Repr

/-- `PlaySequence` (playable_cards_advisor.py). -/
structure PlaySequence where
  steps : List PlaySequenceStep
  total_energy : Int
  sequence_reasoning : Str
  efficiency_score : ℚ
  risk_level : Str
deriving DecidableEq, Repr

/-- `BattlefieldPlacement` (advisor_models.py). -/
structure BattlefieldPlacement where
  battlefield_index : Nat
  reason : Str
  priority : Int
deriving DecidableEq, Repr

/-- `PlayableCardRecommendation` (advisor_models.py). -/
structure PlayableCardRecommendation where
  card_id : Str
  name : Option Str
  card_type : CardType
  energy_cost : Int
  priority : Int
  recommended : Bool
  reason : Str
  play_order : Option Int := none
  battlefield_placement : Option BattlefieldPlacement := none
  legend_synergy : Option Str := none
  value_score : Option ℚ := none
deriving DecidableEq, Repr

/-- The `{"level": ..., "details": ...}` threat dict stored in the debug
bundle. -/
structure ThreatAssessment where
  level : Str
  details : BattlefieldAnalysis
deriving DecidableEq, Repr

/-- `ScoringDebugInfo` (advisor_models.py); `battlefield_analyses` holds the
`model_dump()` serialisations of the lane states, modelled by the states
themselves. -/
structure ScoringDebugInfo where
  card_value_scores : List (Str × ℚ)
  threat_assessment : ThreatAssessment
  mana_efficiency_score : ℚ
  battlefield_analyses : List BattlefieldState
  game_phase : Str
deriving DecidableEq, Repr

/-- `PlayableCardsAdvice` (advisor_models.py).  The model declares no
`recommended_strategies`/`primary_strategy` fields, so pydantic drops those
keyword arguments of `analyze_playable_cards` (extra inputs are ignored by
default). -/
structure PlayableCardsAdvice where
  playable_cards : List PlayableCardRecommendation
  recommended_plays : List Str
  summary : Str
  mana_efficiency_note : Option Str := none
  scoring_debug : Option ScoringDebugInfo := none
deriving DecidableEq, Repr

/-- `PlayStrategy`: referenced from `playable_cards_advisor.py` and `api.py`
but absent from this snapshot's `advisor_models.py`; its fields are exactly
those its constructor calls supply. -/
structure PlayStrategy where
  strategy_name : Str
  card_ids : List Str
  total_energy : Int
  reasoning : Str
  priority : Int
deriving DecidableEq, Repr

/-! ## playable_cards_advisor.py — helpers -/

/-- `dict.get(key, default)` over an association list with unique keys. -/
def pyDictGet (m : List (Str × α)) (k : Str) (d : α) : α :=
  match m.find? (fun p => p.1 == k) with
  | some p => p.2
  | none => d

/-- Python dict insertion with overwrite-in-place semantics. -/
def pyDictInsert (m : List (Str × α)) (k : Str) (v : α) : List (Str × α) :=
  if m.any (fun p => p.1 == k) then
    m.map (fun p => if p.1 == k then (p.1, v) else p)
  else m ++ [(k, v)]

/-- `_filter_playable_cards` (playable_cards_advisor.py). -/
def filter_playable_cards (hand : List CardInHand) (my_energy : Int)
    (my_power : List (Str × Int)) : List CardInHand :=
  hand.filter (fun card =>
    if my_energy < card.energy_cost then false
    else if card.power_cost ≠ 0 ∧ 0 < card.power_cost then
      if !card.power_cost_by_rune.isEmpty then
        card.power_cost_by_rune.all (fun rc =>
          rc.2 ≤ pyDictGet my_power (pyLower rc.1.val) 0)
      else if card.domain ≠ Rune.COLORLESS then
        card.power_cost ≤ pyDictGet my_power (pyLower card.domain.val) 0
      else true
    else true)

/-- `_determine_game_phase` (playable_cards_advisor.py). -/
def determine_game_phase (turn : Int) : Str :=
  if turn ≤ 3 then str "early"
  else if turn ≤ 6 then str "mid"
  else str "late"

/-- Python `min(xs, key=f)`: the first element with minimal key. -/
def pyMinBy (f : α → Int) (x : α) (xs : List α) : α :=
  xs.foldl (fun best y => if f y < f best then y else best) x

/-- Python `max(xs, key=f)`: the first element with maximal key. -/
def pyMaxBy (f : α → Int) (x : α) (xs : List α) : α :=
  xs.foldl (fun best y => if f best < f y then y else best) x

/-- `_identify_card_dependencies` (playable_cards_advisor.py). -/
def identify_card_dependencies (card : CardInHand) (hand : List CardInHand)
    (battlefields : List BattlefieldState) : List Str :=
  let has_unit_on_board := battlefields.any (fun bf => bf.my_unit.isSome)
  let gearDeps : List Str :=
    if card.card_type = CardType.GEAR ∧ !has_unit_on_board then
      let unit_cards := hand.filter (fun c =>
        c.card_type = CardType.UNIT ∧ c.card_id ≠ card.card_id)
      match unit_cards with
      | [] => []
      | u :: us => [(pyMinBy (·.energy_cost) u us).card_id]
    else []
  let buffDeps : List Str :=
    if card.card_type = CardType.SPELL then
      let tags_lower := card.tags.map pyLower
      if (tags_lower.contains (str "buff") || tags_lower.contains (str "enchant")) ∧
          !has_unit_on_board then
        let unit_cards := hand.filter (fun c => c.card_type = CardType.UNIT)
        match unit_cards with
        | [] => []
        | u :: us =>
          [(pyMaxBy (fun c => c.might.getD 0 + c.keywords.length) u us).card_id]
      else []
    else []
  let comboDeps : List Str :=
    match card.rules_text with
    | none => []
    | some t =>
      if t.isEmpty then []
      else
        let rules_lower := pyLower t
        (hand.filter (fun other =>
          other.card_id ≠ card.card_id ∧
            optStrTruthy other.name ∧
            pyIn (pyLower (other.name.getD [])) rules_lower)).map (·.card_id)
  gearDeps ++ buffDeps ++ comboDeps

/-- `_calculate_play_priority` (playable_cards_advisor.py); the
`current_phase == Phase.MAIN` comparison of the str phase argument against
the str-enum member is the string test against "main". -/
def calculate_play_priority (card : CardInHand) (card_values : List (Str × ℚ))
    (a : BattlefieldAnalysis) (game_phase threat_level current_phase : Str) : ℚ :=
  let keywords_lower := card.keywords.map pyLower
  let base := pyDictGet card_values card.card_id 0
  let unitMod : ℚ :=
    if card.card_type = CardType.UNIT then
      (if 0 < a.empty_battlefields then 15 else 0) +
      (if keywords_lower.contains (str "guard") ∧
          (threat_level = str "high" ∨ threat_level = str "critical") then 10 else 0) +
      (if keywords_lower.contains (str "assault") ∧ game_phase = str "early"
        then 8 else 0)
    else 0
  let spellMod : ℚ :=
    if card.card_type = CardType.SPELL then
      let tags_lower := card.tags.map pyLower
      (if [str "removal", str "destroy", str "damage"].any
          (fun t => tags_lower.contains t) then
        if threat_level = str "critical" then 20
        else if threat_level = str "high" then 12
        else if 0 < a.opponent_units then 5
        else 0
      else 0) +
      (if keywords_lower.contains (str "fast") ∧ current_phase = str "main"
        then -10 else 0) +
      (if tags_lower.contains (str "draw") ∧ current_phase = str "main"
        then 3 else 0)
    else 0
  let gearMod : ℚ :=
    if card.card_type = CardType.GEAR then
      if 0 < a.my_units then
        8 + (if 0 < a.contested_battlefields then 5 else 0)
      else -10
    else 0
  let cheapMod : ℚ := if card.energy_cost ≤ 2 then 3 else 0
  let earlyMod : ℚ :=
    if game_phase = str "early" ∧ 4 ≤ card.energy_cost then -5 else 0
  base + unitMod + spellMod + gearMod + cheapMod + earlyMod

/-- Loop body of `_select_battlefield_for_unit` (playable_cards_advisor.py):
one candidate lane scored against the current best. -/
def selectBFStep (unit : CardInHand) (best : Option Nat × Int)
    (p : Nat × BattlefieldState) : Option Nat × Int :=
  let unit_might := unit.might.getD 0
  let keywords_lower := unit.keywords.map pyLower
  let (idx, bf) := p
  if bf.my_unit.isSome then best
  else
    let score : Int :=
      match bf.opponent_unit with
      | none => 10
      | some op =>
        let op_might := op.getMight
        if op_might < unit_might then 20
        else if unit_might = op_might then 15
        else 5
    let score := score +
      (if keywords_lower.contains (str "guard") ∧ bf.opponent_unit.isSome
        then 5 else 0)
    let score := score +
      (if keywords_lower.contains (str "assault") ∧ bf.opponent_unit.isNone
        then 3 else 0)
    if best.2 < score then (some idx, score) else best

/-- `_select_battlefield_for_unit` (playable_cards_advisor.py): best-scoring
unoccupied lane index, `none` when no lane qualifies. -/
def select_battlefield_for_unit (unit : CardInHand)
    (battlefields : List BattlefieldState) : Option Nat :=
  (battlefields.enum.foldl (selectBFStep unit) (none, -999)).1

/-- `_generate_step_reason` (playable_cards_advisor.py). -/
def generate_step_reason (card : CardInHand) (dependencies : List Str)
    (step_number : Nat) (a : BattlefieldAnalysis) (threat_level : Str) : Str :=
  let stepPrefix := str "Step " ++ natStr step_number ++ str ": "
  if !dependencies.isEmpty then stepPrefix ++ str "Play after dependencies met"
  else if card.card_type = CardType.UNIT then
    if 0 < a.empty_battlefields then stepPrefix ++ str "Develop board presence"
    else if 0 < a.opponent_only_battlefields then
      stepPrefix ++ str "Contest opponent" ++ [apos] ++ str "s battlefield"
    else stepPrefix ++ str "Strengthen battlefield position"
  else if card.card_type = CardType.SPELL then
    let tags_lower := card.tags.map pyLower
    if tags_lower.contains (str "removal") || tags_lower.contains (str "destroy") then
      stepPrefix ++ str "Remove opponent threat (" ++ threat_level ++ str " priority)"
    else if tags_lower.contains (str "buff") then
      stepPrefix ++ str "Enhance existing unit"
    else if tags_lower.contains (str "draw") then
      stepPrefix ++ str "Refill resources"
    else stepPrefix ++ str "Cast utility spell"
  else if card.card_type = CardType.GEAR then
    stepPrefix ++ str "Equip gear to strengthen unit"
  else stepPrefix ++ str "Play card"

/-- `_assess_sequence_risk` (playable_cards_advisor.py). -/
def assess_sequence_risk (_steps : List PlaySequenceStep) (efficiency : ℚ)
    (game_phase : Str) : Str :=
  if 9/10 ≤ efficiency then
    if game_phase = str "early" then str "moderate" else str "aggressive"
  else if 7/10 ≤ efficiency then str "moderate"
  else if efficiency < 1/2 then str "safe"
  else str "safe"

/-- Round half to even (the rounding of Python's `:.0f` format on the exact
values arising here). -/
def roundHalfEven (q : ℚ) : Int :=
  let f := ⌊q⌋
  let frac := q - f
  if frac < 1/2 then f
  else if 1/2 < frac then f + 1
  else if f % 2 = 0 then f else f + 1

/-- `f"{q:.0f}"`. -/
def pyFormatDot0 (q : ℚ) : Str := intStr (roundHalfEven q)

/-- `_generate_sequence_reasoning` (playable_cards_advisor.py). -/
def generate_sequence_reasoning (steps : List PlaySequenceStep) (efficiency : ℚ)
    (risk_level : Str) (_a : BattlefieldAnalysis) (threat_level : Str) : Str :=
  let pct := pyFormatDot0 (efficiency * 100)
  let p1 :=
    if 9/10 ≤ efficiency then str "Uses " ++ pct ++ str "% of available energy"
    else if 7/10 ≤ efficiency then str "Efficient " ++ pct ++ str "% energy usage"
    else str "Conservative " ++ pct ++ str "% energy usage"
  let p2 :=
    if steps.length = 1 then str "single high-impact play"
    else if steps.length = 2 then str "two-step sequence"
    else natStr steps.length ++ str "-card sequence"
  let p3 : List Str :=
    if steps.any (fun s => !s.dependencies.isEmpty) then
      [str "respects card dependencies"] else []
  let p4 : List Str :=
    if threat_level = str "high" ∨ threat_level = str "critical" then
      [str "addresses " ++ threat_level ++ str " threat level"] else []
  let unit_steps := steps.countP (fun s => s.battlefield_target.isSome)
  let p5 : List Str :=
    if 0 < unit_steps then
      [str "develops " ++ natStr unit_steps ++ str " battlefield(s)"] else []
  let p6 : List Str :=
    if risk_level = str "aggressive" then [str "⚠️ commits all resources"]
    else if risk_level = str "safe" then [str "✓ keeps options open"]
    else []
  pyJoin (str " - ") ([p1, p2] ++ p3 ++ p4 ++ p5 ++ p6) ++ str "."

/-! ## playable_cards_advisor.py — the greedy scheduler -/

/-- One admissibility test of the scheduler's inner `for` scan: the card
fits the remaining budget and all its dependencies are already played. -/
def stepAdmissible (cardDeps : List (Str × List Str)) (myEnergy cum : Int)
    (played : List Str) (card : CardInHand) : Bool :=
  !(myEnergy < cum + card.energy_cost) &&
    (pyDictGet cardDeps card.card_id []).all (fun dep => played.contains dep)

/-- The `while sorted_cards and cumulative_energy < my_energy` loop of
`_build_optimal_sequence`.  Each pass admits the first admissible card of
the priority-sorted list and removes it (`list.remove` strips the first
equal element; identical cards share `card_id`, hence cost and
dependencies, so the first admissible card is also the first equal one);
the loop stops when no card can be admitted.  `fuel` starts at the list
length, which the pass count never exceeds. -/
def buildLoop (cardDeps : List (Str × List Str))
    (battlefields : List BattlefieldState) (a : BattlefieldAnalysis)
    (threat_level : Str) (myEnergy : Int) :
    Nat → List CardInHand → List Str → Int → Nat →
    List PlaySequenceStep × Int
  | 0, _, _, cum, _ => ([], cum)
  | fuel + 1, remaining, played, cum, stepNum =>
    if remaining.isEmpty || !(cum < myEnergy) then ([], cum)
    else
      match remaining.findIdx? (stepAdmissible cardDeps myEnergy cum played) with
      | none => ([], cum)
      | some i =>
        match remaining.get? i with
        | none => ([], cum)
        | some card =>
          let cum' := cum + card.energy_cost
          let battlefield_target :=
            if card.card_type = CardType.UNIT then
              select_battlefield_for_unit card battlefields
            else none
          let deps := pyDictGet cardDeps card.card_id []
          let step : PlaySequenceStep :=
            { card_id := card.card_id
              card_name := pyOrStr card.name card.card_id
              step_number := stepNum
              energy_cost := card.energy_cost
              cumulative_energy := cum'
              reason := generate_step_reason card deps stepNum a threat_level
              dependencies := deps
              battlefield_target }
          let (rest, finalCum) := buildLoop cardDeps battlefields a threat_level
            myEnergy fuel (remaining.eraseIdx i) (played ++ [card.card_id])
            cum' (stepNum + 1)
          (step :: rest, finalCum)

/-- `_build_optimal_sequence` (playable_cards_advisor.py). -/
def build_optimal_sequence (cards : List CardInHand)
    (card_values : List (Str × ℚ)) (a : BattlefieldAnalysis)
    (game_phase threat_level current_phase : Str) (my_energy : Int)
    (battlefields : List BattlefieldState) : PlaySequence :=
  let card_priorities : List (Str × ℚ) := cards.foldl
    (fun m card => pyDictInsert m card.card_id
      (calculate_play_priority card card_values a game_phase threat_level
        current_phase)) []
  let card_dependencies : List (Str × List Str) := cards.foldl
    (fun m card => pyDictInsert m card.card_id
      (identify_card_dependencies card cards battlefields)) []
  let sorted_cards := pySortDesc (fun c => pyDictGet card_priorities c.card_id 0) cards
  let (steps, cumulative_energy) := buildLoop card_dependencies battlefields a
    threat_level my_energy sorted_cards.length sorted_cards [] 0 1
  let efficiency_score : ℚ :=
    if 0 < my_energy then (cumulative_energy : ℚ) / (my_energy : ℚ) else 0
  let risk_level := assess_sequence_risk steps efficiency_score game_phase
  { steps
    total_energy := cumulative_energy
    sequence_reasoning := generate_sequence_reasoning steps efficiency_score
      risk_level a threat_level
    efficiency_score
    risk_level }

/-- `_generate_alternative_sequences` (playable_cards_advisor.py). -/
def generate_alternative_sequences (cards : List CardInHand)
    (card_values : List (Str × ℚ)) (a : BattlefieldAnalysis)
    (game_phase threat_level current_phase : Str) (my_energy : Int)
    (battlefields : List BattlefieldState) (primary_sequence : PlaySequence) :
    List PlaySequence :=
  let alt1 : List PlaySequence :=
    let cheap_cards := cards.filter (fun c => c.energy_cost ≤ 2)
    if !cheap_cards.isEmpty then
      let conservative_seq := build_optimal_sequence (cheap_cards.take 1)
        card_values a game_phase threat_level current_phase my_energy battlefields
      if !conservative_seq.steps.isEmpty ∧
          conservative_seq.total_energy ≠ primary_sequence.total_energy then
        [conservative_seq]
      else []
    else []
  let alt2 : List PlaySequence :=
    let unit_cards := cards.filter (fun c => c.card_type = CardType.UNIT)
    if 2 ≤ unit_cards.length then
      let units_seq := build_optimal_sequence unit_cards card_values a
        game_phase threat_level current_phase my_energy battlefields
      if !units_seq.steps.isEmpty ∧
          units_seq.total_energy ≠ primary_sequence.total_energy then
        [units_seq]
      else []
    else []
  let alt3 : List PlaySequence :=
    let expensive_cards := pySortDesc (fun c => (c.energy_cost : ℚ)) cards
    match expensive_cards with
    | [] => []
    | top :: _ =>
      if 3 ≤ top.energy_cost then
        let big_play_seq := build_optimal_sequence [top] card_values a
          game_phase threat_level current_phase my_energy battlefields
        if !big_play_seq.steps.isEmpty ∧
            big_play_seq.total_energy ≠ primary_sequence.total_energy then
          [big_play_seq]
        else []
      else []
  alt1 ++ alt2 ++ alt3

/-- `_convert_sequence_to_strategy` (playable_cards_advisor.py). -/
def convert_sequence_to_strategy (sequence : PlaySequence) (strategy_name : Str)
    (priority : Int) : PlayStrategy :=
  { strategy_name
    card_ids := sequence.steps.map (·.card_id)
    total_energy := sequence.total_energy
    reasoning := sequence.sequence_reasoning
    priority }

/-- `_calculate_card_value` local to playable_cards_advisor.py (distinct
from the card_evaluation.py function of the same name). -/
def pca_calculate_card_value (card : CardInHand) (turn : Int)
    (a : BattlefieldAnalysis) (_my_legend : Option CardRecord) : ℚ :=
  let base : ℚ :=
    if card.card_type = CardType.UNIT ∧ optIntTruthy card.might then
      let efficiency : ℚ := (card.might.getD 0 : ℚ) / (max card.energy_cost 1 : ℚ)
      efficiency * 10 + (card.might.getD 0 : ℚ) * (1/2)
    else 0
  let kw : ℚ := card.keywords.foldl (fun v k =>
    let kl := pyLower k
    v + (if kl = str "assault" then 4
      else if kl = str "guard" then 3
      else if kl = str "flying" then 3
      else if kl = str "ambush" then 2
      else if kl = str "overwhelm" then 4
      else if kl = str "lifesteal" then 2
      else if kl = str "quick" then 3
      else if kl = str "double strike" then 5
      else 1)) 0
  let game_phase := determine_game_phase turn
  let phaseMod : ℚ :=
    (if game_phase = str "early" then
      (if card.energy_cost ≤ 2 then 5
       else if 4 ≤ card.energy_cost then -3 else 0)
     else 0) +
    (if game_phase = str "late" ∧ card.card_type = CardType.UNIT ∧
        5 ≤ card.might.getD 0 then 4 else 0)
  let spellMod : ℚ :=
    if card.card_type = CardType.SPELL then
      let tags_lower := card.tags.map pyLower
      (if [str "removal", str "destroy", str "damage"].any
          (fun t => tags_lower.contains t) then
        (a.opponent_units : ℚ) * 3 +
          (if 4 ≤ a.highest_opponent_might then 3 else 0)
      else 0) +
      (if tags_lower.contains (str "draw") then
        2 + (if game_phase = str "late" then 2 else 0)
      else 0)
    else 0
  let gearMod : ℚ :=
    if card.card_type = CardType.GEAR then
      (a.my_units : ℚ) * 2 + (if 0 < a.contested_battlefields then 3 else 0)
    else 0
  max (base + kw + phaseMod + spellMod + gearMod) 0

/-- The early-rejection advice of `analyze_playable_cards` for a lane count
other than 2 (all other model fields take their declared defaults). -/
def invalidLaneAdvice (laneCount : Nat) : PlayableCardsAdvice :=
  { playable_cards := []
    recommended_plays := []
    summary := str "Error: Expected 2 battlefields for 1v1, got " ++
      natStr laneCount }

/-- `analyze_playable_cards` (playable_cards_advisor.py); `none` models the
unreachable raising paths (a sequenced card id absent from the playable
list, or a game phase outside early/mid/late in the summary builder). -/
def analyze_playable_cards (hand : List CardInHand) (my_energy : Int)
    (my_power : List (Str × Int)) (turn : Int) (phase : Str)
    (battlefields : List BattlefieldState)
    (my_legend : Option CardRecord := none)
    (_opponent_legend : Option CardRecord := none)
    (_my_legend_exhausted : Bool := false)
    (_opponent_legend_exhausted : Bool := false)
    (_going_first : Bool := true)
    (my_score : Option Int := none)
    (opponent_score : Option Int := none) : Option PlayableCardsAdvice :=
  if hand.isEmpty then
    some { playable_cards := [], recommended_plays := []
           summary := str "No cards in hand to play." }
  else if battlefields.length ≠ 2 then
    some (invalidLaneAdvice battlefields.length)
  else Id.run do
  let playable := filter_playable_cards hand my_energy my_power
  if playable.isEmpty then
    let power_summary :=
      if my_power.isEmpty then str "0"
      else pyJoin (str ", ")
        (my_power.map (fun p => intStr p.2 ++ str " " ++ p.1))
    return some { playable_cards := [], recommended_plays := []
                  summary := str "No playable cards with " ++ intStr my_energy ++
                    str " energy and " ++ power_summary ++ str " power." }
  let game_phase := determine_game_phase turn
  let battlefield_analysis0 := analyze_riftbound_battlefields battlefields
  let highest :=
    match (battlefields.filterMap (·.opponent_unit)).map UnitDict.getMight with
    | [] => 0
    | m :: ms => ms.foldl max m
  let battlefield_analysis :=
    { battlefield_analysis0 with highest_opponent_might := highest }
  let threat_level := assess_battlefield_threat_level battlefield_analysis
    opponent_score my_score
  let card_values : List (Str × ℚ) := playable.foldl
    (fun m card => pyDictInsert m card.card_id
      (pca_calculate_card_value card turn battlefield_analysis my_legend)) []
  let primary_sequence := build_optimal_sequence playable card_values
    battlefield_analysis game_phase threat_level phase my_energy battlefields
  let alternative_sequences := generate_alternative_sequences playable
    card_values battlefield_analysis game_phase threat_level phase my_energy
    battlefields primary_sequence
  let strategies : List PlayStrategy :=
    convert_sequence_to_strategy primary_sequence (str "Optimal Sequence") 1 ::
    (alternative_sequences.enum.map (fun p =>
      let names := [str "Conservative Play", str "Board Control Focus",
        str "Single Big Play"]
      let nm := names.getD p.1 (str "Alternative " ++ natStr (p.1 + 1))
      convert_sequence_to_strategy p.2 nm ((p.1 : Int) + 2)))
  let mut recommendations : List PlayableCardRecommendation := []
  for step in primary_sequence.steps do
    match playable.find? (fun c => c.card_id == step.card_id) with
    | none => return none
    | some card =>
      let battlefield_placement :=
        match step.battlefield_target with
        | some idx => some { battlefield_index := idx
                             reason := str "Best battlefield for this unit"
                             priority := 1 }
        | none => none
      recommendations := recommendations ++
        [{ card_id := card.card_id
           name := card.name
           card_type := card.card_type
           energy_cost := card.energy_cost
           priority := (step.step_number : Int)
           recommended := true
           reason := step.reason
           battlefield_placement
           value_score := some (pyDictGet card_values card.card_id 0) }]
  let sequenced_ids := primary_sequence.steps.map (·.card_id)
  for card in playable do
    if !sequenced_ids.contains card.card_id then
      recommendations := recommendations ++
        [{ card_id := card.card_id
           name := card.name
           card_type := card.card_type
           energy_cost := card.energy_cost
           priority := (primary_sequence.steps.length : Int) + 10
           recommended := false
           reason := str "Not included in optimal sequence - lower value or doesn" ++
             [apos] ++ str "t fit energy curve"
           value_score := some (pyDictGet card_values card.card_id 0) }]
  let primary_strategy_ids := primary_sequence.steps.map (·.card_id)
  let efficiency_pct := primary_sequence.efficiency_score * 100
  let mana_note0 := str "Optimal sequence uses " ++
    intStr primary_sequence.total_energy ++ str "/" ++ intStr my_energy ++
    str " energy (" ++ pyFormatDot0 efficiency_pct ++ str "%)"
  let mana_note1 := mana_note0 ++
    (if 9/10 ≤ primary_sequence.efficiency_score then str " - maximum efficiency"
     else if 7/10 ≤ primary_sequence.efficiency_score then str " - balanced efficiency"
     else str " - conservative, holds resources")
  let mana_note := mana_note1 ++
    (if 1 < strategies.length then
      str ". " ++ natStr strategies.length ++ str " strategies available."
     else [])
  let summary0 ← match build_strategy_summary turn game_phase phase
      primary_strategy_ids.length playable.length battlefield_analysis
      threat_level my_score opponent_score with
    | some s => pure s
    | none => return none
  let summary :=
    if 1 < primary_sequence.steps.length then
      summary0 ++ str " Sequence: " ++ natStr primary_sequence.steps.length ++
        str " steps."
    else summary0
  let scoring_debug : ScoringDebugInfo :=
    { card_value_scores := card_values
      threat_assessment := { level := threat_level, details := battlefield_analysis }
      mana_efficiency_score := primary_sequence.efficiency_score
      battlefield_analyses := battlefields
      game_phase }
  return some
    { playable_cards := recommendations
      recommended_plays := primary_strategy_ids
      summary
      mana_efficiency_note := some mana_note
      scoring_debug := some scoring_debug }

/-- The fragment filter of `parse_rules_text`: kept iff non-empty and at
least 3 characters after stripping. -/
def keptFragment (rawLine : Str) : Bool :=
  let line := pyStrip rawLine
  !(line.isEmpty || line.length < 3)

/-- Test fixture: a gear card whose rules text names another hand card. -/
def c7gear : CardInHand :=
  { card_id := str "g1"
    card_type := CardType.GEAR
    domain := Rune.ORDER
    energy_cost := 3
    rules_text := some (str "Works with Bearer.") }

/-- Test fixture: a 3-cost unit. -/
def c7unitA : CardInHand :=
  { card_id := str "uA"
    card_type := CardType.UNIT
    domain := Rune.ORDER
    energy_cost := 3 }

/-- Test fixture: a 1-cost unit named Bearer. -/
def c7unitB : CardInHand :=
  { card_id := str "uB"
    name := some (str "Bearer")
    card_type := CardType.UNIT
    domain := Rune.ORDER
    energy_cost := 1 }

/-- Test fixture: gear plus two units in hand. -/
def c7hand : List CardInHand := [c7gear, c7unitA, c7unitB]

/-- Test fixture: a spell that requires exhausting the legend. -/
def c7exhaustCard : CardInHand :=
  { card_id := str "c1"
    card_type := CardType.SPELL
    domain := Rune.MIND
    rules_text := some (str "Exhaust your legend to draw a card.") }

/-- Test fixture: a support spell that readies the legend. -/
def c7readyCard : CardInHand :=
  { card_id := str "r1"
    name := some (str "Refresh")
    card_type := CardType.SPELL
    domain := Rune.MIND
    rules_text := some (str "Ready your legend.") }

/-- Test fixture: a player whose legend is currently exhausted. -/
def c7exhaustedPlayer : PlayerState :=
  { legend := some { card_id := str "L", domain := Rune.MIND, exhausted := true } }

/-- Test fixture: a 1-cost unit with might 2. -/
def c10unit : CardInHand :=
  { card_id := str "u1"
    card_type := CardType.UNIT
    domain := Rune.FURY
    energy_cost := 1
    might := some 2 }

/-- Test fixture: a lane with no units. -/
def c10freeLane : BattlefieldState := {}

/-- Test fixture: a lane holding a friendly unit. -/
def c10occLane : BattlefieldState := { my_unit := some { might := some 3 } }

/-- Test fixture: a battlefield analysis seeing one empty lane. -/
def c10analysis : BattlefieldAnalysis := { empty_battlefields := 1 }

/-- Test fixture: the step the scheduler emits for `c10unit` on a single
free lane. -/
def c10step : PlaySequenceStep :=
  { card_id := str "u1"
    card_name := str "u1"
    step_number := 1
    energy_cost := 1
    cumulative_energy := 1
    reason := str "Step 1: Develop board presence"
    dependencies := []
    battlefield_target := some 0 }

/-- Invariant predicate: scanning the step list in order, every step's
dependency ids already occur among `seen` (ids played before the scan
started) extended with the ids of the steps scanned so far. -/
def depsPrecede : List Str → List PlaySequenceStep → Bool
  | _, [] => true
  | seen, s :: rest =>
    s.dependencies.all (fun d => seen.contains d) &&
      depsPrecede (seen ++ [s.card_id]) rest

/-- Test fixture: a first step with no dependencies. -/
def c3stepA : PlaySequenceStep :=
  { card_id := str "a"
    card_name := str "a"
    step_number := 1
    energy_cost := 1
    cumulative_energy := 1
    reason := str "r"
    dependencies := []
    battlefield_target := none }

/-- Test fixture: a second step depending on the first. -/
def c3stepB : PlaySequenceStep :=
  { card_id := str "b"
    card_name := str "b"
    step_number := 2
    energy_cost := 2
    cumulative_energy := 3
    reason := str "r"
    dependencies := [str "a"]
    battlefield_target := none }

/-- Test fixture: a decision already marked keep. -/
def c1decK : MulliganCardDecision :=
  { card_id := str "k1"
    name := some (str "Keeper")
    keep := true
    reason := str "good card" }

/-- Test fixture: a decision marked mulligan. -/
def c1decM : MulliganCardDecision :=
  { card_id := str "m1"
    name := some (str "Muller")
    keep := false
    reason := str "too expensive" }

/-- Test fixture: the hand cards matching the two decisions. -/
def c1hand : List CardInHand :=
  [{ card_id := str "k1"
     card_type := CardType.UNIT
     domain := Rune.FURY
     energy_cost := 2 },
   { card_id := str "m1"
     card_type := CardType.UNIT
     domain := Rune.FURY
     energy_cost := 6 }]

/-! # Theorems -/

/-- Helper: a type returned by `firstTableMatch` is a key of the table. -/
theorem firstTableMatch_mem {table : List (AbilityType × List Pattern)}
    {ll : Str} {t : AbilityType} (h : firstTableMatch table ll = some t) :
    t ∈ table.map Prod.fst := by
  induction table with
  | nil => simp [firstTableMatch] at h
  | cons hd rest ih =>
    rw [firstTableMatch] at h
    split at h
    · injection h with h
      simp [← h]
    · simp [ih h]

/-- Helper: `_parse_ability_line` returns an ability on every path. -/
theorem parse_ability_line_isSome (line lineLower : Str) :
    (parse_ability_line line lineLower).isSome := by
  unfold parse_ability_line
  repeat' split
  all_goals rfl

/-- C4 (amended): `_parse_ability_line` dispatches by the first matching
category in the fixed order triggered, activated, static, effect (first
matching table entry wins within a category), and a fragment matching both
a triggered and an effect pattern — such as "When this enters the
battlefield, deal 2 damage" — is returned as an enters-battlefield trigger,
not a damage effect.  (The claim's own example "When this enters, deal 2
damage" matches no triggered pattern and is refuted separately.) -/
theorem claim_C4_theorem :
    (∀ line : Str,
      (firstTableMatch TRIGGERED_PATTERNS (pyLower line)).isSome →
        (parse_ability_line line (pyLower line)).map (·.ability_type) =
          firstTableMatch TRIGGERED_PATTERNS (pyLower line) ∧
        ∀ t, firstTableMatch TRIGGERED_PATTERNS (pyLower line) = some t →
          t ∈ TRIGGERED_PATTERNS.map Prod.fst) ∧
    (∀ line : Str,
      firstTableMatch TRIGGERED_PATTERNS (pyLower line) = none →
      (firstTableMatch ACTIVATED_PATTERNS (pyLower line)).isSome →
        (parse_ability_line line (pyLower line)).map (·.ability_type) =
          firstTableMatch ACTIVATED_PATTERNS (pyLower line)) ∧
    (∀ line : Str,
      firstTableMatch TRIGGERED_PATTERNS (pyLower line) = none →
      firstTableMatch ACTIVATED_PATTERNS (pyLower line) = none →
      (firstTableMatch STATIC_PATTERNS (pyLower line)).isSome →
        (parse_ability_line line (pyLower line)).map (·.ability_type) =
          firstTableMatch STATIC_PATTERNS (pyLower line)) ∧
    (∀ line : Str,
      firstTableMatch TRIGGERED_PATTERNS (pyLower line) = none →
      firstTableMatch ACTIVATED_PATTERNS (pyLower line) = none →
      firstTableMatch STATIC_PATTERNS (pyLower line) = none →
      (firstTableMatch EFFECT_PATTERNS (pyLower line)).isSome →
        (parse_ability_line line (pyLower line)).map (·.ability_type) =
          firstTableMatch EFFECT_PATTERNS (pyLower line)) ∧
    ((parse_rules_text (str "when this enters the battlefield, deal 2 damage")).map
        (·.ability_type) = [AbilityType.ENTERS_BATTLEFIELD] ∧
      firstTableMatch EFFECT_PATTERNS
        (pyLower (str "when this enters the battlefield, deal 2 damage")) =
        some AbilityType.DAMAGE) := by
  refine ⟨?_, ?_, ?_, ?_, by decide, by decide⟩
  · intro line h
    cases heq : firstTableMatch TRIGGERED_PATTERNS (pyLower line) with
    | none => rw [heq] at h; simp at h
    | some t =>
      refine ⟨?_, ?_⟩
      · simp [parse_ability_line, heq, parse_triggered_ability]
      · intro t' ht'
        injection ht' with ht''
        subst ht''
        exact firstTableMatch_mem heq
  · intro line h1 h
    cases heq : firstTableMatch ACTIVATED_PATTERNS (pyLower line) with
    | none => rw [heq] at h; simp at h
    | some t => simp [parse_ability_line, h1, heq, parse_activated_ability]
  · intro line h1 h2 h
    cases heq : firstTableMatch STATIC_PATTERNS (pyLower line) with
    | none => rw [heq] at h; simp at h
    | some t => simp [parse_ability_line, h1, h2, heq, parse_static_ability]
  · intro line h1 h2 h3 h
    cases heq : firstTableMatch EFFECT_PATTERNS (pyLower line) with
    | none => rw [heq] at h; simp at h
    | some t => simp [parse_ability_line, h1, h2, h3, heq, parse_effect_ability]

/-- C4 counterexample: the claim's example fragment "When this enters, deal
2 damage" is NOT classified as an enters-battlefield trigger — the ETB
patterns require "enters the battlefield" or "enters play" — but as a
damage effect. -/
theorem claim_C4_counterexample :
    (parse_rules_text (str "When this enters, deal 2 damage")).map (·.ability_type) =
      [AbilityType.DAMAGE] ∧
    AbilityType.DAMAGE ≠ AbilityType.ENTERS_BATTLEFIELD := by
  exact ⟨by decide, by decide⟩

/-- C4 witness: the dispatch theorem applied at the corrected example
sentence, which a triggered pattern does match. -/
theorem claim_C4_witness :
    (parse_ability_line (str "when this enters the battlefield, deal 2 damage")
        (pyLower (str "when this enters the battlefield, deal 2 damage"))).map
      (·.ability_type) =
      firstTableMatch TRIGGERED_PATTERNS
        (pyLower (str "when this enters the battlefield, deal 2 damage")) ∧
    firstTableMatch TRIGGERED_PATTERNS
        (pyLower (str "when this enters the battlefield, deal 2 damage")) =
      some AbilityType.ENTERS_BATTLEFIELD :=
  ⟨(claim_C4_theorem.1 (str "when this enters the battlefield, deal 2 damage")
      (by decide)).1,
    by decide⟩


/-- Helper: each kept fragment contributes exactly one parsed ability. -/
theorem parse_rules_step_length (rawLine : Str) (acc : List ParsedAbility) :
    (parse_rules_step rawLine acc).length =
      acc.length + (if keptFragment rawLine then 1 else 0) := by
  rw [parse_rules_step, keptFragment]
  by_cases hc : ((pyStrip rawLine).isEmpty || decide ((pyStrip rawLine).length < 3)) = true
  · simp [hc]
  · simp only [Bool.not_eq_true] at hc
    cases hp : parse_ability_line (pyStrip rawLine) (pyLower (pyStrip rawLine)) with
    | none =>
      have := parse_ability_line_isSome (pyStrip rawLine) (pyLower (pyStrip rawLine))
      rw [hp] at this
      simp at this
    | some parsed => simp [hc, hp]

/-- C5 (amended): `parse_rules_text` never fails — every code path of
`_parse_ability_line` yields an ability, each kept fragment (at least 3
characters after stripping) contributes exactly one `ParsedAbility` — and a
fragment matching no category pattern falls through THREE fallback rules in
order: "choose one/two" → modal choice, then text containing "legend" →
legend-interaction, and only then the generic static-buff placeholder. -/
theorem claim_C5_theorem :
    (∀ line lineLower : Str, (parse_ability_line line lineLower).isSome) ∧
    (∀ text : Str, (parse_rules_text text).length =
      (reSplitSep isFragSep text).countP keptFragment) ∧
    (∀ line : Str,
      firstTableMatch TRIGGERED_PATTERNS (pyLower line) = none →
      firstTableMatch ACTIVATED_PATTERNS (pyLower line) = none →
      firstTableMatch STATIC_PATTERNS (pyLower line) = none →
      firstTableMatch EFFECT_PATTERNS (pyLower line) = none →
      parse_ability_line line (pyLower line) = some (
        if pyIn (str "choose one") (pyLower line) ||
            pyIn (str "choose two") (pyLower line) then
          { ability_type := AbilityType.CHOOSE_EFFECT, raw_text := line,
            timing := EffectTiming.MAIN_PHASE }
        else if pyIn (str "legend") (pyLower line) then
          { ability_type := AbilityType.LEGEND_INTERACTION, raw_text := line,
            timing := EffectTiming.ALWAYS }
        else
          { ability_type := AbilityType.STATIC_BUFF, raw_text := line,
            timing := EffectTiming.ALWAYS })) := by
  refine ⟨parse_ability_line_isSome, ?_, ?_⟩
  · intro text
    rw [parse_rules_text]
    split
    · next hempty =>
      have : text = [] := by
        cases text with
        | nil => rfl
        | cons c t => simp [List.isEmpty] at hempty
      subst this
      rfl
    · next =>
      generalize (reSplitSep isFragSep text) = ls
      induction ls with
      | nil => rfl
      | cons l ls ih =>
        rw [List.foldr_cons, List.countP_cons, parse_rules_step_length, ih]
  · intro line h1 h2 h3 h4
    simp only [parse_ability_line, h1, h2, h3, h4, apply_ite some]

/-- C5 counterexample: "empower the legend" matches no category pattern and
contains neither "choose one" nor "choose two", yet is not returned as the
generic static-buff placeholder — a third fallback turns it into a
legend-interaction ability, so "these are the only two fallback rules" is
false. -/
theorem claim_C5_counterexample :
    pyIn (str "choose one") (pyLower (str "empower the legend")) = false ∧
    pyIn (str "choose two") (pyLower (str "empower the legend")) = false ∧
    (parse_rules_text (str "empower the legend")).map (·.ability_type) =
      [AbilityType.LEGEND_INTERACTION] ∧
    AbilityType.LEGEND_INTERACTION ≠ AbilityType.STATIC_BUFF := by
  exact ⟨by decide, by decide, by decide, by decide⟩

/-- C5 witness: the fallback part of the theorem applied at the concrete
unmatched fragment "abc", which lands on the generic static-buff rule. -/
theorem claim_C5_witness :
    parse_ability_line (str "abc") (pyLower (str "abc")) =
      some { ability_type := AbilityType.STATIC_BUFF, raw_text := str "abc",
             timing := EffectTiming.ALWAYS } := by
  have h := claim_C5_theorem.2.2 (str "abc") (by decide) (by decide) (by decide)
    (by decide)
  exact h.trans (by decide)

/-- Helper: one lane step of the battlefield fold increments `my_units`
exactly when the lane holds a friendly unit. -/
theorem battlefieldStep_my_units (a : BattlefieldAnalysis) (bf : BattlefieldState) :
    (battlefieldStep a bf).my_units =
      a.my_units + (if bf.my_unit.isSome then 1 else 0) := by
  obtain ⟨bid, mu, ou⟩ := bf
  rcases mu with _ | u <;> rcases ou with _ | v <;>
    simp only [battlefieldStep, Option.isSome_some, Option.isSome_none] <;>
    (repeat' split) <;> simp_all

/-- Helper: the fold counts friendly units across every supplied lane. -/
theorem analyze_battlefields_my_units_aux (bfs : List BattlefieldState)
    (a : BattlefieldAnalysis) :
    (bfs.foldl battlefieldStep a).my_units =
      a.my_units + bfs.countP (fun bf => bf.my_unit.isSome) := by
  induction bfs generalizing a with
  | nil => simp
  | cons bf rest ih =>
    rw [List.foldl_cons, ih, List.countP_cons, battlefieldStep_my_units]
    by_cases h : bf.my_unit.isSome <;> simp [h] <;> omega

/-- C9 (amended): play planning (`analyze_playable_cards`) rejects a
non-empty request whose lane count differs from 2 with the descriptive
error advice and performs no computation over the lanes; battlefield
analysis (`analyze_riftbound_battlefields`) itself performs no lane-count
validation and computes its aggregates over however many lanes are
supplied (lane-count validation for analysis inputs happens at the request
layer, not in this function). -/
theorem claim_C9_theorem :
    (∀ (hand : List CardInHand) (my_energy : Int) (my_power : List (Str × Int))
       (turn : Int) (phase : Str) (battlefields : List BattlefieldState)
       (lg olg : Option CardRecord) (mle ole gf : Bool) (ms os : Option Int),
       hand ≠ [] → battlefields.length ≠ 2 →
       analyze_playable_cards hand my_energy my_power turn phase battlefields
         lg olg mle ole gf ms os = some (invalidLaneAdvice battlefields.length)) ∧
    (∀ battlefields : List BattlefieldState,
       (analyze_riftbound_battlefields battlefields).my_units =
         battlefields.countP (fun bf => bf.my_unit.isSome)) := by
  constructor
  · intro hand my_energy my_power turn phase battlefields lg olg mle ole gf ms os h1 h2
    have he : hand.isEmpty = false := by
      cases hand with
      | nil => exact absurd rfl h1
      | cons c t => rfl
    simp [analyze_playable_cards, he, h2]
  · intro battlefields
    have := analyze_battlefields_my_units_aux battlefields {}
    simpa [analyze_riftbound_battlefields] using this

/-- C9 counterexample: on a 3-lane input, battlefield analysis does not
reject — it returns a full analysis computed over all three lanes (here
counting all three friendly units), contradicting "battlefield analysis
... reject[s] the input ... and perform[s] no partial computation over the
lanes". -/
theorem claim_C9_counterexample :
    ([ { my_unit := some { might := some 1 } },
       { my_unit := some { might := some 2 } },
       { my_unit := some { might := some 3 } } ] : List BattlefieldState).length ≠ 2 ∧
    (analyze_riftbound_battlefields
      [ { my_unit := some { might := some 1 } },
        { my_unit := some { might := some 2 } },
        { my_unit := some { might := some 3 } } ]).my_units = 3 ∧
    (analyze_riftbound_battlefields
      [ { my_unit := some { might := some 1 } },
        { my_unit := some { might := some 2 } },
        { my_unit := some { might := some 3 } } ]).my_total_might = 6 := by
  refine ⟨by decide, by rfl, by rfl⟩

/-- C9 witness: the rejection branch applied at a concrete 0-lane request
with a one-card hand. -/
theorem claim_C9_witness :
    analyze_playable_cards
      [{ card_id := str "a", card_type := CardType.UNIT, domain := Rune.FURY }]
      3 [] 1 (str "main") [] none none false false true none none =
      some (invalidLaneAdvice 0) :=
  claim_C9_theorem.1
    [{ card_id := str "a", card_type := CardType.UNIT, domain := Rune.FURY }]
    3 [] 1 (str "main") [] none none false false true none none
    (by simp) (by simp)

/-- Helper: the exhaustion analyzer never flags its synergies as opponent
interactions. -/
theorem exhaustion_not_opponent {c : CardInHand} {p : PlayerState} {s : LegendSynergy}
    (h : analyze_exhaustion_synergy c p = some s) : s.is_opponent = false := by
  unfold analyze_exhaustion_synergy at h
  (try simp only [] at h)
  (repeat' split at h) <;> simp_all <;> simp [← h]

/-- Helper: the domain analyzer never flags its synergies as opponent
interactions. -/
theorem domain_not_opponent {c : CardInHand} {p : PlayerState} {s : LegendSynergy}
    (h : analyze_domain_synergy c p = some s) : s.is_opponent = false := by
  unfold analyze_domain_synergy at h
  (try simp only [] at h)
  (repeat' split at h) <;> simp_all <;> simp [← h]

/-- Helper: the tribal analyzer never flags its synergies as opponent
interactions. -/
theorem tribal_not_opponent {c : CardInHand} {p : PlayerState} {s : LegendSynergy}
    (h : analyze_tribal_synergy c p = some s) : s.is_opponent = false := by
  unfold analyze_tribal_synergy at h
  (try simp only [] at h)
  (repeat' split at h) <;> simp_all <;> simp [← h]

/-- Helper: the activated-support analyzer never flags its synergies as
opponent interactions. -/
theorem activated_not_opponent {c : CardInHand} {p : PlayerState} {s : LegendSynergy}
    (h : analyze_activated_ability_synergy c p = some s) : s.is_opponent = false := by
  unfold analyze_activated_ability_synergy at h
  (try simp only [] at h)
  (repeat' split at h) <;> simp_all
  all_goals
    obtain ⟨x, _, hx⟩ := List.exists_of_findSome?_eq_some h
    (try simp only [] at hx)
    (repeat' split at hx) <;> simp_all <;> simp [← hx]

/-- Helper: the passive analyzer never flags its synergies as opponent
interactions. -/
theorem passive_not_opponent {c : CardInHand} {p : PlayerState} {s : LegendSynergy}
    (h : analyze_passive_synergy c p = some s) : s.is_opponent = false := by
  unfold analyze_passive_synergy at h
  (try simp only [] at h)
  (repeat' split at h) <;> simp_all
  all_goals
    obtain ⟨x, _, hx⟩ := List.exists_of_findSome?_eq_some h
    (try simp only [] at hx)
    (repeat' split at hx) <;> simp_all <;> simp [← hx]

/-- Helper: the combo analyzer never flags its synergies as opponent
interactions. -/
theorem combo_not_opponent {c : CardInHand} {p : PlayerState} {s : LegendSynergy}
    (h : analyze_combo_potential c p = some s) : s.is_opponent = false := by
  unfold analyze_combo_potential at h
  (try simp only [] at h)
  (repeat' split at h) <;> simp_all <;> simp [← h]

/-- Helper: every synergy emitted by the opponent-risk analyzer is an
opponent-flagged counter-risk with a strictly negative modifier. -/
theorem opponent_risk_shape {c : CardInHand} {o : Option PlayerState} {s : LegendSynergy}
    (h : analyze_opponent_legend_risk c o = some s) :
    s.is_opponent = true ∧ s.synergy_type = LegendSynergyType.COUNTER_RISK ∧
      s.value_modifier < 0 := by
  unfold analyze_opponent_legend_risk at h
  (try simp only [] at h)
  (repeat' split at h) <;> simp_all
  all_goals
    first
    | (obtain ⟨x, _, hx⟩ := List.exists_of_findSome?_eq_some h
       (try simp only [] at hx)
       (repeat' split at hx) <;> simp_all <;> simp [← hx] <;> norm_num)
    | ((try subst h)
       rename_i heq
       obtain ⟨x, _, hx⟩ := List.exists_of_findSome?_eq_some heq
       (try simp only [] at hx)
       (repeat' split at hx) <;> simp_all <;> simp [← hx] <;> norm_num)

/-- C6: `analyze_legend_synergy` returns as total the sum of the value
modifiers of EVERY synergy in the returned list — including those flagged
`is_opponent = true`.  Those opponent-flagged entries are exactly the
counter-risks: each carries `COUNTER_RISK` type and a strictly negative
modifier, so an opponent risk always drags the player total down (the spec
sentence claiming the total excludes opponent-flagged modifiers is refuted
by `claim_C6_counterexample`). -/
theorem claim_C6_theorem (card : CardInHand) (player : PlayerState)
    (opponent : Option PlayerState) :
    (analyze_legend_synergy card player opponent).2 =
      (((analyze_legend_synergy card player opponent).1).map
        (fun s => s.value_modifier)).sum ∧
    ∀ s ∈ (analyze_legend_synergy card player opponent).1,
      s.is_opponent = true →
        s.synergy_type = LegendSynergyType.COUNTER_RISK ∧ s.value_modifier < 0 := by
  refine ⟨rfl, ?_⟩
  intro s hs hop
  unfold analyze_legend_synergy at hs
  simp only [List.mem_append, Option.mem_toList, Option.mem_def] at hs
  rcases hs with ((((((h | h) | h) | h) | h) | h) | h)
  · exact absurd hop (by simp [exhaustion_not_opponent h])
  · exact absurd hop (by simp [domain_not_opponent h])
  · exact absurd hop (by simp [tribal_not_opponent h])
  · exact absurd hop (by simp [activated_not_opponent h])
  · exact absurd hop (by simp [passive_not_opponent h])
  · exact absurd hop (by simp [combo_not_opponent h])
  · rcases opponent with _ | op
    · simp at h
    · simp only [Option.mem_toList, Option.mem_def] at h
      exact (opponent_risk_shape h).2

/-- C6 counterexample: a vanilla unit facing an opponent legend with a
"when ... destroy" trigger.  The player-side analyzers produce nothing, the
opponent-risk analyzer produces a single `is_opponent = true` synergy with
modifier -1, and the returned total is -1 — not the 0 the spec's
"excluded from the total" reading would give. -/
theorem claim_C6_counterexample :
    (analyze_legend_synergy
      { card_id := str "u1", card_type := CardType.UNIT, domain := Rune.FURY }
      {}
      (some { legend := some {
          card_id := str "ol"
          domain := Rune.MIND
          triggered_abilities := [str "When a unit is played, destroy it"] } })).2
      = -1 ∧
    ((((analyze_legend_synergy
      { card_id := str "u1", card_type := CardType.UNIT, domain := Rune.FURY }
      {}
      (some { legend := some {
          card_id := str "ol"
          domain := Rune.MIND
          triggered_abilities := [str "When a unit is played, destroy it"] } })).1).filter
        (fun s => !s.is_opponent)).map (fun s => s.value_modifier)).sum = 0 ∧
    (-1 : ℚ) ≠ 0 := by
  refine ⟨?_, ?_, by norm_num⟩
  · have h1 : (((analyze_legend_synergy
        { card_id := str "u1", card_type := CardType.UNIT, domain := Rune.FURY }
        {}
        (some { legend := some {
            card_id := str "ol"
            domain := Rune.MIND
            triggered_abilities := [str "When a unit is played, destroy it"] } }))).1).map (fun s => s.value_modifier) = [-1] := by decide
    calc ((analyze_legend_synergy
        { card_id := str "u1", card_type := CardType.UNIT, domain := Rune.FURY }
        {}
        (some { legend := some {
            card_id := str "ol"
            domain := Rune.MIND
            triggered_abilities := [str "When a unit is played, destroy it"] } }))).2
        = ((((analyze_legend_synergy
        { card_id := str "u1", card_type := CardType.UNIT, domain := Rune.FURY }
        {}
        (some { legend := some {
            card_id := str "ol"
            domain := Rune.MIND
            triggered_abilities := [str "When a unit is played, destroy it"] } }))).1).map (fun s => s.value_modifier)).sum := rfl
      _ = -1 := by rw [h1]; norm_num
  · have h2 : (((analyze_legend_synergy
        { card_id := str "u1", card_type := CardType.UNIT, domain := Rune.FURY }
        {}
        (some { legend := some {
            card_id := str "ol"
            domain := Rune.MIND
            triggered_abilities := [str "When a unit is played, destroy it"] } }))).1).filter (fun s => !s.is_opponent) = [] := by decide
    rw [h2]; rfl

/-- C6 witness: instantiating `claim_C6_theorem` on the counterexample
scenario, the opponent-flagged synergy it returns is a negative
counter-risk. -/
theorem claim_C6_witness :
    ({ synergy_type := LegendSynergyType.COUNTER_RISK
       description := str "⚠️ Opponent legend may remove this unit on entry"
       value_modifier := -1
       is_opponent := true } : LegendSynergy).synergy_type =
        LegendSynergyType.COUNTER_RISK ∧
    ({ synergy_type := LegendSynergyType.COUNTER_RISK
       description := str "⚠️ Opponent legend may remove this unit on entry"
       value_modifier := -1
       is_opponent := true } : LegendSynergy).value_modifier < 0 :=
  (claim_C6_theorem
    { card_id := str "u1", card_type := CardType.UNIT, domain := Rune.FURY }
    {}
    (some { legend := some {
        card_id := str "ol"
        domain := Rune.MIND
        triggered_abilities := [str "When a unit is played, destroy it"] } })).2
    { synergy_type := LegendSynergyType.COUNTER_RISK
      description := str "⚠️ Opponent legend may remove this unit on entry"
      value_modifier := -1
      is_opponent := true }
    (by decide) (by decide)

/-- C8: for a gear card in a battlefield context with zero friendly units,
`calculate_card_value` returns `1/2` plus a cheap-gear bonus (`1` when
`energy_cost ≤ 2`, else `0`) — a strictly positive score, never zero.  The
case split on friendly units only gates the flat presence bonus
(`2 + my_units/2`) and the per-keyword / per-buff gear-ability
contributions, which are zero when no friendly unit is on board. -/
theorem claim_C8_theorem (card : CardInHand) (gp : Str) (ctx : EvalContext)
    (hg : card.card_type = CardType.GEAR) (h : ctx.my_units = 0) :
    calculate_card_value card gp (some ctx) =
      1/2 + (if card.energy_cost ≤ 2 then (1 : ℚ) else 0) ∧
    0 < calculate_card_value card gp (some ctx) ∧
    calculate_gear_ability_value card ctx = 0 := by
  have hgear : calculate_gear_ability_value card ctx = 0 := by
    simp [calculate_gear_ability_value, h]
  have hval : calculate_card_value card gp (some ctx) =
      1/2 + (if card.energy_cost ≤ 2 then (1 : ℚ) else 0) := by
    simp [calculate_card_value, hg, h, hgear]
    split <;> norm_num [max_def]
  exact ⟨hval, by rw [hval]; split <;> norm_num, hgear⟩

/-- C8 counterexample: a vanilla 3-cost gear card with no friendly units on
board is scored `1/2`, not the `0` the spec asserts for the zero-unit
case. -/
theorem claim_C8_counterexample :
    calculate_card_value
      { card_id := str "g1", card_type := CardType.GEAR, domain := Rune.ORDER
        energy_cost := 3 }
      (str "mid") (some { my_units := 0 }) = 1/2 ∧
    (1/2 : ℚ) ≠ 0 := by
  refine ⟨?_, by norm_num⟩
  simp [calculate_card_value, calculate_gear_ability_value]

/-- C8 witness: `claim_C8_theorem` at a concrete cheap gear card (cost 2)
and a zero-unit context: the score is `1/2 + 1` and positive, and the gear
ability value is `0`. -/
theorem claim_C8_witness :
    calculate_card_value
      { card_id := str "g2", card_type := CardType.GEAR, domain := Rune.ORDER
        energy_cost := 2 }
      (str "early") (some { my_units := 0, opponent_units := 1 }) =
      1/2 + (if (2 : Int) ≤ 2 then (1 : ℚ) else 0) ∧
    0 < calculate_card_value
      { card_id := str "g2", card_type := CardType.GEAR, domain := Rune.ORDER
        energy_cost := 2 }
      (str "early") (some { my_units := 0, opponent_units := 1 }) ∧
    calculate_gear_ability_value
      { card_id := str "g2", card_type := CardType.GEAR, domain := Rune.ORDER
        energy_cost := 2 }
      { my_units := 0, opponent_units := 1 } = 0 :=
  claim_C8_theorem
    { card_id := str "g2", card_type := CardType.GEAR, domain := Rune.ORDER
      energy_cost := 2 }
    (str "early") { my_units := 0, opponent_units := 1 } rfl rfl

/-- Helper: Python-style `min(x :: xs, key=f)` returns an element of the
list. -/
theorem pyMinBy_mem (f : α → Int) (x : α) (xs : List α) :
    pyMinBy f x xs ∈ x :: xs := by
  induction xs generalizing x with
  | nil => simp [pyMinBy]
  | cons y ys ih =>
    have h := ih (if f y < f x then y else x)
    simp only [pyMinBy, List.foldl_cons] at *
    rcases List.mem_cons.mp h with h1 | h1
    · rw [h1]; split <;> simp
    · simp [h1]

/-- Helper: Python-style `min(x :: xs, key=f)` has a minimal key. -/
theorem pyMinBy_le (f : α → Int) (x : α) (xs : List α) :
    ∀ y ∈ x :: xs, f (pyMinBy f x xs) ≤ f y := by
  induction xs generalizing x with
  | nil =>
    intro y hy
    simp only [List.mem_singleton] at hy
    rw [hy]
    simp [pyMinBy]
  | cons z zs ih =>
    intro y hy
    simp only [pyMinBy, List.foldl_cons] at *
    have hz := ih (if f z < f x then z else x) (if f z < f x then z else x)
      (List.mem_cons_self _ _)
    rcases List.mem_cons.mp hy with h1 | h1
    · subst h1
      refine le_trans hz ?_
      split
      · next hlt => exact le_of_lt hlt
      · exact le_refl _
    · rcases List.mem_cons.mp h1 with h2 | h2
      · subst h2
        refine le_trans hz ?_
        split
        · exact le_refl _
        · next hlt => exact le_of_not_lt hlt
      · exact ih _ y (List.mem_cons_of_mem _ h2)

/-- Helper: Python-style `max(x :: xs, key=f)` returns an element of the
list. -/
theorem pyMaxBy_mem (f : α → Int) (x : α) (xs : List α) :
    pyMaxBy f x xs ∈ x :: xs := by
  induction xs generalizing x with
  | nil => simp [pyMaxBy]
  | cons y ys ih =>
    have h := ih (if f x < f y then y else x)
    simp only [pyMaxBy, List.foldl_cons] at *
    rcases List.mem_cons.mp h with h1 | h1
    · rw [h1]; split <;> simp
    · simp [h1]

/-- C7: dependency extraction has exactly three rules, none of which reads
the legend.  (1) A gear card with no friendly unit on any battlefield
depends on the first cheapest other unit in hand (which is a member of the
filtered unit list and has minimal energy cost).  (2) A card whose
non-empty rules text contains another hand card's (truthy) name depends on
that card.  (3) Soundness: every extracted dependency is the id of a hand
card that is either a unit or a card named in the rules text — so a
"ready effect" support card that is neither can never appear, whatever the
legend's exhaustion state (the function takes no legend input at all);
`claim_C7_counterexample` exhibits the spec's exhausted-legend scenario
producing no dependency. -/
theorem claim_C7_theorem (card : CardInHand) (hand : List CardInHand)
    (battlefields : List BattlefieldState) :
    (∀ u us, card.card_type = CardType.GEAR →
      battlefields.any (fun bf => bf.my_unit.isSome) = false →
      hand.filter (fun c =>
        c.card_type = CardType.UNIT ∧ c.card_id ≠ card.card_id) = u :: us →
      (pyMinBy (fun c => c.energy_cost) u us).card_id ∈
        identify_card_dependencies card hand battlefields ∧
      pyMinBy (fun c => c.energy_cost) u us ∈ u :: us ∧
      ∀ c ∈ u :: us,
        (pyMinBy (fun c => c.energy_cost) u us).energy_cost ≤ c.energy_cost) ∧
    (∀ other ∈ hand, other.card_id ≠ card.card_id →
      optStrTruthy other.name = true →
      optStrTruthy card.rules_text = true →
      pyIn (pyLower (other.name.getD [])) (pyLower (card.rules_text.getD [])) = true →
      other.card_id ∈ identify_card_dependencies card hand battlefields) ∧
    (∀ d ∈ identify_card_dependencies card hand battlefields,
      ∃ c ∈ hand, d = c.card_id ∧
        (c.card_type = CardType.UNIT ∨
          (optStrTruthy c.name = true ∧
            pyIn (pyLower (c.name.getD []))
              (pyLower (card.rules_text.getD [])) = true))) := by
  refine ⟨?_, ?_, ?_⟩
  · intro u us hg hb hf
    refine ⟨?_, pyMinBy_mem _ u us, pyMinBy_le _ u us⟩
    unfold identify_card_dependencies
    simp only [hb, hg, hf]
    simp
  · intro other hmem hne hname hrt hin
    unfold identify_card_dependencies
    rcases hcrt : card.rules_text with _ | t
    · rw [hcrt] at hrt; simp [optStrTruthy] at hrt
    · rw [hcrt] at hrt
      have hne' : t.isEmpty = false := by
        simpa [optStrTruthy] using hrt
      simp only [hne', Bool.false_eq_true, if_false]
      rw [hcrt] at hin
      simp only [Option.getD_some] at hin
      refine List.mem_append_right _ ?_
      simp only [List.mem_map]
      refine ⟨other, ?_, rfl⟩
      rw [List.mem_filter]
      refine ⟨hmem, ?_⟩
      simp [hne, hname, hin]
  · intro d hd
    unfold identify_card_dependencies at hd
    simp only [List.mem_append] at hd
    rcases hd with (hd | hd) | hd
    · -- gear rule
      split at hd
      · rcases hflt : hand.filter (fun c =>
            c.card_type = CardType.UNIT ∧ c.card_id ≠ card.card_id) with _ | ⟨u, us⟩
        · rw [hflt] at hd; simp at hd
        · rw [hflt] at hd
          simp only [List.mem_singleton] at hd
          have hmem := pyMinBy_mem (fun c => c.energy_cost) u us
          rw [← hflt] at hmem
          rw [List.mem_filter] at hmem
          refine ⟨_, hmem.1, hd, Or.inl ?_⟩
          have h2 := hmem.2
          simp only [decide_eq_true_eq] at h2
          exact h2.1
      · simp at hd
    · -- buff rule
      split at hd
      · split at hd
        · rcases hflt : hand.filter (fun c => c.card_type = CardType.UNIT)
              with _ | ⟨u, us⟩
          · rw [hflt] at hd; simp at hd
          · rw [hflt] at hd
            simp only [List.mem_singleton] at hd
            have hmem := pyMaxBy_mem
              (fun c => c.might.getD 0 + (c.keywords.length : Int)) u us
            rw [← hflt] at hmem
            rw [List.mem_filter] at hmem
            refine ⟨_, hmem.1, hd, Or.inl ?_⟩
            have h2 := hmem.2
            simpa using h2
        · simp at hd
      · simp at hd
    · -- combo rule
      split at hd
      · simp at hd
      next t heq =>
        split at hd
        · simp at hd
        · simp only [List.mem_map] at hd
          obtain ⟨c, hc, hcd⟩ := hd
          rw [List.mem_filter] at hc
          refine ⟨c, hc.1, hcd.symm, Or.inr ?_⟩
          have h2 := hc.2
          simp only [decide_eq_true_eq] at h2
          rw [heq]
          simp only [Option.getD_some]
          exact ⟨h2.2.1, h2.2.2⟩

/-- C7 counterexample: `c7exhaustCard` requires exhausting the legend, the
player's legend is exhausted, and `c7readyCard` in hand is a ready-effect
card (as classified by the legend analyzer) — yet dependency extraction
returns no dependency at all: no rule consults the legend. -/
theorem claim_C7_counterexample :
    requires_legend_exhaustion c7exhaustCard = true ∧
    c7exhaustedPlayer.legend.map (fun l => l.exhausted) = some true ∧
    (analyze_exhaustion_synergy c7readyCard c7exhaustedPlayer).map
      (fun s => s.synergy_type) = some LegendSynergyType.READY_EFFECT ∧
    identify_card_dependencies c7exhaustCard [c7exhaustCard, c7readyCard] [] = [] := by
  refine ⟨by decide, by decide, by decide, by decide⟩

/-- C7 witness: `claim_C7_theorem` on the gear fixture: the cheapest other
unit `c7unitB` is the gear dependency with minimal cost, the card named in
the gear's rules text is a dependency, and every extracted dependency id
is covered by the soundness disjunction. -/
theorem claim_C7_witness :
    ((pyMinBy (fun c => c.energy_cost) c7unitA [c7unitB]).card_id ∈
        identify_card_dependencies c7gear c7hand [] ∧
      pyMinBy (fun c => c.energy_cost) c7unitA [c7unitB] ∈ [c7unitA, c7unitB] ∧
      ∀ c ∈ [c7unitA, c7unitB],
        (pyMinBy (fun c => c.energy_cost) c7unitA [c7unitB]).energy_cost ≤
          c.energy_cost) ∧
    c7unitB.card_id ∈ identify_card_dependencies c7gear c7hand [] ∧
    (∃ c ∈ c7hand, str "uB" = c.card_id ∧
      (c.card_type = CardType.UNIT ∨
        (optStrTruthy c.name = true ∧
          pyIn (pyLower (c.name.getD []))
            (pyLower (c7gear.rules_text.getD [])) = true))) :=
  ⟨(claim_C7_theorem c7gear c7hand []).1 c7unitA [c7unitB] rfl (by decide) (by decide),
   (claim_C7_theorem c7gear c7hand []).2.1 c7unitB (by decide) (by decide)
     (by decide) (by decide) (by decide),
   (claim_C7_theorem c7gear c7hand []).2.2 (str "uB") (by decide)⟩

/-- Helper: one lane-scoring step either keeps the accumulated choice or
switches to the current lane, which must have no friendly unit. -/
theorem selectBFStep_inv (unit : CardInHand) (acc : Option Nat × Int)
    (p : Nat × BattlefieldState) (i : Nat)
    (h : (selectBFStep unit acc p).1 = some i) :
    acc.1 = some i ∨ (i = p.1 ∧ p.2.my_unit = none) := by
  obtain ⟨idx, bf⟩ := p
  unfold selectBFStep at h
  simp only [] at h
  (repeat' split at h) <;> simp_all [Option.not_isSome_iff_eq_none, Option.isNone_iff_eq_none]

/-- Helper: the fold underlying lane selection only ever picks a lane from
the scanned pair list whose friendly-unit slot is empty. -/
theorem selectFold_inv (unit : CardInHand) (l : List (Nat × BattlefieldState)) :
    ∀ (acc : Option Nat × Int) (i : Nat),
      (l.foldl (selectBFStep unit) acc).1 = some i →
      acc.1 = some i ∨ ∃ b, (i, b) ∈ l ∧ b.my_unit = none := by
  induction l with
  | nil => intro acc i h; exact Or.inl h
  | cons p ps ih =>
    intro acc i h
    simp only [List.foldl_cons] at h
    rcases ih _ i h with h1 | ⟨b, hb, hbn⟩
    · rcases selectBFStep_inv unit acc p i h1 with h2 | ⟨h2, h3⟩
      · exact Or.inl h2
      · subst h2
        exact Or.inr ⟨p.2, List.mem_cons_self _ _, h3⟩
    · exact Or.inr ⟨b, List.mem_cons_of_mem _ hb, hbn⟩

/-- Helper: an occupied lane never changes the accumulator. -/
theorem selectBFStep_occupied (unit : CardInHand) (acc : Option Nat × Int)
    (p : Nat × BattlefieldState) (h : p.2.my_unit.isSome = true) :
    selectBFStep unit acc p = acc := by
  obtain ⟨idx, bf⟩ := p
  unfold selectBFStep
  simp_all

/-- Helper: lane selection returns only indices (below the lane count) of
lanes with no friendly unit. -/
theorem select_some_free (unit : CardInHand) (battlefields : List BattlefieldState)
    (i : Nat) (h : select_battlefield_for_unit unit battlefields = some i) :
    ∃ hlt : i < battlefields.length,
      (battlefields.get ⟨i, hlt⟩).my_unit = none := by
  unfold select_battlefield_for_unit at h
  rcases selectFold_inv unit battlefields.enum (none, -999) i h with h1 | ⟨b, hb, hbn⟩
  · simp at h1
  · rw [List.mk_mem_enum_iff_getElem?] at hb
    have hlt : i < battlefields.length := by
      by_contra hge
      rw [List.getElem?_eq_none (by omega)] at hb
      exact Option.noConfusion hb
    refine ⟨hlt, ?_⟩
    rw [List.getElem?_eq_getElem hlt] at hb
    have : battlefields.get ⟨i, hlt⟩ = b := Option.some.inj hb
    rw [this]
    exact hbn

/-- Helper: every step the scheduler loop emits targets (if anything) a
lane of the input battlefield list with no friendly unit. -/
theorem buildLoop_target (cardDeps : List (Str × List Str))
    (battlefields : List BattlefieldState) (a : BattlefieldAnalysis)
    (threat_level : Str) (myEnergy : Int) :
    ∀ (fuel : Nat) (remaining : List CardInHand) (played : List Str)
      (cum : Int) (stepNum : Nat),
      ∀ s ∈ (buildLoop cardDeps battlefields a threat_level myEnergy
          fuel remaining played cum stepNum).1,
        ∀ i, s.battlefield_target = some i →
          ∃ hlt : i < battlefields.length,
            (battlefields.get ⟨i, hlt⟩).my_unit = none := by
  intro fuel
  induction fuel with
  | zero => intro remaining played cum stepNum s hs; simp [buildLoop] at hs
  | succ n ih =>
    intro remaining played cum stepNum s hs i hi
    rw [buildLoop] at hs
    split at hs
    · simp at hs
    · split at hs
      · simp at hs
      · split at hs
        · simp at hs
        · simp only [List.mem_cons] at hs
          rcases hs with hs | hs
          · subst hs
            simp only [] at hi
            split at hi
            · exact select_some_free _ _ _ hi
            · exact Option.noConfusion hi
          · exact ih _ _ _ _ s hs i hi

/-- Helper: every step of a scheduled sequence targets (if anything) a
free lane of the battlefield list the scheduler was given. -/
theorem build_sequence_target (cards : List CardInHand)
    (card_values : List (Str × ℚ)) (a : BattlefieldAnalysis)
    (game_phase threat_level current_phase : Str) (my_energy : Int)
    (battlefields : List BattlefieldState) :
    ∀ s ∈ (build_optimal_sequence cards card_values a game_phase threat_level
        current_phase my_energy battlefields).steps,
      ∀ i, s.battlefield_target = some i →
        ∃ hlt : i < battlefields.length,
          (battlefields.get ⟨i, hlt⟩).my_unit = none := by
  intro s hs i hi
  unfold build_optimal_sequence at hs
  simp only [] at hs
  exact buildLoop_target _ _ _ _ _ _ _ _ _ _ s hs i hi

/-- C10: (1) the scheduler's lane assignment, when it returns an index,
returns an in-range index of a lane with no friendly unit; (2) when every
lane holds a friendly unit it returns `none`; (3) consequently every step
of the primary scheduled sequence and (4) of every alternative sequence
has a `battlefield_target` that, when set, points at a lane of the input
battlefield list without a friendly unit. -/
theorem claim_C10_theorem :
    (∀ (unit : CardInHand) (battlefields : List BattlefieldState) (i : Nat),
      select_battlefield_for_unit unit battlefields = some i →
      ∃ hlt : i < battlefields.length,
        (battlefields.get ⟨i, hlt⟩).my_unit = none) ∧
    (∀ (unit : CardInHand) (battlefields : List BattlefieldState),
      (∀ bf ∈ battlefields, bf.my_unit.isSome = true) →
      select_battlefield_for_unit unit battlefields = none) ∧
    (∀ (cards : List CardInHand) (card_values : List (Str × ℚ))
      (a : BattlefieldAnalysis) (game_phase threat_level current_phase : Str)
      (my_energy : Int) (battlefields : List BattlefieldState),
      ∀ s ∈ (build_optimal_sequence cards card_values a game_phase threat_level
          current_phase my_energy battlefields).steps,
        ∀ i, s.battlefield_target = some i →
          ∃ hlt : i < battlefields.length,
            (battlefields.get ⟨i, hlt⟩).my_unit = none) ∧
    (∀ (cards : List CardInHand) (card_values : List (Str × ℚ))
      (a : BattlefieldAnalysis) (game_phase threat_level current_phase : Str)
      (my_energy : Int) (battlefields : List BattlefieldState)
      (primary : PlaySequence),
      ∀ seq ∈ generate_alternative_sequences cards card_values a game_phase
          threat_level current_phase my_energy battlefields primary,
        ∀ s ∈ seq.steps, ∀ i, s.battlefield_target = some i →
          ∃ hlt : i < battlefields.length,
            (battlefields.get ⟨i, hlt⟩).my_unit = none) := by
  have hconst : ∀ (unit : CardInHand) (l : List (Nat × BattlefieldState)),
      (∀ p ∈ l, p.2.my_unit.isSome = true) →
      ∀ acc, l.foldl (selectBFStep unit) acc = acc := by
    intro unit l
    induction l with
    | nil => intro _ acc; rfl
    | cons p ps ih =>
      intro hall acc
      simp only [List.foldl_cons]
      rw [selectBFStep_occupied _ _ _ (hall p (List.mem_cons_self _ _))]
      exact ih (fun q hq => hall q (List.mem_cons_of_mem _ hq)) acc
  refine ⟨select_some_free, ?_, build_sequence_target, ?_⟩
  · intro unit battlefields hall
    unfold select_battlefield_for_unit
    rw [hconst unit battlefields.enum ?_ (none, -999)]
    intro p hp
    obtain ⟨j, b⟩ := p
    rw [List.mk_mem_enum_iff_getElem?] at hp
    exact hall b (List.getElem?_mem hp)
  · intro cards card_values a gp tl cp me battlefields primary seq hseq
    unfold generate_alternative_sequences at hseq
    simp only [List.mem_append] at hseq
    rcases hseq with (hseq | hseq) | hseq
    · split at hseq
      · split at hseq
        · simp only [List.mem_singleton] at hseq
          subst hseq
          exact build_sequence_target _ _ _ _ _ _ _ _
        · simp at hseq
      · simp at hseq
    · split at hseq
      · split at hseq
        · simp only [List.mem_singleton] at hseq
          subst hseq
          exact build_sequence_target _ _ _ _ _ _ _ _
        · simp at hseq
      · simp at hseq
    · split at hseq
      · simp at hseq
      · split at hseq
        · split at hseq
          · simp only [List.mem_singleton] at hseq
            subst hseq
            exact build_sequence_target _ _ _ _ _ _ _ _
          · simp at hseq
        · simp at hseq

/-- C10 witness: `claim_C10_theorem` at concrete inputs: the chosen lane
for `c10unit` over an occupied-then-free pair is the free lane index 1;
a fully occupied lane list yields no choice; and the concrete scheduled
step for `c10unit` targets the free lane 0. -/
theorem claim_C10_witness :
    (∃ hlt : 1 < [c10occLane, c10freeLane].length,
      (List.get [c10occLane, c10freeLane] ⟨1, hlt⟩).my_unit = none) ∧
    select_battlefield_for_unit c10unit [c10occLane] = none ∧
    (∃ hlt : 0 < [c10freeLane].length,
      (List.get [c10freeLane] ⟨0, hlt⟩).my_unit = none) :=
  ⟨claim_C10_theorem.1 c10unit [c10occLane, c10freeLane] 1 (by decide),
   claim_C10_theorem.2.1 c10unit [c10occLane] (by decide),
   claim_C10_theorem.2.2.1 [c10unit] [] c10analysis (str "mid") (str "low")
     (str "main") 10 [c10freeLane] c10step (by decide) 0 (by decide)⟩

/-- Helper: scheduler-loop energy invariant: the returned cumulative energy
is the starting cumulative plus the emitted steps' total cost, and it never
exceeds the budget if the starting cumulative does not. -/
theorem buildLoop_energy (cardDeps : List (Str × List Str))
    (battlefields : List BattlefieldState) (a : BattlefieldAnalysis)
    (threat_level : Str) (myEnergy : Int) :
    ∀ (fuel : Nat) (remaining : List CardInHand) (played : List Str)
      (cum : Int) (stepNum : Nat),
      (buildLoop cardDeps battlefields a threat_level myEnergy fuel remaining
          played cum stepNum).2 =
        cum + (((buildLoop cardDeps battlefields a threat_level myEnergy fuel
          remaining played cum stepNum).1).map (fun s => s.energy_cost)).sum ∧
      (cum ≤ myEnergy →
        (buildLoop cardDeps battlefields a threat_level myEnergy fuel remaining
          played cum stepNum).2 ≤ myEnergy) := by
  intro fuel
  induction fuel with
  | zero => intro remaining played cum stepNum; simp [buildLoop]
  | succ m ih =>
    intro remaining played cum stepNum
    rw [buildLoop]
    split
    · simp
    · split
      · simp
      next i hfind =>
        split
        · simp
        next card hget =>
          have hadm := List.findIdx?_of_eq_some hfind
          rw [List.get?_eq_getElem?] at hget
          rw [hget] at hadm
          unfold stepAdmissible at hadm
          simp only [Bool.and_eq_true, Bool.not_eq_true', decide_eq_false_iff_not,
            Int.not_lt] at hadm
          rcases hrec : buildLoop cardDeps battlefields a threat_level myEnergy m
              (remaining.eraseIdx i) (played ++ [card.card_id])
              (cum + card.energy_cost) (stepNum + 1) with ⟨rest, fc⟩
          have hih := ih (remaining.eraseIdx i) (played ++ [card.card_id])
            (cum + card.energy_cost) (stepNum + 1)
          rw [hrec] at hih
          simp only [hrec, List.map_cons, List.sum_cons]
          constructor
          · have h1 := hih.1
            simp only [] at h1 ⊢
            omega
          · intro _
            exact hih.2 hadm.1

/-- Helper: energy invariant of a whole scheduled sequence. -/
theorem build_sequence_energy (cards : List CardInHand)
    (card_values : List (Str × ℚ)) (a : BattlefieldAnalysis)
    (game_phase threat_level current_phase : Str) (my_energy : Int)
    (battlefields : List BattlefieldState) (h : 0 ≤ my_energy) :
    ((build_optimal_sequence cards card_values a game_phase threat_level
        current_phase my_energy battlefields).steps.map
      (fun s => s.energy_cost)).sum =
      (build_optimal_sequence cards card_values a game_phase threat_level
        current_phase my_energy battlefields).total_energy ∧
    (build_optimal_sequence cards card_values a game_phase threat_level
      current_phase my_energy battlefields).total_energy ≤ my_energy := by
  unfold build_optimal_sequence
  simp only []
  rcases hrec : buildLoop
      (cards.foldl (fun m card => pyDictInsert m card.card_id
        (identify_card_dependencies card cards battlefields)) [])
      battlefields a threat_level my_energy
      (pySortDesc (fun c => pyDictGet (cards.foldl (fun m card =>
        pyDictInsert m card.card_id (calculate_play_priority card card_values a
          game_phase threat_level current_phase)) []) c.card_id 0) cards).length
      (pySortDesc (fun c => pyDictGet (cards.foldl (fun m card =>
        pyDictInsert m card.card_id (calculate_play_priority card card_values a
          game_phase threat_level current_phase)) []) c.card_id 0) cards)
      [] 0 1 with ⟨st, ce⟩
  have hinv := buildLoop_energy
    (cards.foldl (fun m card => pyDictInsert m card.card_id
      (identify_card_dependencies card cards battlefields)) [])
    battlefields a threat_level my_energy
    (pySortDesc (fun c => pyDictGet (cards.foldl (fun m card =>
      pyDictInsert m card.card_id (calculate_play_priority card card_values a
        game_phase threat_level current_phase)) []) c.card_id 0) cards).length
    (pySortDesc (fun c => pyDictGet (cards.foldl (fun m card =>
      pyDictInsert m card.card_id (calculate_play_priority card card_values a
        game_phase threat_level current_phase)) []) c.card_id 0) cards)
    [] 0 1
  rw [hrec] at hinv
  simp only [hrec]
  simp only [zero_add] at hinv
  exact ⟨hinv.1.symm, hinv.2 h⟩

/-- C2: with a non-negative energy budget, every sequence the scheduler
produces — the primary sequence and every alternative — has a
`total_energy` equal to the sum of its steps' energy costs and within the
budget. -/
theorem claim_C2_theorem :
    (∀ (cards : List CardInHand) (card_values : List (Str × ℚ))
      (a : BattlefieldAnalysis) (game_phase threat_level current_phase : Str)
      (my_energy : Int) (battlefields : List BattlefieldState),
      0 ≤ my_energy →
      ((build_optimal_sequence cards card_values a game_phase threat_level
          current_phase my_energy battlefields).steps.map
        (fun s => s.energy_cost)).sum =
        (build_optimal_sequence cards card_values a game_phase threat_level
          current_phase my_energy battlefields).total_energy ∧
      (build_optimal_sequence cards card_values a game_phase threat_level
        current_phase my_energy battlefields).total_energy ≤ my_energy) ∧
    (∀ (cards : List CardInHand) (card_values : List (Str × ℚ))
      (a : BattlefieldAnalysis) (game_phase threat_level current_phase : Str)
      (my_energy : Int) (battlefields : List BattlefieldState)
      (primary : PlaySequence),
      0 ≤ my_energy →
      ∀ seq ∈ generate_alternative_sequences cards card_values a game_phase
          threat_level current_phase my_energy battlefields primary,
        (seq.steps.map (fun s => s.energy_cost)).sum = seq.total_energy ∧
        seq.total_energy ≤ my_energy) := by
  refine ⟨fun cards cv a gp tl cp me bfs h =>
    build_sequence_energy cards cv a gp tl cp me bfs h, ?_⟩
  intro cards cv a gp tl cp me bfs primary h seq hseq
  unfold generate_alternative_sequences at hseq
  simp only [List.mem_append] at hseq
  rcases hseq with (hseq | hseq) | hseq
  · split at hseq
    · split at hseq
      · simp only [List.mem_singleton] at hseq
        subst hseq
        exact build_sequence_energy _ _ _ _ _ _ _ _ h
      · simp at hseq
    · simp at hseq
  · split at hseq
    · split at hseq
      · simp only [List.mem_singleton] at hseq
        subst hseq
        exact build_sequence_energy _ _ _ _ _ _ _ _ h
      · simp at hseq
    · simp at hseq
  · split at hseq
    · simp at hseq
    · split at hseq
      · split at hseq
        · simp only [List.mem_singleton] at hseq
          subst hseq
          exact build_sequence_energy _ _ _ _ _ _ _ _ h
        · simp at hseq
      · simp at hseq

/-- C2 witness: `claim_C2_theorem` on a concrete one-card hand with budget
10: the scheduled sequence's step costs sum to its `total_energy`, which is
within the budget. -/
theorem claim_C2_witness :
    ((build_optimal_sequence [c10unit] [] c10analysis (str "mid") (str "low")
        (str "main") 10 [c10freeLane]).steps.map
      (fun s => s.energy_cost)).sum =
      (build_optimal_sequence [c10unit] [] c10analysis (str "mid") (str "low")
        (str "main") 10 [c10freeLane]).total_energy ∧
    (build_optimal_sequence [c10unit] [] c10analysis (str "mid") (str "low")
      (str "main") 10 [c10freeLane]).total_energy ≤ 10 :=
  claim_C2_theorem.1 [c10unit] [] c10analysis (str "mid") (str "low")
    (str "main") 10 [c10freeLane] (by norm_num)

/-- Helper: the scheduler loop only emits steps whose dependencies were all
played before the step, starting from the given `played` prefix. -/
theorem buildLoop_deps (cardDeps : List (Str × List Str))
    (battlefields : List BattlefieldState) (a : BattlefieldAnalysis)
    (threat_level : Str) (myEnergy : Int) :
    ∀ (fuel : Nat) (remaining : List CardInHand) (played : List Str)
      (cum : Int) (stepNum : Nat),
      depsPrecede played (buildLoop cardDeps battlefields a threat_level
        myEnergy fuel remaining played cum stepNum).1 = true := by
  intro fuel
  induction fuel with
  | zero => intro remaining played cum stepNum; simp [buildLoop, depsPrecede]
  | succ m ih =>
    intro remaining played cum stepNum
    rw [buildLoop]
    split
    · simp [depsPrecede]
    · split
      · simp [depsPrecede]
      next i hfind =>
        split
        · simp [depsPrecede]
        next card hget =>
          have hadm := List.findIdx?_of_eq_some hfind
          rw [List.get?_eq_getElem?] at hget
          rw [hget] at hadm
          unfold stepAdmissible at hadm
          simp only [Bool.and_eq_true] at hadm
          rcases hrec : buildLoop cardDeps battlefields a threat_level myEnergy m
              (remaining.eraseIdx i) (played ++ [card.card_id])
              (cum + card.energy_cost) (stepNum + 1) with ⟨rest, fc⟩
          have hih := ih (remaining.eraseIdx i) (played ++ [card.card_id])
            (cum + card.energy_cost) (stepNum + 1)
          rw [hrec] at hih
          simp only [hrec]
          simp only [depsPrecede, Bool.and_eq_true]
          exact ⟨hadm.2, hih⟩

/-- Helper: the invariant in indexed form: each dependency of step `i` is
either in the initial `seen` prefix or the card id of an earlier step. -/
theorem depsPrecede_index :
    ∀ (steps : List PlaySequenceStep) (seen : List Str),
      depsPrecede seen steps = true →
      ∀ (i : Nat) (hi : i < steps.length),
        ∀ d ∈ (steps.get ⟨i, hi⟩).dependencies,
          seen.contains d = true ∨
          ∃ j, ∃ hj : j < steps.length, j < i ∧
            (steps.get ⟨j, hj⟩).card_id = d := by
  intro steps
  induction steps with
  | nil => intro seen h i hi; simp at hi
  | cons s rest ih =>
    intro seen h i hi d hd
    simp only [depsPrecede, Bool.and_eq_true] at h
    cases i with
    | zero =>
      left
      simp only [List.get] at hd
      rw [List.all_eq_true] at h
      exact h.1 d hd
    | succ i =>
      have hi' : i < rest.length := by simpa using hi
      have hrec := ih (seen ++ [s.card_id]) h.2 i hi' d (by simpa using hd)
      rcases hrec with hc | ⟨j, hj, hlt, hid⟩
      · have hc' : d ∈ seen ∨ d = s.card_id := by simpa using hc
        rcases hc' with hc1 | hc1
        · left
          simpa using hc1
        · right
          exact ⟨0, by simp, by omega, by simp [List.get, hc1]⟩
      · right
        refine ⟨j + 1, by simpa using Nat.succ_lt_succ hj, by omega, ?_⟩
        simpa using hid

/-- Helper: dependency-order invariant of a whole scheduled sequence. -/
theorem build_sequence_deps (cards : List CardInHand)
    (card_values : List (Str × ℚ)) (a : BattlefieldAnalysis)
    (game_phase threat_level current_phase : Str) (my_energy : Int)
    (battlefields : List BattlefieldState) :
    depsPrecede [] (build_optimal_sequence cards card_values a game_phase
      threat_level current_phase my_energy battlefields).steps = true := by
  unfold build_optimal_sequence
  simp only []
  rcases hrec : buildLoop
      (cards.foldl (fun m card => pyDictInsert m card.card_id
        (identify_card_dependencies card cards battlefields)) [])
      battlefields a threat_level my_energy
      (pySortDesc (fun c => pyDictGet (cards.foldl (fun m card =>
        pyDictInsert m card.card_id (calculate_play_priority card card_values a
          game_phase threat_level current_phase)) []) c.card_id 0) cards).length
      (pySortDesc (fun c => pyDictGet (cards.foldl (fun m card =>
        pyDictInsert m card.card_id (calculate_play_priority card card_values a
          game_phase threat_level current_phase)) []) c.card_id 0) cards)
      [] 0 1 with ⟨st, ce⟩
  have hinv := buildLoop_deps
    (cards.foldl (fun m card => pyDictInsert m card.card_id
      (identify_card_dependencies card cards battlefields)) [])
    battlefields a threat_level my_energy
    (pySortDesc (fun c => pyDictGet (cards.foldl (fun m card =>
      pyDictInsert m card.card_id (calculate_play_priority card card_values a
        game_phase threat_level current_phase)) []) c.card_id 0) cards).length
    (pySortDesc (fun c => pyDictGet (cards.foldl (fun m card =>
      pyDictInsert m card.card_id (calculate_play_priority card card_values a
        game_phase threat_level current_phase)) []) c.card_id 0) cards)
    [] 0 1
  rw [hrec] at hinv
  simpa [hrec] using hinv

/-- C3: every step of every sequence the scheduler produces (primary and
alternatives) satisfies the dependency-order invariant `depsPrecede`:
scanning in order, each step's dependency ids were already emitted; in
indexed form, every dependency of step `i` is the card id of a step at a
strictly smaller index.  A card whose dependencies are never all played is
never admitted by the loop's admissibility test, hence never scheduled. -/
theorem claim_C3_theorem :
    (∀ (cards : List CardInHand) (card_values : List (Str × ℚ))
      (a : BattlefieldAnalysis) (game_phase threat_level current_phase : Str)
      (my_energy : Int) (battlefields : List BattlefieldState),
      depsPrecede [] (build_optimal_sequence cards card_values a game_phase
        threat_level current_phase my_energy battlefields).steps = true) ∧
    (∀ (cards : List CardInHand) (card_values : List (Str × ℚ))
      (a : BattlefieldAnalysis) (game_phase threat_level current_phase : Str)
      (my_energy : Int) (battlefields : List BattlefieldState)
      (primary : PlaySequence),
      ∀ seq ∈ generate_alternative_sequences cards card_values a game_phase
          threat_level current_phase my_energy battlefields primary,
        depsPrecede [] seq.steps = true) ∧
    (∀ (steps : List PlaySequenceStep), depsPrecede [] steps = true →
      ∀ (i : Nat) (hi : i < steps.length),
        ∀ d ∈ (steps.get ⟨i, hi⟩).dependencies,
          ∃ j, ∃ hj : j < steps.length, j < i ∧
            (steps.get ⟨j, hj⟩).card_id = d) := by
  refine ⟨fun cards cv a gp tl cp me bfs =>
    build_sequence_deps cards cv a gp tl cp me bfs, ?_, ?_⟩
  · intro cards cv a gp tl cp me bfs primary seq hseq
    unfold generate_alternative_sequences at hseq
    simp only [List.mem_append] at hseq
    rcases hseq with (hseq | hseq) | hseq
    · split at hseq
      · split at hseq
        · simp only [List.mem_singleton] at hseq
          subst hseq
          exact build_sequence_deps _ _ _ _ _ _ _ _
        · simp at hseq
      · simp at hseq
    · split at hseq
      · split at hseq
        · simp only [List.mem_singleton] at hseq
          subst hseq
          exact build_sequence_deps _ _ _ _ _ _ _ _
        · simp at hseq
      · simp at hseq
    · split at hseq
      · simp at hseq
      · split at hseq
        · split at hseq
          · simp only [List.mem_singleton] at hseq
            subst hseq
            exact build_sequence_deps _ _ _ _ _ _ _ _
          · simp at hseq
        · simp at hseq
  · intro steps h i hi d hd
    rcases depsPrecede_index steps [] h i hi d hd with hc | hout
    · simp at hc
    · exact hout

/-- C3 witness: `claim_C3_theorem`'s indexed form on a concrete two-step
list satisfying the invariant: the second step's dependency `"a"` is the
first step's card id. -/
theorem claim_C3_witness :
    ∃ j, ∃ hj : j < [c3stepA, c3stepB].length, j < 1 ∧
      (List.get [c3stepA, c3stepB] ⟨j, hj⟩).card_id = str "a" :=
  claim_C3_theorem.2.2 [c3stepA, c3stepB] (by decide) 1 (by decide)
    (str "a") (by decide)

/-- Helper: stable descending insertion produces a permutation of the
element consed on the list. -/
theorem pyInsertDesc_perm (key : α → ℚ) (x : α) (l : List α) :
    (pyInsertDesc key x l).Perm (x :: l) := by
  induction l with
  | nil => simp [pyInsertDesc]
  | cons y ys ih =>
    simp only [pyInsertDesc]
    split
    · exact ((ih.cons y).trans (List.Perm.swap x y ys)).symm.symm
    · exact List.Perm.refl _

/-- Helper: the stable descending sort is a permutation of its input. -/
theorem pySortDesc_perm (key : α → ℚ) (l : List α) :
    (pySortDesc key l).Perm l := by
  induction l with
  | nil => simp [pySortDesc]
  | cons x xs ih =>
    exact (pyInsertDesc_perm key x (pySortDesc key xs)).trans (ih.cons x)

/-- Helper: descending insertion preserves descending pairwise order. -/
theorem pyInsertDesc_sorted (key : α → ℚ) (x : α) (l : List α)
    (h : List.Pairwise (fun a b => key b ≤ key a) l) :
    List.Pairwise (fun a b => key b ≤ key a) (pyInsertDesc key x l) := by
  induction l with
  | nil => simp [pyInsertDesc]
  | cons y ys ih =>
    simp only [pyInsertDesc]
    rw [List.pairwise_cons] at h
    split
    · next hlt =>
      rw [List.pairwise_cons]
      constructor
      · intro a ha
        rcases List.mem_cons.mp ((pyInsertDesc_perm key x ys).mem_iff.mp ha) with ha | ha
        · subst ha; exact le_of_lt hlt
        · exact h.1 a ha
      · exact ih h.2
    · next hge =>
      rw [List.pairwise_cons]
      constructor
      · intro a ha
        rcases List.mem_cons.mp ha with ha | ha
        · subst ha; exact le_of_not_lt hge
        · exact le_trans (h.1 a ha) (le_of_not_lt hge)
      · exact List.pairwise_cons.mpr h

/-- Helper: the stable descending sort is pairwise descending in key. -/
theorem pySortDesc_sorted (key : α → ℚ) (l : List α) :
    List.Pairwise (fun a b => key b ≤ key a) (pySortDesc key l) := by
  induction l with
  | nil => simp [pySortDesc]
  | cons x xs ih => exact pyInsertDesc_sorted key x _ ih

/-- Helper: counting over the enumerated list by a predicate on the
entries equals counting over the plain list. -/
theorem enum_countP (l : List α) (q : α → Bool) :
    l.enum.countP (fun p => q p.2) = l.countP q := by
  have h1 : l.enum.countP (fun p => q p.2) =
      (l.enum.map Prod.snd).countP q := by
    rw [List.countP_map]
    rfl
  rw [h1, List.enum_map_snd]

/-- Helper: the index components of a filtered enumeration are distinct. -/
theorem enum_filter_fst_nodup (l : List α) (pred : Nat × α → Bool) :
    ((l.enum.filter pred).map Prod.fst).Nodup := by
  have hsub : (l.enum.filter pred).Sublist l.enum := List.filter_sublist _
  have hmap : ((l.enum.filter pred).map Prod.fst).Sublist
      (l.enum.map Prod.fst) := hsub.map Prod.fst
  exact hmap.nodup (by rw [List.enum_map_fst]; exact List.nodup_range _)

/-- Helper: the per-card evaluation loop yields one decision per card, in
order, carrying the card ids of the hand. -/
theorem mulligan_eval_loop_ids (cards : List CardInHand) :
    ∀ (hs : HandState) (ls : List Str) (ra : RuneAnalysis) (gf : Bool)
      (ds : List MulliganCardDecision),
      mulligan_eval_loop cards hs ls ra gf = some ds →
      ds.map (fun d => d.card_id) = cards.map (fun c => c.card_id) := by
  induction cards with
  | nil =>
    intro hs ls ra gf ds h
    simp [mulligan_eval_loop] at h
    subst h
    rfl
  | cons card rest ih =>
    intro hs ls ra gf ds h
    rw [mulligan_eval_loop] at h
    split at h
    · exact Option.noConfusion h
    next pr heval =>
      rw [Option.map_eq_some'] at h
      obtain ⟨ds0, hds0, hcons⟩ := h
      subst hcons
      simp only [List.map_cons]
      rw [ih _ _ _ _ _ hds0]

/-- Helper: flipping the decisions at a set of indices to keep does not
change the card ids. -/
theorem flipMap_card_id (decisions : List MulliganCardDecision)
    (fk : List Nat) (R : Str) :
    ((decisions.enum.map (fun p => if fk.contains p.1 then
        { p.2 with keep := true, reason := R } else p.2)).map
      (fun d => d.card_id)) = decisions.map (fun d => d.card_id) := by
  rw [List.map_map]
  have hcong : ∀ p ∈ decisions.enum,
      ((fun d => d.card_id) ∘ (fun p : Nat × MulliganCardDecision =>
        if fk.contains p.1 then { p.2 with keep := true, reason := R }
        else p.2)) p = ((fun d => d.card_id) ∘ Prod.snd) p := by
    intro p _
    simp only [Function.comp]
    split <;> rfl
  rw [List.map_congr_left hcong]
  rw [← List.map_map]
  rw [List.enum_map_snd]

/-- Helper: after flipping the decisions at the indices `fk` to keep, the
remaining mulligans are the originally mulliganed entries whose index is
outside `fk`. -/
theorem flipMap_countP (decisions : List MulliganCardDecision)
    (fk : List Nat) (R : Str) :
    (decisions.enum.map (fun p => if fk.contains p.1 then
        { p.2 with keep := true, reason := R } else p.2)).countP
      (fun d => !d.keep) =
      (decisions.enum.filter (fun p => !p.2.keep)).countP
        (fun p => !(fk.contains p.1)) := by
  rw [List.countP_map, List.countP_filter]
  apply List.countP_congr
  intro p _
  simp only [Function.comp]
  constructor
  · intro h
    split at h
    · simp at h
    · simp_all
  · intro h
    simp only [Bool.and_eq_true, Bool.not_eq_true'] at h
    rw [if_neg (by simp only [h.1]; exact Bool.false_ne_true)]
    simp [h.2]

/-- Helper: when every candidate's card id resolves in the hand, the
priority list pairs each candidate index with a priority, preserving the
index sequence. -/
theorem priority_snd_eq (hand : List CardInHand) :
    ∀ (tm : List (Nat × MulliganCardDecision)),
      (∀ p ∈ tm, (hand.find? (fun c => c.card_id == p.2.card_id)).isSome = true) →
      (tm.filterMap (fun p =>
        (hand.find? (fun c => c.card_id == p.2.card_id)).map
          (fun c => (calculate_mulligan_priority c, p.1)))).map (fun x => x.2) =
        tm.map Prod.fst := by
  intro tm
  induction tm with
  | nil => intro _; rfl
  | cons p ps ih =>
    intro h
    have hp := h p (List.mem_cons_self _ _)
    rw [Option.isSome_iff_exists] at hp
    obtain ⟨c, hc⟩ := hp
    simp only [List.filterMap_cons, hc, Option.map_some', List.map_cons]
    rw [ih (fun q hq => h q (List.mem_cons_of_mem _ hq))]

/-- Helper: the 2-card limit pass leaves exactly `min (number mulliganed) 2`
decisions marked mulligan. -/
theorem enforce_count (decisions : List MulliganCardDecision)
    (hand : List CardInHand)
    (hfind : ∀ d ∈ decisions,
      (hand.find? (fun c => c.card_id == d.card_id)).isSome = true) :
    (enforce_mulligan_limit decisions hand 2).countP (fun d => !d.keep) =
      min (decisions.countP (fun d => !d.keep)) 2 := by
  have html : (decisions.enum.filter (fun p => !p.2.keep)).length =
      decisions.countP (fun d => !d.keep) := by
    rw [← List.countP_eq_length_filter]
    exact enum_countP decisions (fun d => !d.keep)
  unfold enforce_mulligan_limit
  simp only []
  split
  · next hle =>
    rw [html] at hle
    exact (min_eq_left hle).symm
  · next hgt =>
    rw [html] at hgt
    rw [Nat.not_le] at hgt
    rw [flipMap_countP]
    set tm := decisions.enum.filter (fun p => !p.2.keep) with htmdef
    set mp := tm.filterMap (fun p =>
      (hand.find? (fun c => c.card_id == p.2.card_id)).map
        (fun c => (calculate_mulligan_priority c, p.1))) with hmpdef
    set sorted := pySortDesc (fun x : ℚ × Nat => x.1) mp with hsorteddef
    have hfind' : ∀ p ∈ tm,
        (hand.find? (fun c => c.card_id == p.2.card_id)).isSome = true := by
      intro p hp
      have hp2 : p.2 ∈ decisions := by
        rw [htmdef] at hp
        have hmem := (List.mem_filter.mp hp).1
        exact List.enum_map_snd decisions ▸ List.mem_map_of_mem Prod.snd hmem
      exact hfind p.2 hp2
    have hS : mp.map (fun x => x.2) = tm.map Prod.fst := by
      rw [hmpdef]
      exact priority_snd_eq hand tm hfind'
    have hperm : sorted.Perm mp := by
      rw [hsorteddef]
      exact pySortDesc_perm _ _
    have hmd : (sorted.drop 2).map (fun x : ℚ × Nat => x.2) =
        (sorted.map (fun x : ℚ × Nat => x.2)).drop 2 := List.map_drop _ _ _
    rw [hmd]
    set S := sorted.map (fun x : ℚ × Nat => x.2) with hSdef
    have hSperm : S.Perm (tm.map Prod.fst) := by
      rw [hSdef, ← hS]
      exact hperm.map _
    have hnodup : S.Nodup :=
      hSperm.nodup_iff.mpr (by rw [htmdef]; exact enum_filter_fst_nodup _ _)
    have hlen : S.length = tm.length := by
      rw [hSperm.length_eq, List.length_map]
    have hc1 : tm.countP (fun p => !((S.drop 2).contains p.1)) =
        (tm.map Prod.fst).countP (fun i => !((S.drop 2).contains i)) := by
      rw [List.countP_map]
      rfl
    rw [hc1, ← hSperm.countP_eq]
    set D := S.drop 2 with hDdef
    rw [show S = S.take 2 ++ D from by rw [hDdef]; exact (List.take_append_drop 2 S).symm]
    rw [List.countP_append]
    have hdrop0 : D.countP (fun i => !(D.contains i)) = 0 := by
      rw [List.countP_eq_zero]
      intro a ha
      simp only [Bool.not_eq_true', Bool.not_eq_false]
      rw [List.contains_eq_any_beq]
      simp only [List.any_eq_true, beq_iff_eq]
      exact ⟨a, ha, rfl⟩
    have htake : (S.take 2).countP (fun i => !(D.contains i)) =
        (S.take 2).length := by
      rw [List.countP_eq_length]
      intro a ha
      have hdisj : List.Disjoint (S.take 2) D := by
        apply List.disjoint_of_nodup_append
        rw [hDdef, List.take_append_drop]
        exact hnodup
      simp only [Bool.not_eq_true']
      rw [← Bool.not_eq_true]
      intro hc
      rw [List.contains_eq_any_beq] at hc
      simp only [List.any_eq_true, beq_iff_eq] at hc
      obtain ⟨b, hb, hab⟩ := hc
      subst hab
      exact hdisj ha hb
    rw [hdrop0, htake, List.length_take, hlen, html]
    omega

/-- Helper: every forced-keep index names a mulligan candidate: it is the
index component of an entry of the filtered enumeration. -/
theorem mem_fk_imp (decisions : List MulliganCardDecision)
    (hand : List CardInHand) (i : Nat)
    (hmem : i ∈ ((pySortDesc (fun x : ℚ × Nat => x.1)
      ((decisions.enum.filter (fun p => !p.2.keep)).filterMap (fun p =>
        (hand.find? (fun c => c.card_id == p.2.card_id)).map
          (fun c => (calculate_mulligan_priority c, p.1))))).drop 2).map
      (fun x => x.2)) :
    ∃ p ∈ decisions.enum.filter (fun p => !p.2.keep), p.1 = i := by
  rw [List.mem_map] at hmem
  obtain ⟨x, hx, hxi⟩ := hmem
  have hx1 : x ∈ pySortDesc (fun x : ℚ × Nat => x.1)
      ((decisions.enum.filter (fun p => !p.2.keep)).filterMap (fun p =>
        (hand.find? (fun c => c.card_id == p.2.card_id)).map
          (fun c => (calculate_mulligan_priority c, p.1)))) :=
    (List.drop_sublist 2 _).mem hx
  have hx2 := (pySortDesc_perm (fun x : ℚ × Nat => x.1) _).mem_iff.mp hx1
  rw [List.mem_filterMap] at hx2
  obtain ⟨p, hp, hpx⟩ := hx2
  rw [Option.map_eq_some'] at hpx
  obtain ⟨c, _, hcx⟩ := hpx
  refine ⟨p, hp, ?_⟩
  rw [← hcx] at hxi
  exact hxi

/-- Helper: an entry of the filtered enumeration is the mulliganed decision
at its index. -/
theorem mem_enum_filter_get (decisions : List MulliganCardDecision)
    (p : Nat × MulliganCardDecision)
    (hp : p ∈ decisions.enum.filter (fun p => !p.2.keep)) :
    decisions[p.1]? = some p.2 ∧ p.2.keep = false := by
  have hmem := (List.mem_filter.mp hp).1
  have hkeep := (List.mem_filter.mp hp).2
  simp only [Bool.not_eq_true'] at hkeep
  exact ⟨List.mem_enum_iff_getElem?.mp hmem, hkeep⟩

/-- Helper: the limit pass never touches a decision already marked keep. -/
theorem enforce_keeps (decisions : List MulliganCardDecision)
    (hand : List CardInHand) (i : Nat) (d : MulliganCardDecision)
    (hd : decisions[i]? = some d) (hkeep : d.keep = true) :
    (enforce_mulligan_limit decisions hand 2)[i]? = some d := by
  unfold enforce_mulligan_limit
  simp only []
  split
  · exact hd
  · next hgt =>
    rw [List.getElem?_map]
    rw [List.getElem?_enum, hd]
    simp only [Option.map_some']
    split
    · next hcont =>
      exfalso
      rw [List.contains_eq_any_beq] at hcont
      simp only [List.any_eq_true, beq_iff_eq] at hcont
      obtain ⟨j, hj, hij⟩ := hcont
      subst hij
      obtain ⟨p, hp, hpi⟩ := mem_fk_imp decisions hand i hj
      obtain ⟨hgetp, hkeepp⟩ := mem_enum_filter_get decisions p hp
      rw [hpi, hd] at hgetp
      rw [Option.some.inj hgetp] at hkeep
      rw [hkeep] at hkeepp
      exact Bool.noConfusion hkeepp
    · rfl

/-- Helper: every entry of the sorted priority list is (priority, index) for
a mulliganed decision whose id resolves in the hand. -/
theorem sorted_entry (decisions : List MulliganCardDecision)
    (hand : List CardInHand) (x : ℚ × Nat)
    (hx : x ∈ pySortDesc (fun x : ℚ × Nat => x.1)
      ((decisions.enum.filter (fun p => !p.2.keep)).filterMap (fun p =>
        (hand.find? (fun c => c.card_id == p.2.card_id)).map
          (fun c => (calculate_mulligan_priority c, p.1))))) :
    ∃ d, decisions[x.2]? = some d ∧ d.keep = false ∧
      x.1 = ((hand.find? (fun c => c.card_id == d.card_id)).map
        calculate_mulligan_priority).getD 0 := by
  have hx2 := (pySortDesc_perm (fun x : ℚ × Nat => x.1) _).mem_iff.mp hx
  rw [List.mem_filterMap] at hx2
  obtain ⟨p, hp, hpx⟩ := hx2
  rw [Option.map_eq_some'] at hpx
  obtain ⟨c, hc, hcx⟩ := hpx
  obtain ⟨hgetp, hkeepp⟩ := mem_enum_filter_get decisions p hp
  refine ⟨p.2, ?_, hkeepp, ?_⟩
  · rw [← hcx]
    exact hgetp
  · rw [← hcx]
    simp only [hc, Option.map_some', Option.getD_some]

/-- Helper: when the limit kicks in, a still-mulliganed candidate has
priority at least that of any candidate flipped back to keep. -/
theorem enforce_minimality (decisions : List MulliganCardDecision)
    (hand : List CardInHand)
    (hfind : ∀ d ∈ decisions,
      (hand.find? (fun c => c.card_id == d.card_id)).isSome = true)
    (i j : Nat) (di dj ri rj : MulliganCardDecision)
    (hdi : decisions[i]? = some di) (hdj : decisions[j]? = some dj)
    (hri : (enforce_mulligan_limit decisions hand 2)[i]? = some ri)
    (hrj : (enforce_mulligan_limit decisions hand 2)[j]? = some rj)
    (hdik : di.keep = false) (hdjk : dj.keep = false)
    (hrik : ri.keep = true) (hrjk : rj.keep = false) :
    ((hand.find? (fun c => c.card_id == di.card_id)).map
      calculate_mulligan_priority).getD 0 ≤
    ((hand.find? (fun c => c.card_id == dj.card_id)).map
      calculate_mulligan_priority).getD 0 := by
  unfold enforce_mulligan_limit at hri hrj
  simp only [] at hri hrj
  by_cases hc : (decisions.enum.filter (fun p => !p.2.keep)).length ≤ 2
  · rw [if_pos hc] at hri
    rw [hdi] at hri
    rw [Option.some.inj hri] at hdik
    rw [hrik] at hdik
    exact Bool.noConfusion hdik
  · rw [if_neg hc] at hri hrj
    rw [List.getElem?_map, List.getElem?_enum, hdi] at hri
    rw [List.getElem?_map, List.getElem?_enum, hdj] at hrj
    simp only [Option.map_some'] at hri hrj
    have hri2 := Option.some.inj hri
    have hrj2 := Option.some.inj hrj
    -- the flipped index i must be a forced keep
    have hconti : (((pySortDesc (fun x : ℚ × Nat => x.1)
        ((decisions.enum.filter (fun p => !p.2.keep)).filterMap (fun p =>
          (hand.find? (fun c => c.card_id == p.2.card_id)).map
            (fun c => (calculate_mulligan_priority c, p.1))))).drop 2).map
        (fun x => x.2)).contains i = true := by
      by_contra hcont
      rw [Bool.not_eq_true] at hcont
      rw [if_neg (ne_true_of_eq_false hcont)] at hri2
      rw [← hri2] at hrik
      rw [hrik] at hdik
      exact Bool.noConfusion hdik
    -- the still-mulliganed index j must not be
    have hcontj : (((pySortDesc (fun x : ℚ × Nat => x.1)
        ((decisions.enum.filter (fun p => !p.2.keep)).filterMap (fun p =>
          (hand.find? (fun c => c.card_id == p.2.card_id)).map
            (fun c => (calculate_mulligan_priority c, p.1))))).drop 2).map
        (fun x => x.2)).contains j = false := by
      by_contra hcont
      rw [Bool.not_eq_false] at hcont
      rw [if_pos hcont] at hrj2
      rw [← hrj2] at hrjk
      exact Bool.noConfusion hrjk
    -- locate the entry of i in the dropped tail
    rw [List.contains_eq_any_beq] at hconti
    simp only [List.any_eq_true, beq_iff_eq] at hconti
    obtain ⟨i2, hi2mem, hi2eq⟩ := hconti
    subst hi2eq
    rw [List.mem_map] at hi2mem
    obtain ⟨xi, hxi, hxieq⟩ := hi2mem
    have hxie := sorted_entry decisions hand xi
      ((List.drop_sublist 2 _).mem hxi)
    obtain ⟨d, hd1, hd2, hd3⟩ := hxie
    rw [hxieq, hdi] at hd1
    rw [← Option.some.inj hd1] at hd3
    -- locate the entry of j in the kept head
    have hjmem : ((j : Nat), dj) ∈ decisions.enum.filter (fun p => !p.2.keep) := by
      rw [List.mem_filter]
      constructor
      · exact List.mem_enum_iff_getElem?.mpr hdj
      · simp [hdjk]
    have hjfind := hfind dj (List.getElem?_mem hdj)
    rw [Option.isSome_iff_exists] at hjfind
    obtain ⟨cj, hcj⟩ := hjfind
    have hjmp : ((calculate_mulligan_priority cj, j) : ℚ × Nat) ∈
        (decisions.enum.filter (fun p => !p.2.keep)).filterMap (fun p =>
          (hand.find? (fun c => c.card_id == p.2.card_id)).map
            (fun c => (calculate_mulligan_priority c, p.1))) := by
      rw [List.mem_filterMap]
      exact ⟨(j, dj), hjmem, by rw [hcj]; rfl⟩
    have hjsorted := (pySortDesc_perm (fun x : ℚ × Nat => x.1) _).mem_iff.mpr hjmp
    rw [← List.take_append_drop 2 (pySortDesc (fun x : ℚ × Nat => x.1) _),
      List.mem_append] at hjsorted
    rcases hjsorted with hjtake | hjdrop
    · -- pairwise order across the split
      have hpw := pySortDesc_sorted (fun x : ℚ × Nat => x.1)
        ((decisions.enum.filter (fun p => !p.2.keep)).filterMap (fun p =>
          (hand.find? (fun c => c.card_id == p.2.card_id)).map
            (fun c => (calculate_mulligan_priority c, p.1))))
      rw [← List.take_append_drop 2 (pySortDesc (fun x : ℚ × Nat => x.1) _),
        List.pairwise_append] at hpw
      have hle := hpw.2.2 _ hjtake _ hxi
      rw [hd3] at hle
      have : ((hand.find? (fun c => c.card_id == dj.card_id)).map
          calculate_mulligan_priority).getD 0 = calculate_mulligan_priority cj := by
        rw [hcj]
        rfl
      rw [this]
      exact hle
    · -- contradiction: j would be a forced keep
      exfalso
      have : j ∈ (((pySortDesc (fun x : ℚ × Nat => x.1)
          ((decisions.enum.filter (fun p => !p.2.keep)).filterMap (fun p =>
            (hand.find? (fun c => c.card_id == p.2.card_id)).map
              (fun c => (calculate_mulligan_priority c, p.1))))).drop 2).map
          (fun x => x.2)) := by
        rw [List.mem_map]
        exact ⟨(calculate_mulligan_priority cj, j), hjdrop, rfl⟩
      rw [List.contains_eq_any_beq] at hcontj
      simp only [List.any_eq_false, beq_iff_eq] at hcontj
      exact hcontj j this rfl

/-- Helper: the limit pass preserves the number of decisions. -/
theorem enforce_length (decisions : List MulliganCardDecision)
    (hand : List CardInHand) :
    (enforce_mulligan_limit decisions hand 2).length = decisions.length := by
  unfold enforce_mulligan_limit
  simp only []
  split
  · rfl
  · rw [List.length_map, List.enum_length]

/-- Helper: post-pass bounds of `analyze_mulligan` on a 4-card hand: at
most 2 mulligans, at least 1 keep, one decision per card. -/
theorem analyze_bounds (hand : List CardInHand) (legend : Option CardRecord)
    (turn : Int) (gf : Bool) (advice : MulliganAdvice)
    (hlen : hand.length = 4)
    (h : analyze_mulligan hand legend turn gf = some advice) :
    advice.decisions.countP (fun d => !d.keep) ≤ 2 ∧
    1 ≤ advice.decisions.countP (fun d => d.keep) ∧
    advice.decisions.length = 4 := by
  unfold analyze_mulligan at h
  rw [if_neg (by rw [List.isEmpty_iff_length_eq_zero, hlen]; omega)] at h
  rw [if_neg (by rw [hlen]; omega)] at h
  split at h
  · exact Option.noConfusion h
  next comp hcomp =>
    simp only [] at h
    split at h
    · exact Option.noConfusion h
    next decisions0 heval =>
      have hids := mulligan_eval_loop_ids hand _ _ _ _ _ heval
      have hlen0 : decisions0.length = 4 := by
        have := congrArg List.length hids
        simp only [List.length_map] at this
        rw [this, hlen]
      have hfind0 : ∀ d ∈ decisions0,
          (hand.find? (fun c => c.card_id == d.card_id)).isSome = true := by
        intro d hd
        have hmem : d.card_id ∈ decisions0.map (fun d => d.card_id) :=
          List.mem_map_of_mem _ hd
        rw [hids] at hmem
        rw [List.mem_map] at hmem
        obtain ⟨c, hc, hceq⟩ := hmem
        rw [List.find?_isSome]
        exact ⟨c, hc, by rw [beq_iff_eq, hceq]⟩
      have hcount1 := enforce_count decisions0 hand hfind0
      have hle2 : (enforce_mulligan_limit decisions0 hand 2).countP
          (fun d => !d.keep) ≤ 2 := by
        rw [hcount1]
        exact min_le_right _ _
      have hlen1 : (enforce_mulligan_limit decisions0 hand 2).length = 4 := by
        rw [enforce_length, hlen0]
      have hkeep1 : 1 ≤ (enforce_mulligan_limit decisions0 hand 2).countP
          (fun d => d.keep) := by
        by_contra h0
        rw [Nat.not_le, Nat.lt_one_iff, List.countP_eq_zero] at h0
        have hall : (enforce_mulligan_limit decisions0 hand 2).countP
            (fun d => !d.keep) =
            (enforce_mulligan_limit decisions0 hand 2).length := by
          rw [List.countP_eq_length]
          intro d hd
          simp only [Bool.not_eq_true']
          exact Bool.eq_false_iff.mpr (h0 d hd)
        rw [hlen1] at hall
        omega
      have hens : ensure_keep_at_least_one
          (enforce_mulligan_limit decisions0 hand 2) hand =
          some (enforce_mulligan_limit decisions0 hand 2) := by
        have hfilter : (!((enforce_mulligan_limit decisions0 hand 2).filter
            (fun d => d.keep)).isEmpty) = true := by
          rw [Bool.not_eq_true']
          rw [List.isEmpty_eq_false]
          intro hnil
          have hlf := congrArg List.length hnil
          rw [← List.countP_eq_length_filter] at hlf
          simp only [List.length_nil] at hlf
          omega
        unfold ensure_keep_at_least_one
        rw [if_pos hfilter]
      rw [hens] at h
      have hadv := Option.some.inj h
      rw [← hadv]
      exact ⟨hle2, hkeep1, hlen1⟩

/-- C1: (1) on every 4-card hand, the advice returned by `analyze_mulligan`
holds one decision per card with at most 2 mulligans and at least 1 keep —
even when the per-card evaluation initially mulliganed more (the limit pass
flips the excess back).  (2) The limit pass leaves exactly
`min (initially mulliganed) 2` mulligans, (3) it never touches a decision
already marked keep, and (4) any candidate flipped back to keep scores no
higher under the separate mulligan-priority function than any candidate
left on mulligan: exactly the worst-scoring excess candidates are
flipped. -/
theorem claim_C1_theorem :
    (∀ (hand : List CardInHand) (legend : Option CardRecord) (turn : Int)
      (gf : Bool) (advice : MulliganAdvice),
      hand.length = 4 →
      analyze_mulligan hand legend turn gf = some advice →
      advice.decisions.countP (fun d => !d.keep) ≤ 2 ∧
      1 ≤ advice.decisions.countP (fun d => d.keep) ∧
      advice.decisions.length = 4) ∧
    (∀ (decisions : List MulliganCardDecision) (hand : List CardInHand),
      (∀ d ∈ decisions,
        (hand.find? (fun c => c.card_id == d.card_id)).isSome = true) →
      (enforce_mulligan_limit decisions hand 2).countP (fun d => !d.keep) =
        min (decisions.countP (fun d => !d.keep)) 2) ∧
    (∀ (decisions : List MulliganCardDecision) (hand : List CardInHand)
      (i : Nat) (d : MulliganCardDecision),
      decisions[i]? = some d → d.keep = true →
      (enforce_mulligan_limit decisions hand 2)[i]? = some d) ∧
    (∀ (decisions : List MulliganCardDecision) (hand : List CardInHand),
      (∀ d ∈ decisions,
        (hand.find? (fun c => c.card_id == d.card_id)).isSome = true) →
      ∀ (i j : Nat) (di dj ri rj : MulliganCardDecision),
        decisions[i]? = some di → decisions[j]? = some dj →
        (enforce_mulligan_limit decisions hand 2)[i]? = some ri →
        (enforce_mulligan_limit decisions hand 2)[j]? = some rj →
        di.keep = false → dj.keep = false →
        ri.keep = true → rj.keep = false →
        ((hand.find? (fun c => c.card_id == di.card_id)).map
          calculate_mulligan_priority).getD 0 ≤
        ((hand.find? (fun c => c.card_id == dj.card_id)).map
          calculate_mulligan_priority).getD 0) :=
  ⟨fun hand legend turn gf advice hlen h =>
      analyze_bounds hand legend turn gf advice hlen h,
   fun decisions hand hfind => enforce_count decisions hand hfind,
   fun decisions hand i d hd hk => enforce_keeps decisions hand i d hd hk,
   fun decisions hand hfind i j di dj ri rj hdi hdj hri hrj hdik hdjk hrik hrjk =>
      enforce_minimality decisions hand hfind i j di dj ri rj hdi hdj hri hrj
        hdik hdjk hrik hrjk⟩

/-- C1 witness: `claim_C1_theorem` on a concrete two-decision list: the
limit pass reports `min 1 2` mulligans and leaves the kept decision at
index 0 untouched. -/
theorem claim_C1_witness :
    (enforce_mulligan_limit [c1decK, c1decM] c1hand 2).countP
      (fun d => !d.keep) =
      min ([c1decK, c1decM].countP (fun d => !d.keep)) 2 ∧
    (enforce_mulligan_limit [c1decK, c1decM] c1hand 2)[0]? = some c1decK :=
  ⟨claim_C1_theorem.2.1 [c1decK, c1decM] c1hand (by decide),
   claim_C1_theorem.2.2.1 [c1decK, c1decM] c1hand 0 c1decK (by decide) (by decide)⟩
